import Mathlib

/- Verification of the Aerofit data-processing pipeline
   (src/data_processing.py and src/plots.py).

   Pandas dataframes are modelled as row-major tables of cells; numeric
   values are exact rationals.  Operations that can raise an uncaught
   exception in the Python code are modelled in the Option monad, with
   none standing for an exception that propagates to the caller. -/

namespace Aerofit

attribute [local semireducible] Rat.mul Rat.add Rat.sub Rat.inv

/-- A cell of a table: a string, a numeric value (exact rational), a
parsed timestamp (year, month, day), or a missing value (NaN/NaT). -/
inductive Cell where
  | str (s : String)
  | num (q : ℚ)
  | dt (y m d : ℕ)
  | na
deriving DecidableEq, Repr

/-- A table: a header of column names and a list of rows.  A row holds
one cell per header entry (well-formedness is stated separately). -/
structure Table where
  header : List String
  rows : List (List Cell)
deriving DecidableEq, Repr

/-- Well-formedness of a table: each row has exactly one cell per column. -/
def Table.Wf (t : Table) : Prop :=
  ∀ r ∈ t.rows, r.length = t.header.length

instance (t : Table) : Decidable t.Wf := by
  unfold Table.Wf; infer_instance

/-- Number of rows of a table. -/
def Table.nrows (t : Table) : ℕ := t.rows.length

/-- Index of the first column with the given name, if any. -/
def idxOf? (n : String) : List String → Option ℕ
  | [] => none
  | h :: tl => if h = n then some 0 else (idxOf? n tl).map (· + 1)

/-- The cell of a row at a column index (missing if the row is short). -/
def cellAt (r : List Cell) (i : ℕ) : Cell := r.getD i Cell.na

/-- The column with the given name, if present: the list of its cells in
row order. -/
def Table.getCol? (t : Table) (n : String) : Option (List Cell) :=
  (idxOf? n t.header).map fun i => t.rows.map (fun r => cellAt r i)

/-- Overwrite the column at index `i` with the given values. -/
def Table.setColAt (t : Table) (i : ℕ) (vs : List Cell) : Table :=
  ⟨t.header, List.zipWith (fun r v => r.set i v) t.rows vs⟩

/-- Append a new column with the given name and values. -/
def Table.addCol (t : Table) (n : String) (vs : List Cell) : Table :=
  ⟨t.header ++ [n], List.zipWith (fun r v => r ++ [v]) t.rows vs⟩

/-- Assignment `df[n] = vs`: overwrite the column if the name exists,
otherwise append it. -/
def Table.setCol (t : Table) (n : String) (vs : List Cell) : Table :=
  match idxOf? n t.header with
  | some i => t.setColAt i vs
  | none => t.addCol n vs

/- ### String helpers (modelling the Python string methods used) -/

/-- Lower-case an ASCII character, as Python str.lower does on ASCII. -/
def lowerChar (c : Char) : Char :=
  if h : 65 ≤ c.toNat ∧ c.toNat ≤ 90 then
    Char.ofNatAux (c.toNat + 32) (Or.inl (by omega))
  else c

/-- Upper-case an ASCII character, as Python str.upper does on ASCII. -/
def upperChar (c : Char) : Char :=
  if h : 97 ≤ c.toNat ∧ c.toNat ≤ 122 then
    Char.ofNatAux (c.toNat - 32) (Or.inl (by omega))
  else c

/-- Python str.lower on the character list of a string. -/
def lowerStr (s : String) : String := String.mk (s.data.map lowerChar)

/-- Python str.upper on the character list of a string. -/
def upperStr (s : String) : String := String.mk (s.data.map upperChar)

/-- Strip leading and trailing whitespace from a character list. -/
def trimChars (l : List Char) : List Char :=
  ((l.dropWhile Char.isWhitespace).reverse.dropWhile Char.isWhitespace).reverse

/-- Python str.strip: remove leading and trailing whitespace. -/
def stripStr (s : String) : String := String.mk (trimChars s.data)

/-- Python `"pat" in s` for a single-character pattern. -/
def strHasChar (s : String) (c : Char) : Bool := s.data.any (fun x => x = c)

/-- Replace a space character by an underscore. -/
def replChar (c : Char) : Char := if c = ' ' then '_' else c

/-- `s.replace(" ", "_")`: replace every space character by an underscore. -/
def replaceSpace (s : String) : String :=
  String.mk (s.data.map replChar)

/-- Remove every whitespace character, modelling
`.str.replace(r"\s+", "", regex=True)`. -/
def removeWhitespace (s : String) : String :=
  String.mk (s.data.filter (fun c => !c.isWhitespace))

/-- Prefix test on character lists. -/
def leadsWith : List Char → List Char → Bool
  | [], _ => true
  | _ :: _, [] => false
  | a :: as, b :: bs => a = b && leadsWith as bs

/-- Python `pat in s`: substring containment. -/
def strContains (s pat : String) : Bool :=
  (List.range (s.data.length + 1)).any fun i => leadsWith pat.data (s.data.drop i)

/-- Rendering of a cell by Python str(), as used by `.astype(str)`.
NaN renders as the string "nan". -/
def cellStr : Cell → String
  | .str s => s
  | .num q => if q.den = 1 then toString q.num else toString q.num ++ "/" ++ toString q.den
  | .dt y m d => toString y ++ "-" ++ toString m ++ "-" ++ toString d
  | .na => "nan"

/-- Is the cell a string? A column is of pandas object dtype in this
model exactly when it contains a string cell. -/
def isStrCell : Cell → Bool
  | .str _ => true
  | _ => false

/-- `.astype(str).str.strip()` applied to one cell. -/
def stripCell (c : Cell) : Cell := .str (stripStr (cellStr c))

/- ### Numeric parsing (pd.to_numeric with errors="coerce") -/

/-- Digits of a character list interpreted in base 10, if all digits. -/
def digitsVal : List Char → Option ℕ
  | [] => none
  | l => l.foldl (fun acc c =>
      acc.bind fun a => if c.isDigit then some (a * 10 + (c.toNat - 48)) else none)
      (some 0)

/-- Parse a decimal literal (optional sign, integer part, optional
fractional part) as an exact rational.  This models pd.to_numeric for
the plain numeric literals the pipeline encounters; anything else
coerces to missing. -/
def parseRat (s : String) : Option ℚ :=
  let l := trimChars s.data
  let (sign, l) : ℚ × List Char :=
    match l with
    | '-' :: rest => (-1, rest)
    | '+' :: rest => (1, rest)
    | _ => (1, l)
  match l.splitOn '.' with
  | [ip] => (digitsVal ip).map fun n => sign * n
  | [ip, fp] =>
      match digitsVal ip, digitsVal fp with
      | some n, some f => some (sign * (n + (f : ℚ) / (10 ^ fp.length)))
      | _, _ => none
  | _ => none

/-- `pd.to_numeric(-, errors="coerce")` on one cell: numbers pass
through, parseable strings are parsed, everything else becomes missing. -/
def toNumericCell : Cell → Option ℚ
  | .num q => some q
  | .str s => parseRat s
  | _ => none

/- ### basic_clean -/

/-- Column-name normalization: `c.strip().lower().replace(" ", "_")`. -/
def normalizeName (s : String) : String :=
  replaceSpace (lowerStr (stripStr s))

/-- Drop exact duplicates, keeping the first occurrence of each row,
as `DataFrame.drop_duplicates` does. -/
def dedupKeepFirst [DecidableEq α] : List α → List α → List α
  | [], _ => []
  | x :: xs, seen =>
      if x ∈ seen then dedupKeepFirst xs seen
      else x :: dedupKeepFirst xs (x :: seen)

/-- The object-dtype mask of a table: for each column index, whether the
column contains a string cell (pandas object dtype). -/
def objMask (hlen : ℕ) (rows : List (List Cell)) : List Bool :=
  (List.range hlen).map fun i => rows.any fun r => isStrCell (cellAt r i)

/-- Trim one row: `astype(str).str.strip()` on the cells of object
columns, other cells untouched. -/
def trimRow (mask : List Bool) (r : List Cell) : List Cell :=
  List.zipWith (fun b c => if b then stripCell c else c) mask r

/-- `basic_clean`: normalize column names, drop exact duplicate rows
keeping first occurrences, then strip whitespace from the string columns. -/
def basic_clean (t : Table) : Table :=
  let header := t.header.map normalizeName
  let rows := dedupKeepFirst t.rows []
  let mask := objMask header.length rows
  ⟨header, rows.map (trimRow mask)⟩

/- ### impute_and_cast -/

/-- Median of a list of rationals, as numpy computes it: middle element
of the sorted list, or the mean of the two middle elements. -/
def median (xs : List ℚ) : ℚ :=
  let s := List.insertionSort (fun a b : ℚ => a ≤ b) xs
  let n := s.length
  if n % 2 = 1 then s.getD (n / 2) 0
  else (s.getD (n / 2 - 1) 0 + s.getD (n / 2) 0) / 2

/-- The fill value used for a numeric column: the median of the
non-missing values after coercion, or 0 when every value is missing. -/
def fillValue (cs : List Cell) : ℚ :=
  let present := cs.filterMap toNumericCell
  if present.isEmpty then 0 else median present

/-- Coerce a column to numeric and fill missing values with the median
(or 0), as the body of the impute loop does for one column. -/
def imputeNums (cs : List Cell) : List Cell :=
  (cs.map toNumericCell).map fun o => .num (o.getD (fillValue cs))

/-- `astype(str).str.strip()` on a whole column. -/
def castCat (cs : List Cell) : List Cell := cs.map stripCell

/-- Apply a whole-column transformation to a named column if it is
present, as `if col in df.columns: df[col] = f(df[col])`. -/
def updateCol (t : Table) (n : String) (f : List Cell → List Cell) : Table :=
  match t.getCol? n with
  | some cs => t.setCol n (f cs)
  | none => t

/-- The fixed candidate list of numeric columns. -/
def numericCandidates : List String :=
  ["income", "miles", "usage", "fitness", "age", "year", "price", "quantity", "count"]

/-- The fixed list of categorical columns cast to clean strings. -/
def catColumns : List String := ["product", "gender", "education"]

/-- One step of the numeric impute loop. -/
def imputeStep (t : Table) (n : String) : Table := updateCol t n imputeNums

/-- One step of the categorical cast loop. -/
def castStep (t : Table) (n : String) : Table := updateCol t n castCat

/-- `impute_and_cast`: coerce each present candidate column to numeric
and fill missing values with its median (0 if the median is undefined),
then cast each present categorical column to stripped strings. -/
def impute_and_cast (t : Table) : Table :=
  catColumns.foldl castStep (numericCandidates.foldl imputeStep t)

/- ### feature_engineering -/

/-- Floor of a nonnegative rational as a natural number. -/
def floorNat (q : ℚ) : ℕ := q.num.toNat / q.den

/-- Linear-interpolation quantile of a sorted nonempty list, as
numpy/pandas compute it: at position `p * (n - 1)`. -/
def quantileAt (s : List ℚ) (p : ℚ) : ℚ :=
  let n := s.length
  let h := p * ((n : ℚ) - 1)
  let i := floorNat h
  let lo := s.getD i 0
  let hi := s.getD (i + 1) lo
  lo + (h - (i : ℚ)) * (hi - lo)

/-- View a column as numeric values with missing entries, failing (as
pandas binning raises a TypeError) when the column holds a string. -/
def toNums? (cs : List Cell) : Option (List (Option ℚ)) :=
  if cs.all (fun c => !isStrCell c) then
    some (cs.map toNumericCell)
  else none

/-- Label a value against two ordered cut points, right-closed bins. -/
def labelOf (e1 e2 : ℚ) (lab1 lab2 lab3 : String) (q : ℚ) : String :=
  if q ≤ e1 then lab1 else if q ≤ e2 then lab2 else lab3

/-- `pd.qcut(-, q=3, labels=[lab1, lab2, lab3])`: three-way quantile
split; missing values get missing labels; fails (ValueError) when the
quantile edges are not strictly increasing (too few distinct values). -/
def qcut3 (lab1 lab2 lab3 : String) (nums : List (Option ℚ)) : Option (List Cell) :=
  let vals := nums.filterMap id
  if vals.isEmpty then none
  else
    let s := List.insertionSort (fun a b : ℚ => a ≤ b) vals
    let e0 := quantileAt s 0
    let e1 := quantileAt s (1/3)
    let e2 := quantileAt s (2/3)
    let e3 := quantileAt s 1
    if e0 < e1 ∧ e1 < e2 ∧ e2 < e3 then
      some (nums.map fun o => match o with
        | none => .na
        | some q => .str (labelOf e1 e2 lab1 lab2 lab3 q))
    else none

/-- `pd.cut(-, bins=3, labels=[lab1, lab2, lab3])`: three equal-width
bins over the observed range (degenerate ranges widened by 0.1% on each
side, as pandas does); fails when there is no non-missing value. -/
def cut3 (lab1 lab2 lab3 : String) (nums : List (Option ℚ)) : Option (List Cell) :=
  let vals := nums.filterMap id
  match vals.min?, vals.max? with
  | some mn, some mx =>
      let mn' := if mn = mx then mn - (if mn = 0 then 1/1000 else |mn| / 1000) else mn
      let mx' := if mn = mx then mx + (if mx = 0 then 1/1000 else |mx| / 1000) else mx
      let w := mx' - mn'
      let e1 := mn' + w / 3
      let e2 := mn' + 2 * w / 3
      some (nums.map fun o => match o with
        | none => .na
        | some q => .str (labelOf e1 e2 lab1 lab2 lab3 q))
  | _, _ => none

/-- Number of distinct non-missing values, as `Series.nunique`. -/
def nuniqueNums (nums : List (Option ℚ)) : ℕ :=
  (dedupKeepFirst (nums.filterMap id) []).length

/-- The gender mapping lambda: `male` if the string contains "m", else
`female` if it contains "f", else the string itself. -/
def genderRule (x : String) : String :=
  if strHasChar x 'm' then "male"
  else if strHasChar x 'f' then "female"
  else x

/-- gender_label of one raw gender string: lower-cased, then mapped. -/
def genderLabel (s : String) : String := genderRule (lowerStr s)

/-- usage_category of one usage value:
`pd.cut(-, bins=[-inf, 2.99, 5.0, inf], labels=["casual", "regular", "heavy"])`. -/
def usageRule (q : ℚ) : String :=
  labelOf (299/100) 5 "casual" "regular" "heavy" q

/-- age_bucket of one age value:
`pd.cut(-, bins=[0, 24, 34, 44, 54, 120], labels=["<25", ...])`.
The bins are left-open, so ages outside (0, 120] get a missing label. -/
def ageRule (q : ℚ) : Cell :=
  if 0 < q ∧ q ≤ 24 then .str "<25"
  else if 0 < q ∧ q ≤ 34 then .str "25-34"
  else if 0 < q ∧ q ≤ 44 then .str "35-44"
  else if 0 < q ∧ q ≤ 54 then .str "45-54"
  else if 0 < q ∧ q ≤ 120 then .str "55+"
  else .na

/-- The education synonym map applied by `Series.replace` (exact-value
matching). -/
def eduSynonym (s : String) : String :=
  if s = "bachelors" ∨ s = "bachelor\x27s" then "bachelor"
  else if s = "masters" ∨ s = "master\x27s" then "master"
  else if s = "phd" then "phd"
  else s

/-- education_label of one cell: `astype(str).str.lower()` then the
synonym replacement. -/
def eduLabel (c : Cell) : Cell := .str (eduSynonym (lowerStr (cellStr c)))

/-- Is the column name date-like: contains "date", "time" or "datetime". -/
def isDatetimeName (c : String) : Bool :=
  strContains c "date" || strContains c "time" || strContains c "datetime"

/-- Parse one digit list segment of fixed length. -/
def fixedDigits (l : List Char) (k : ℕ) : Option (ℕ × List Char) :=
  let seg := l.take k
  if seg.length = k && seg.all Char.isDigit then
    (digitsVal seg).map fun n => (n, l.drop k)
  else none

/-- Parse an ISO "YYYY-MM-DD" date string.  This models
`pd.to_datetime(-, errors="coerce")` on the ISO date strings the
pipeline would see; anything else coerces to missing (NaT). -/
def parseDate (s : String) : Option (ℕ × ℕ × ℕ) := do
  let (y, r1) ← fixedDigits (trimChars s.data) 4
  match r1 with
  | '-' :: r2 => do
      let (m, r3) ← fixedDigits r2 2
      match r3 with
      | '-' :: r4 => do
          let (d, r5) ← fixedDigits r4 2
          if r5 = [] ∧ 1 ≤ m ∧ m ≤ 12 ∧ 1 ≤ d ∧ d ≤ 31 then
            some (y, m, d)
          else none
      | _ => none
  | _ => none

/-- `pd.to_datetime(-, errors="coerce")` on one cell. -/
def parseCellDatetime (c : Cell) : Cell :=
  match c with
  | .str s => match parseDate s with
      | some (y, m, d) => .dt y m d
      | none => .na
  | .dt y m d => .dt y m d
  | _ => .na

/-- Weekday names as pandas `Series.dt.day_name` produces them. -/
def dayNames : List String :=
  ["Monday", "Tuesday", "Wednesday", "Thursday", "Friday", "Saturday", "Sunday"]

/-- Weekday index (0 = Monday) of a date, by Zeller's congruence. -/
def weekday (y m d : ℕ) : ℕ :=
  let ym := if m ≤ 2 then y - 1 else y
  let mm := if m ≤ 2 then m + 12 else m
  let K := ym % 100
  let J := ym / 100
  let h := (d + 13 * (mm + 1) / 5 + K + K / 4 + J / 4 + 5 * J) % 7
  (h + 5) % 7

/-- `Series.dt.day_name()` of one parsed cell. -/
def dayNameCell : Cell → Cell
  | .dt y m d => .str (dayNames.getD (weekday y m d) "")
  | _ => .na

/-- `Series.dt.date` of one parsed cell. -/
def dateCell : Cell → Cell
  | .dt y m d => .dt y m d
  | _ => .na

/-- `Series.dt.hour` of one parsed cell (0 for a date-only timestamp). -/
def hourCell : Cell → Cell
  | .dt _ _ _ => .num 0
  | _ => .na

/-- PRODUCT step: `df["product_label"] = df["product"].str.upper()
.str.replace(r"\s+", "", regex=True)` when `product` is present.  The
`.str` accessor raises (AttributeError) on a non-object column;
non-string cells of an object column become missing. -/
def productStep (t : Table) : Option Table :=
  match t.getCol? "product" with
  | none => some t
  | some cs =>
      if cs.any isStrCell then
        some (t.setCol "product_label" (cs.map fun c =>
          match c with
          | .str s => .str (removeWhitespace (upperStr s))
          | _ => .na))
      else none

/-- GENDER step: lower-case then map through `genderRule`.  The mapping
lambda applies `"m" in x` to every element, so it raises (TypeError)
as soon as any element is not a string; the `.str` accessor raises on a
non-object column. -/
def genderStep (t : Table) : Option Table :=
  match t.getCol? "gender" with
  | none => some t
  | some cs =>
      if cs.all isStrCell then
        some (t.setCol "gender_label" (cs.map fun c =>
          match c with
          | .str s => .str (genderLabel s)
          | _ => .na))
      else none

/-- INCOME step: `pd.qcut(df["income"].replace(0, nan), q=3)`, falling
back to fixed bins at 40000 and 70000 on any qcut exception.  A string
column makes both qcut and the fallback cut raise, so it propagates. -/
def incomeStep (t : Table) : Option Table :=
  match t.getCol? "income" with
  | none => some t
  | some cs =>
      match toNums? cs with
      | none => none
      | some nums =>
          let replaced := nums.map fun o => if o = some 0 then none else o
          match qcut3 "low" "medium" "high" replaced with
          | some labels => some (t.setCol "income_bucket" labels)
          | none =>
              some (t.setCol "income_bucket" (nums.map fun o =>
                match o with
                | none => .na
                | some q => .str (labelOf 40000 70000 "low" "medium" "high" q)))

/-- MILES category of a whole column: quantile split when there are at
least 3 distinct values, else a three-bin equal-width split; any
exception is caught and the whole column becomes "unknown". -/
def milesCategoryCol (cs : List Cell) : List Cell :=
  let unknown := List.replicate cs.length (Cell.str "unknown")
  match toNums? cs with
  | none => unknown
  | some nums =>
      if nuniqueNums nums ≥ 3 then
        match qcut3 "low" "medium" "high" nums with
        | some labels => labels
        | none => unknown
      else
        match cut3 "low" "medium" "high" nums with
        | some labels => labels
        | none => unknown

/-- MILES step: always succeeds (the bare `except` catches everything). -/
def milesStep (t : Table) : Table :=
  match t.getCol? "miles" with
  | none => t
  | some cs => t.setCol "miles_category" (milesCategoryCol cs)

/-- USAGE step: fixed bins `[-inf, 2.99, 5.0, inf]`; raises on strings. -/
def usageStep (t : Table) : Option Table :=
  match t.getCol? "usage" with
  | none => some t
  | some cs =>
      (toNums? cs).map fun nums =>
        t.setCol "usage_category" (nums.map fun o =>
          match o with
          | none => .na
          | some q => .str (usageRule q))

/-- AGE step: fixed bins `[0, 24, 34, 44, 54, 120]`; raises on strings. -/
def ageStep (t : Table) : Option Table :=
  match t.getCol? "age" with
  | none => some t
  | some cs =>
      (toNums? cs).map fun nums =>
        t.setCol "age_bucket" (nums.map fun o =>
          match o with
          | none => .na
          | some q => ageRule q)

/-- EDUCATION step: `astype(str)` never raises, so this is total. -/
def educationStep (t : Table) : Table :=
  match t.getCol? "education" with
  | none => t
  | some cs => t.setCol "education_label" (cs.map eduLabel)

/-- DATETIME step: parse the first date-like column in place, then add
calendar date, hour-of-day and weekday-name columns from it. -/
def datetimeStep (t : Table) : Table :=
  match t.header.find? isDatetimeName with
  | none => t
  | some dtc =>
      match t.getCol? dtc with
      | none => t
      | some cs =>
          let parsed := cs.map parseCellDatetime
          let t1 := t.setCol dtc parsed
          let t2 := t1.setCol "date" (parsed.map dateCell)
          let t3 := t2.setCol "hour" (parsed.map hourCell)
          t3.setCol "day_of_week" (parsed.map dayNameCell)

/-- Element-wise `+` of two cells, as pandas series addition: numbers
add, strings concatenate, missing propagates against numbers, and a
missing/str or num/str pair raises a TypeError. -/
def addCells : Cell → Cell → Option Cell
  | .num a, .num b => some (.num (a + b))
  | .str a, .str b => some (.str (a ++ b))
  | .na, .num _ => some .na
  | .num _, .na => some .na
  | .na, .na => some .na
  | _, _ => none

/-- Element-wise sum of two columns. -/
def addCols : List Cell → List Cell → Option (List Cell)
  | [], _ => some []
  | _ :: _, [] => some []
  | a :: as, b :: bs => do
      let c ← addCells a b
      let rest ← addCols as bs
      some (c :: rest)

/-- COUNT step: when a `registered` or `casual` column exists and
`count` does not, and both are in fact present, add their element-wise
sum as `count`. -/
def countStep (t : Table) : Option Table :=
  if ("registered" ∈ t.header ∨ "casual" ∈ t.header) ∧ "count" ∉ t.header then
    match t.getCol? "registered", t.getCol? "casual" with
    | some reg, some cas => (addCols reg cas).map fun vs => t.setCol "count" vs
    | _, _ => some t
  else some t

/-- `feature_engineering`: the nine derivation steps in source order. -/
def feature_engineering (t : Table) : Option Table := do
  let t1 ← productStep t
  let t2 ← genderStep t1
  let t3 ← incomeStep t2
  let t4 := milesStep t3
  let t5 ← usageStep t4
  let t6 ← ageStep t5
  let t7 := educationStep t6
  let t8 := datetimeStep t7
  countStep t8

/-- The transformation core of `process`: clean, impute, derive.
(Loading and CSV writing are I/O and are not modelled.) -/
def process_model (t : Table) : Option Table :=
  feature_engineering (impute_and_cast (basic_clean t))

/- ### plots.py: generate_all -/

/-- A column is of numeric dtype (for the correlation heatmap's
`select_dtypes(include=[np.number])`) when every cell is a number or
missing. -/
def isNumericLikeCol (cs : List Cell) : Bool :=
  cs.all fun c => match c with
    | .num _ => true
    | .na => true
    | _ => false

/-- Number of numeric columns of a table. -/
def numericColCount (t : Table) : ℕ :=
  ((List.range t.header.length).filter fun i =>
    isNumericLikeCol (t.rows.map (fun r => cellAt r i))).length

/-- `generate_all` of src/plots.py: re-derive a `date` column from the
first date-like column if any, then save one image per chart whose
required columns are present.  Returns the list of saved filenames in
source order. -/
def generate_all (t : Table) : List String :=
  let t :=
    match t.header.find? isDatetimeName with
    | none => t
    | some dtc =>
        match t.getCol? dtc with
        | none => t
        | some cs =>
            let parsed := cs.map parseCellDatetime
            let t1 := t.setCol dtc parsed
            if "date" ∈ t1.header then t1
            else t1.addCol "date" (parsed.map dateCell)
  (if "product_label" ∈ t.header then ["product_distribution.png"] else []) ++
  (if "income" ∈ t.header ∧ "product_label" ∈ t.header then
    ["income_by_product_boxplot.png"] else []) ++
  (if "miles" ∈ t.header ∧ "usage" ∈ t.header then ["miles_vs_usage.png"] else []) ++
  (if "usage" ∈ t.header then ["usage_histogram.png"] else []) ++
  (if "product_label" ∈ t.header ∧ "gender_label" ∈ t.header then
    ["product_gender_bar.png"] else []) ++
  (if "usage" ∈ t.header ∧ "product_label" ∈ t.header then
    ["usage_by_product_boxplot.png"] else []) ++
  (if "education_label" ∈ t.header ∧ "product_label" ∈ t.header then
    ["education_product_stacked.png"] else []) ++
  (if numericColCount t ≥ 2 then ["correlation_heatmap.png"] else [])

/-- The body of either loop of `impute_and_cast`, as a single step over
the combined column list. -/
def icStep (t : Table) (n : String) : Table :=
  updateCol t n (if n ∈ catColumns then castCat else imputeNums)

/-- `Evolves t t' outs`: `t'` arises from `t` by writing only columns
named in `outs`: it is well-formed, has the same rows, extends the
header only by names from `outs`, and agrees with `t` on every other
column. -/
def Evolves (t t' : Table) (outs : List String) : Prop :=
  t'.Wf ∧ t'.nrows = t.nrows ∧
  (∃ L, t'.header = t.header ++ L ∧ ∀ x ∈ L, x ∈ outs) ∧
  (∀ n, n ∉ outs → t'.getCol? n = t.getCol? n)

/-- The fixed names the Feature Deriver can write (besides the parsed
date-like column itself). -/
def derivedNames : List String :=
  ["product_label", "gender_label", "income_bucket", "miles_category",
   "usage_category", "age_bucket", "education_label", "date", "hour",
   "day_of_week", "count"]

/-- The names written by the first seven derivation steps. -/
def outs7 : List String :=
  ["product_label", "gender_label", "income_bucket", "miles_category",
   "usage_category", "age_bucket", "education_label"]

/- ### The end-to-end scenario of §8 (claim C3) -/

/-- One row of the scenario input: a product code, an age in 20..50, a
gender token, a distinct income, miles in 50..149, usage in 2..6. -/
def scenarioRow (i : ℕ) : List Cell :=
  [ .str (["KP281", "KP481", "KP781"].getD (i % 3) ""),
    .num (20 + (i % 31 : ℕ)),
    .str (if i % 2 = 0 then "Male" else "Female"),
    .num (30000 + 200 * (i : ℚ)),
    .num (50 + (i % 100 : ℕ)),
    .num (2 + (i % 5 : ℕ)) ]

/-- The 180-row scenario input: 179 pairwise distinct rows (incomes are
distinct) plus one exact duplicate of the first row. -/
def scenarioInput : Table :=
  ⟨["Product", "Age", "Gender", "Income", "Miles", "Usage"],
    (List.range 179).map scenarioRow ++ [scenarioRow 0]⟩

/-- Is the named column present with no missing value? -/
def colPopulated (t : Table) (n : String) : Bool :=
  match t.getCol? n with
  | some cs => cs.all fun c => c ≠ Cell.na
  | none => false

/-- The processed scenario table. -/
def scenarioProcessed : Table := (process_model scenarioInput).getD ⟨[], []⟩

/-- The scenario input after the Cleaner (computed literal). -/
def scenarioT1 : Table :=
  { header := ["product", "age", "gender", "income", "miles", "usage"],
    rows := [[Cell.str "KP281",
              Cell.num 20,
              Cell.str "Male",
              Cell.num 30000,
              Cell.num 50,
              Cell.num 2],
             [Cell.str "KP481",
              Cell.num 21,
              Cell.str "Female",
              Cell.num 30200,
              Cell.num 51,
              Cell.num 3],
             [Cell.str "KP781",
              Cell.num 22,
              Cell.str "Male",
              Cell.num 30400,
              Cell.num 52,
              Cell.num 4],
             [Cell.str "KP281",
              Cell.num 23,
              Cell.str "Female",
              Cell.num 30600,
              Cell.num 53,
              Cell.num 5],
             [Cell.str "KP481",
              Cell.num 24,
              Cell.str "Male",
              Cell.num 30800,
              Cell.num 54,
              Cell.num 6],
             [Cell.str "KP781",
              Cell.num 25,
              Cell.str "Female",
              Cell.num 31000,
              Cell.num 55,
              Cell.num 2],
             [Cell.str "KP281",
              Cell.num 26,
              Cell.str "Male",
              Cell.num 31200,
              Cell.num 56,
              Cell.num 3],
             [Cell.str "KP481",
              Cell.num 27,
              Cell.str "Female",
              Cell.num 31400,
              Cell.num 57,
              Cell.num 4],
             [Cell.str "KP781",
              Cell.num 28,
              Cell.str "Male",
              Cell.num 31600,
              Cell.num 58,
              Cell.num 5],
             [Cell.str "KP281",
              Cell.num 29,
              Cell.str "Female",
              Cell.num 31800,
              Cell.num 59,
              Cell.num 6],
             [Cell.str "KP481",
              Cell.num 30,
              Cell.str "Male",
              Cell.num 32000,
              Cell.num 60,
              Cell.num 2],
             [Cell.str "KP781",
              Cell.num 31,
              Cell.str "Female",
              Cell.num 32200,
              Cell.num 61,
              Cell.num 3],
             [Cell.str "KP281",
              Cell.num 32,
              Cell.str "Male",
              Cell.num 32400,
              Cell.num 62,
              Cell.num 4],
             [Cell.str "KP481",
              Cell.num 33,
              Cell.str "Female",
              Cell.num 32600,
              Cell.num 63,
              Cell.num 5],
             [Cell.str "KP781",
              Cell.num 34,
              Cell.str "Male",
              Cell.num 32800,
              Cell.num 64,
              Cell.num 6],
             [Cell.str "KP281",
              Cell.num 35,
              Cell.str "Female",
              Cell.num 33000,
              Cell.num 65,
              Cell.num 2],
             [Cell.str "KP481",
              Cell.num 36,
              Cell.str "Male",
              Cell.num 33200,
              Cell.num 66,
              Cell.num 3],
             [Cell.str "KP781",
              Cell.num 37,
              Cell.str "Female",
              Cell.num 33400,
              Cell.num 67,
              Cell.num 4],
             [Cell.str "KP281",
              Cell.num 38,
              Cell.str "Male",
              Cell.num 33600,
              Cell.num 68,
              Cell.num 5],
             [Cell.str "KP481",
              Cell.num 39,
              Cell.str "Female",
              Cell.num 33800,
              Cell.num 69,
              Cell.num 6],
             [Cell.str "KP781",
              Cell.num 40,
              Cell.str "Male",
              Cell.num 34000,
              Cell.num 70,
              Cell.num 2],
             [Cell.str "KP281",
              Cell.num 41,
              Cell.str "Female",
              Cell.num 34200,
              Cell.num 71,
              Cell.num 3],
             [Cell.str "KP481",
              Cell.num 42,
              Cell.str "Male",
              Cell.num 34400,
              Cell.num 72,
              Cell.num 4],
             [Cell.str "KP781",
              Cell.num 43,
              Cell.str "Female",
              Cell.num 34600,
              Cell.num 73,
              Cell.num 5],
             [Cell.str "KP281",
              Cell.num 44,
              Cell.str "Male",
              Cell.num 34800,
              Cell.num 74,
              Cell.num 6],
             [Cell.str "KP481",
              Cell.num 45,
              Cell.str "Female",
              Cell.num 35000,
              Cell.num 75,
              Cell.num 2],
             [Cell.str "KP781",
              Cell.num 46,
              Cell.str "Male",
              Cell.num 35200,
              Cell.num 76,
              Cell.num 3],
             [Cell.str "KP281",
              Cell.num 47,
              Cell.str "Female",
              Cell.num 35400,
              Cell.num 77,
              Cell.num 4],
             [Cell.str "KP481",
              Cell.num 48,
              Cell.str "Male",
              Cell.num 35600,
              Cell.num 78,
              Cell.num 5],
             [Cell.str "KP781",
              Cell.num 49,
              Cell.str "Female",
              Cell.num 35800,
              Cell.num 79,
              Cell.num 6],
             [Cell.str "KP281",
              Cell.num 50,
              Cell.str "Male",
              Cell.num 36000,
              Cell.num 80,
              Cell.num 2],
             [Cell.str "KP481",
              Cell.num 20,
              Cell.str "Female",
              Cell.num 36200,
              Cell.num 81,
              Cell.num 3],
             [Cell.str "KP781",
              Cell.num 21,
              Cell.str "Male",
              Cell.num 36400,
              Cell.num 82,
              Cell.num 4],
             [Cell.str "KP281",
              Cell.num 22,
              Cell.str "Female",
              Cell.num 36600,
              Cell.num 83,
              Cell.num 5],
             [Cell.str "KP481",
              Cell.num 23,
              Cell.str "Male",
              Cell.num 36800,
              Cell.num 84,
              Cell.num 6],
             [Cell.str "KP781",
              Cell.num 24,
              Cell.str "Female",
              Cell.num 37000,
              Cell.num 85,
              Cell.num 2],
             [Cell.str "KP281",
              Cell.num 25,
              Cell.str "Male",
              Cell.num 37200,
              Cell.num 86,
              Cell.num 3],
             [Cell.str "KP481",
              Cell.num 26,
              Cell.str "Female",
              Cell.num 37400,
              Cell.num 87,
              Cell.num 4],
             [Cell.str "KP781",
              Cell.num 27,
              Cell.str "Male",
              Cell.num 37600,
              Cell.num 88,
              Cell.num 5],
             [Cell.str "KP281",
              Cell.num 28,
              Cell.str "Female",
              Cell.num 37800,
              Cell.num 89,
              Cell.num 6],
             [Cell.str "KP481",
              Cell.num 29,
              Cell.str "Male",
              Cell.num 38000,
              Cell.num 90,
              Cell.num 2],
             [Cell.str "KP781",
              Cell.num 30,
              Cell.str "Female",
              Cell.num 38200,
              Cell.num 91,
              Cell.num 3],
             [Cell.str "KP281",
              Cell.num 31,
              Cell.str "Male",
              Cell.num 38400,
              Cell.num 92,
              Cell.num 4],
             [Cell.str "KP481",
              Cell.num 32,
              Cell.str "Female",
              Cell.num 38600,
              Cell.num 93,
              Cell.num 5],
             [Cell.str "KP781",
              Cell.num 33,
              Cell.str "Male",
              Cell.num 38800,
              Cell.num 94,
              Cell.num 6],
             [Cell.str "KP281",
              Cell.num 34,
              Cell.str "Female",
              Cell.num 39000,
              Cell.num 95,
              Cell.num 2],
             [Cell.str "KP481",
              Cell.num 35,
              Cell.str "Male",
              Cell.num 39200,
              Cell.num 96,
              Cell.num 3],
             [Cell.str "KP781",
              Cell.num 36,
              Cell.str "Female",
              Cell.num 39400,
              Cell.num 97,
              Cell.num 4],
             [Cell.str "KP281",
              Cell.num 37,
              Cell.str "Male",
              Cell.num 39600,
              Cell.num 98,
              Cell.num 5],
             [Cell.str "KP481",
              Cell.num 38,
              Cell.str "Female",
              Cell.num 39800,
              Cell.num 99,
              Cell.num 6],
             [Cell.str "KP781",
              Cell.num 39,
              Cell.str "Male",
              Cell.num 40000,
              Cell.num 100,
              Cell.num 2],
             [Cell.str "KP281",
              Cell.num 40,
              Cell.str "Female",
              Cell.num 40200,
              Cell.num 101,
              Cell.num 3],
             [Cell.str "KP481",
              Cell.num 41,
              Cell.str "Male",
              Cell.num 40400,
              Cell.num 102,
              Cell.num 4],
             [Cell.str "KP781",
              Cell.num 42,
              Cell.str "Female",
              Cell.num 40600,
              Cell.num 103,
              Cell.num 5],
             [Cell.str "KP281",
              Cell.num 43,
              Cell.str "Male",
              Cell.num 40800,
              Cell.num 104,
              Cell.num 6],
             [Cell.str "KP481",
              Cell.num 44,
              Cell.str "Female",
              Cell.num 41000,
              Cell.num 105,
              Cell.num 2],
             [Cell.str "KP781",
              Cell.num 45,
              Cell.str "Male",
              Cell.num 41200,
              Cell.num 106,
              Cell.num 3],
             [Cell.str "KP281",
              Cell.num 46,
              Cell.str "Female",
              Cell.num 41400,
              Cell.num 107,
              Cell.num 4],
             [Cell.str "KP481",
              Cell.num 47,
              Cell.str "Male",
              Cell.num 41600,
              Cell.num 108,
              Cell.num 5],
             [Cell.str "KP781",
              Cell.num 48,
              Cell.str "Female",
              Cell.num 41800,
              Cell.num 109,
              Cell.num 6],
             [Cell.str "KP281",
              Cell.num 49,
              Cell.str "Male",
              Cell.num 42000,
              Cell.num 110,
              Cell.num 2],
             [Cell.str "KP481",
              Cell.num 50,
              Cell.str "Female",
              Cell.num 42200,
              Cell.num 111,
              Cell.num 3],
             [Cell.str "KP781",
              Cell.num 20,
              Cell.str "Male",
              Cell.num 42400,
              Cell.num 112,
              Cell.num 4],
             [Cell.str "KP281",
              Cell.num 21,
              Cell.str "Female",
              Cell.num 42600,
              Cell.num 113,
              Cell.num 5],
             [Cell.str "KP481",
              Cell.num 22,
              Cell.str "Male",
              Cell.num 42800,
              Cell.num 114,
              Cell.num 6],
             [Cell.str "KP781",
              Cell.num 23,
              Cell.str "Female",
              Cell.num 43000,
              Cell.num 115,
              Cell.num 2],
             [Cell.str "KP281",
              Cell.num 24,
              Cell.str "Male",
              Cell.num 43200,
              Cell.num 116,
              Cell.num 3],
             [Cell.str "KP481",
              Cell.num 25,
              Cell.str "Female",
              Cell.num 43400,
              Cell.num 117,
              Cell.num 4],
             [Cell.str "KP781",
              Cell.num 26,
              Cell.str "Male",
              Cell.num 43600,
              Cell.num 118,
              Cell.num 5],
             [Cell.str "KP281",
              Cell.num 27,
              Cell.str "Female",
              Cell.num 43800,
              Cell.num 119,
              Cell.num 6],
             [Cell.str "KP481",
              Cell.num 28,
              Cell.str "Male",
              Cell.num 44000,
              Cell.num 120,
              Cell.num 2],
             [Cell.str "KP781",
              Cell.num 29,
              Cell.str "Female",
              Cell.num 44200,
              Cell.num 121,
              Cell.num 3],
             [Cell.str "KP281",
              Cell.num 30,
              Cell.str "Male",
              Cell.num 44400,
              Cell.num 122,
              Cell.num 4],
             [Cell.str "KP481",
              Cell.num 31,
              Cell.str "Female",
              Cell.num 44600,
              Cell.num 123,
              Cell.num 5],
             [Cell.str "KP781",
              Cell.num 32,
              Cell.str "Male",
              Cell.num 44800,
              Cell.num 124,
              Cell.num 6],
             [Cell.str "KP281",
              Cell.num 33,
              Cell.str "Female",
              Cell.num 45000,
              Cell.num 125,
              Cell.num 2],
             [Cell.str "KP481",
              Cell.num 34,
              Cell.str "Male",
              Cell.num 45200,
              Cell.num 126,
              Cell.num 3],
             [Cell.str "KP781",
              Cell.num 35,
              Cell.str "Female",
              Cell.num 45400,
              Cell.num 127,
              Cell.num 4],
             [Cell.str "KP281",
              Cell.num 36,
              Cell.str "Male",
              Cell.num 45600,
              Cell.num 128,
              Cell.num 5],
             [Cell.str "KP481",
              Cell.num 37,
              Cell.str "Female",
              Cell.num 45800,
              Cell.num 129,
              Cell.num 6],
             [Cell.str "KP781",
              Cell.num 38,
              Cell.str "Male",
              Cell.num 46000,
              Cell.num 130,
              Cell.num 2],
             [Cell.str "KP281",
              Cell.num 39,
              Cell.str "Female",
              Cell.num 46200,
              Cell.num 131,
              Cell.num 3],
             [Cell.str "KP481",
              Cell.num 40,
              Cell.str "Male",
              Cell.num 46400,
              Cell.num 132,
              Cell.num 4],
             [Cell.str "KP781",
              Cell.num 41,
              Cell.str "Female",
              Cell.num 46600,
              Cell.num 133,
              Cell.num 5],
             [Cell.str "KP281",
              Cell.num 42,
              Cell.str "Male",
              Cell.num 46800,
              Cell.num 134,
              Cell.num 6],
             [Cell.str "KP481",
              Cell.num 43,
              Cell.str "Female",
              Cell.num 47000,
              Cell.num 135,
              Cell.num 2],
             [Cell.str "KP781",
              Cell.num 44,
              Cell.str "Male",
              Cell.num 47200,
              Cell.num 136,
              Cell.num 3],
             [Cell.str "KP281",
              Cell.num 45,
              Cell.str "Female",
              Cell.num 47400,
              Cell.num 137,
              Cell.num 4],
             [Cell.str "KP481",
              Cell.num 46,
              Cell.str "Male",
              Cell.num 47600,
              Cell.num 138,
              Cell.num 5],
             [Cell.str "KP781",
              Cell.num 47,
              Cell.str "Female",
              Cell.num 47800,
              Cell.num 139,
              Cell.num 6],
             [Cell.str "KP281",
              Cell.num 48,
              Cell.str "Male",
              Cell.num 48000,
              Cell.num 140,
              Cell.num 2],
             [Cell.str "KP481",
              Cell.num 49,
              Cell.str "Female",
              Cell.num 48200,
              Cell.num 141,
              Cell.num 3],
             [Cell.str "KP781",
              Cell.num 50,
              Cell.str "Male",
              Cell.num 48400,
              Cell.num 142,
              Cell.num 4],
             [Cell.str "KP281",
              Cell.num 20,
              Cell.str "Female",
              Cell.num 48600,
              Cell.num 143,
              Cell.num 5],
             [Cell.str "KP481",
              Cell.num 21,
              Cell.str "Male",
              Cell.num 48800,
              Cell.num 144,
              Cell.num 6],
             [Cell.str "KP781",
              Cell.num 22,
              Cell.str "Female",
              Cell.num 49000,
              Cell.num 145,
              Cell.num 2],
             [Cell.str "KP281",
              Cell.num 23,
              Cell.str "Male",
              Cell.num 49200,
              Cell.num 146,
              Cell.num 3],
             [Cell.str "KP481",
              Cell.num 24,
              Cell.str "Female",
              Cell.num 49400,
              Cell.num 147,
              Cell.num 4],
             [Cell.str "KP781",
              Cell.num 25,
              Cell.str "Male",
              Cell.num 49600,
              Cell.num 148,
              Cell.num 5],
             [Cell.str "KP281",
              Cell.num 26,
              Cell.str "Female",
              Cell.num 49800,
              Cell.num 149,
              Cell.num 6],
             [Cell.str "KP481",
              Cell.num 27,
              Cell.str "Male",
              Cell.num 50000,
              Cell.num 50,
              Cell.num 2],
             [Cell.str "KP781",
              Cell.num 28,
              Cell.str "Female",
              Cell.num 50200,
              Cell.num 51,
              Cell.num 3],
             [Cell.str "KP281",
              Cell.num 29,
              Cell.str "Male",
              Cell.num 50400,
              Cell.num 52,
              Cell.num 4],
             [Cell.str "KP481",
              Cell.num 30,
              Cell.str "Female",
              Cell.num 50600,
              Cell.num 53,
              Cell.num 5],
             [Cell.str "KP781",
              Cell.num 31,
              Cell.str "Male",
              Cell.num 50800,
              Cell.num 54,
              Cell.num 6],
             [Cell.str "KP281",
              Cell.num 32,
              Cell.str "Female",
              Cell.num 51000,
              Cell.num 55,
              Cell.num 2],
             [Cell.str "KP481",
              Cell.num 33,
              Cell.str "Male",
              Cell.num 51200,
              Cell.num 56,
              Cell.num 3],
             [Cell.str "KP781",
              Cell.num 34,
              Cell.str "Female",
              Cell.num 51400,
              Cell.num 57,
              Cell.num 4],
             [Cell.str "KP281",
              Cell.num 35,
              Cell.str "Male",
              Cell.num 51600,
              Cell.num 58,
              Cell.num 5],
             [Cell.str "KP481",
              Cell.num 36,
              Cell.str "Female",
              Cell.num 51800,
              Cell.num 59,
              Cell.num 6],
             [Cell.str "KP781",
              Cell.num 37,
              Cell.str "Male",
              Cell.num 52000,
              Cell.num 60,
              Cell.num 2],
             [Cell.str "KP281",
              Cell.num 38,
              Cell.str "Female",
              Cell.num 52200,
              Cell.num 61,
              Cell.num 3],
             [Cell.str "KP481",
              Cell.num 39,
              Cell.str "Male",
              Cell.num 52400,
              Cell.num 62,
              Cell.num 4],
             [Cell.str "KP781",
              Cell.num 40,
              Cell.str "Female",
              Cell.num 52600,
              Cell.num 63,
              Cell.num 5],
             [Cell.str "KP281",
              Cell.num 41,
              Cell.str "Male",
              Cell.num 52800,
              Cell.num 64,
              Cell.num 6],
             [Cell.str "KP481",
              Cell.num 42,
              Cell.str "Female",
              Cell.num 53000,
              Cell.num 65,
              Cell.num 2],
             [Cell.str "KP781",
              Cell.num 43,
              Cell.str "Male",
              Cell.num 53200,
              Cell.num 66,
              Cell.num 3],
             [Cell.str "KP281",
              Cell.num 44,
              Cell.str "Female",
              Cell.num 53400,
              Cell.num 67,
              Cell.num 4],
             [Cell.str "KP481",
              Cell.num 45,
              Cell.str "Male",
              Cell.num 53600,
              Cell.num 68,
              Cell.num 5],
             [Cell.str "KP781",
              Cell.num 46,
              Cell.str "Female",
              Cell.num 53800,
              Cell.num 69,
              Cell.num 6],
             [Cell.str "KP281",
              Cell.num 47,
              Cell.str "Male",
              Cell.num 54000,
              Cell.num 70,
              Cell.num 2],
             [Cell.str "KP481",
              Cell.num 48,
              Cell.str "Female",
              Cell.num 54200,
              Cell.num 71,
              Cell.num 3],
             [Cell.str "KP781",
              Cell.num 49,
              Cell.str "Male",
              Cell.num 54400,
              Cell.num 72,
              Cell.num 4],
             [Cell.str "KP281",
              Cell.num 50,
              Cell.str "Female",
              Cell.num 54600,
              Cell.num 73,
              Cell.num 5],
             [Cell.str "KP481",
              Cell.num 20,
              Cell.str "Male",
              Cell.num 54800,
              Cell.num 74,
              Cell.num 6],
             [Cell.str "KP781",
              Cell.num 21,
              Cell.str "Female",
              Cell.num 55000,
              Cell.num 75,
              Cell.num 2],
             [Cell.str "KP281",
              Cell.num 22,
              Cell.str "Male",
              Cell.num 55200,
              Cell.num 76,
              Cell.num 3],
             [Cell.str "KP481",
              Cell.num 23,
              Cell.str "Female",
              Cell.num 55400,
              Cell.num 77,
              Cell.num 4],
             [Cell.str "KP781",
              Cell.num 24,
              Cell.str "Male",
              Cell.num 55600,
              Cell.num 78,
              Cell.num 5],
             [Cell.str "KP281",
              Cell.num 25,
              Cell.str "Female",
              Cell.num 55800,
              Cell.num 79,
              Cell.num 6],
             [Cell.str "KP481",
              Cell.num 26,
              Cell.str "Male",
              Cell.num 56000,
              Cell.num 80,
              Cell.num 2],
             [Cell.str "KP781",
              Cell.num 27,
              Cell.str "Female",
              Cell.num 56200,
              Cell.num 81,
              Cell.num 3],
             [Cell.str "KP281",
              Cell.num 28,
              Cell.str "Male",
              Cell.num 56400,
              Cell.num 82,
              Cell.num 4],
             [Cell.str "KP481",
              Cell.num 29,
              Cell.str "Female",
              Cell.num 56600,
              Cell.num 83,
              Cell.num 5],
             [Cell.str "KP781",
              Cell.num 30,
              Cell.str "Male",
              Cell.num 56800,
              Cell.num 84,
              Cell.num 6],
             [Cell.str "KP281",
              Cell.num 31,
              Cell.str "Female",
              Cell.num 57000,
              Cell.num 85,
              Cell.num 2],
             [Cell.str "KP481",
              Cell.num 32,
              Cell.str "Male",
              Cell.num 57200,
              Cell.num 86,
              Cell.num 3],
             [Cell.str "KP781",
              Cell.num 33,
              Cell.str "Female",
              Cell.num 57400,
              Cell.num 87,
              Cell.num 4],
             [Cell.str "KP281",
              Cell.num 34,
              Cell.str "Male",
              Cell.num 57600,
              Cell.num 88,
              Cell.num 5],
             [Cell.str "KP481",
              Cell.num 35,
              Cell.str "Female",
              Cell.num 57800,
              Cell.num 89,
              Cell.num 6],
             [Cell.str "KP781",
              Cell.num 36,
              Cell.str "Male",
              Cell.num 58000,
              Cell.num 90,
              Cell.num 2],
             [Cell.str "KP281",
              Cell.num 37,
              Cell.str "Female",
              Cell.num 58200,
              Cell.num 91,
              Cell.num 3],
             [Cell.str "KP481",
              Cell.num 38,
              Cell.str "Male",
              Cell.num 58400,
              Cell.num 92,
              Cell.num 4],
             [Cell.str "KP781",
              Cell.num 39,
              Cell.str "Female",
              Cell.num 58600,
              Cell.num 93,
              Cell.num 5],
             [Cell.str "KP281",
              Cell.num 40,
              Cell.str "Male",
              Cell.num 58800,
              Cell.num 94,
              Cell.num 6],
             [Cell.str "KP481",
              Cell.num 41,
              Cell.str "Female",
              Cell.num 59000,
              Cell.num 95,
              Cell.num 2],
             [Cell.str "KP781",
              Cell.num 42,
              Cell.str "Male",
              Cell.num 59200,
              Cell.num 96,
              Cell.num 3],
             [Cell.str "KP281",
              Cell.num 43,
              Cell.str "Female",
              Cell.num 59400,
              Cell.num 97,
              Cell.num 4],
             [Cell.str "KP481",
              Cell.num 44,
              Cell.str "Male",
              Cell.num 59600,
              Cell.num 98,
              Cell.num 5],
             [Cell.str "KP781",
              Cell.num 45,
              Cell.str "Female",
              Cell.num 59800,
              Cell.num 99,
              Cell.num 6],
             [Cell.str "KP281",
              Cell.num 46,
              Cell.str "Male",
              Cell.num 60000,
              Cell.num 100,
              Cell.num 2],
             [Cell.str "KP481",
              Cell.num 47,
              Cell.str "Female",
              Cell.num 60200,
              Cell.num 101,
              Cell.num 3],
             [Cell.str "KP781",
              Cell.num 48,
              Cell.str "Male",
              Cell.num 60400,
              Cell.num 102,
              Cell.num 4],
             [Cell.str "KP281",
              Cell.num 49,
              Cell.str "Female",
              Cell.num 60600,
              Cell.num 103,
              Cell.num 5],
             [Cell.str "KP481",
              Cell.num 50,
              Cell.str "Male",
              Cell.num 60800,
              Cell.num 104,
              Cell.num 6],
             [Cell.str "KP781",
              Cell.num 20,
              Cell.str "Female",
              Cell.num 61000,
              Cell.num 105,
              Cell.num 2],
             [Cell.str "KP281",
              Cell.num 21,
              Cell.str "Male",
              Cell.num 61200,
              Cell.num 106,
              Cell.num 3],
             [Cell.str "KP481",
              Cell.num 22,
              Cell.str "Female",
              Cell.num 61400,
              Cell.num 107,
              Cell.num 4],
             [Cell.str "KP781",
              Cell.num 23,
              Cell.str "Male",
              Cell.num 61600,
              Cell.num 108,
              Cell.num 5],
             [Cell.str "KP281",
              Cell.num 24,
              Cell.str "Female",
              Cell.num 61800,
              Cell.num 109,
              Cell.num 6],
             [Cell.str "KP481",
              Cell.num 25,
              Cell.str "Male",
              Cell.num 62000,
              Cell.num 110,
              Cell.num 2],
             [Cell.str "KP781",
              Cell.num 26,
              Cell.str "Female",
              Cell.num 62200,
              Cell.num 111,
              Cell.num 3],
             [Cell.str "KP281",
              Cell.num 27,
              Cell.str "Male",
              Cell.num 62400,
              Cell.num 112,
              Cell.num 4],
             [Cell.str "KP481",
              Cell.num 28,
              Cell.str "Female",
              Cell.num 62600,
              Cell.num 113,
              Cell.num 5],
             [Cell.str "KP781",
              Cell.num 29,
              Cell.str "Male",
              Cell.num 62800,
              Cell.num 114,
              Cell.num 6],
             [Cell.str "KP281",
              Cell.num 30,
              Cell.str "Female",
              Cell.num 63000,
              Cell.num 115,
              Cell.num 2],
             [Cell.str "KP481",
              Cell.num 31,
              Cell.str "Male",
              Cell.num 63200,
              Cell.num 116,
              Cell.num 3],
             [Cell.str "KP781",
              Cell.num 32,
              Cell.str "Female",
              Cell.num 63400,
              Cell.num 117,
              Cell.num 4],
             [Cell.str "KP281",
              Cell.num 33,
              Cell.str "Male",
              Cell.num 63600,
              Cell.num 118,
              Cell.num 5],
             [Cell.str "KP481",
              Cell.num 34,
              Cell.str "Female",
              Cell.num 63800,
              Cell.num 119,
              Cell.num 6],
             [Cell.str "KP781",
              Cell.num 35,
              Cell.str "Male",
              Cell.num 64000,
              Cell.num 120,
              Cell.num 2],
             [Cell.str "KP281",
              Cell.num 36,
              Cell.str "Female",
              Cell.num 64200,
              Cell.num 121,
              Cell.num 3],
             [Cell.str "KP481",
              Cell.num 37,
              Cell.str "Male",
              Cell.num 64400,
              Cell.num 122,
              Cell.num 4],
             [Cell.str "KP781",
              Cell.num 38,
              Cell.str "Female",
              Cell.num 64600,
              Cell.num 123,
              Cell.num 5],
             [Cell.str "KP281",
              Cell.num 39,
              Cell.str "Male",
              Cell.num 64800,
              Cell.num 124,
              Cell.num 6],
             [Cell.str "KP481",
              Cell.num 40,
              Cell.str "Female",
              Cell.num 65000,
              Cell.num 125,
              Cell.num 2],
             [Cell.str "KP781",
              Cell.num 41,
              Cell.str "Male",
              Cell.num 65200,
              Cell.num 126,
              Cell.num 3],
             [Cell.str "KP281",
              Cell.num 42,
              Cell.str "Female",
              Cell.num 65400,
              Cell.num 127,
              Cell.num 4],
             [Cell.str "KP481",
              Cell.num 43,
              Cell.str "Male",
              Cell.num 65600,
              Cell.num 128,
              Cell.num 5]] }

/-- The scenario table after the Imputer/Caster (computed literal). -/
def scenarioT2 : Table :=
  { header := ["product", "age", "gender", "income", "miles", "usage"],
    rows := [[Cell.str "KP281",
              Cell.num 20,
              Cell.str "Male",
              Cell.num 30000,
              Cell.num 50,
              Cell.num 2],
             [Cell.str "KP481",
              Cell.num 21,
              Cell.str "Female",
              Cell.num 30200,
              Cell.num 51,
              Cell.num 3],
             [Cell.str "KP781",
              Cell.num 22,
              Cell.str "Male",
              Cell.num 30400,
              Cell.num 52,
              Cell.num 4],
             [Cell.str "KP281",
              Cell.num 23,
              Cell.str "Female",
              Cell.num 30600,
              Cell.num 53,
              Cell.num 5],
             [Cell.str "KP481",
              Cell.num 24,
              Cell.str "Male",
              Cell.num 30800,
              Cell.num 54,
              Cell.num 6],
             [Cell.str "KP781",
              Cell.num 25,
              Cell.str "Female",
              Cell.num 31000,
              Cell.num 55,
              Cell.num 2],
             [Cell.str "KP281",
              Cell.num 26,
              Cell.str "Male",
              Cell.num 31200,
              Cell.num 56,
              Cell.num 3],
             [Cell.str "KP481",
              Cell.num 27,
              Cell.str "Female",
              Cell.num 31400,
              Cell.num 57,
              Cell.num 4],
             [Cell.str "KP781",
              Cell.num 28,
              Cell.str "Male",
              Cell.num 31600,
              Cell.num 58,
              Cell.num 5],
             [Cell.str "KP281",
              Cell.num 29,
              Cell.str "Female",
              Cell.num 31800,
              Cell.num 59,
              Cell.num 6],
             [Cell.str "KP481",
              Cell.num 30,
              Cell.str "Male",
              Cell.num 32000,
              Cell.num 60,
              Cell.num 2],
             [Cell.str "KP781",
              Cell.num 31,
              Cell.str "Female",
              Cell.num 32200,
              Cell.num 61,
              Cell.num 3],
             [Cell.str "KP281",
              Cell.num 32,
              Cell.str "Male",
              Cell.num 32400,
              Cell.num 62,
              Cell.num 4],
             [Cell.str "KP481",
              Cell.num 33,
              Cell.str "Female",
              Cell.num 32600,
              Cell.num 63,
              Cell.num 5],
             [Cell.str "KP781",
              Cell.num 34,
              Cell.str "Male",
              Cell.num 32800,
              Cell.num 64,
              Cell.num 6],
             [Cell.str "KP281",
              Cell.num 35,
              Cell.str "Female",
              Cell.num 33000,
              Cell.num 65,
              Cell.num 2],
             [Cell.str "KP481",
              Cell.num 36,
              Cell.str "Male",
              Cell.num 33200,
              Cell.num 66,
              Cell.num 3],
             [Cell.str "KP781",
              Cell.num 37,
              Cell.str "Female",
              Cell.num 33400,
              Cell.num 67,
              Cell.num 4],
             [Cell.str "KP281",
              Cell.num 38,
              Cell.str "Male",
              Cell.num 33600,
              Cell.num 68,
              Cell.num 5],
             [Cell.str "KP481",
              Cell.num 39,
              Cell.str "Female",
              Cell.num 33800,
              Cell.num 69,
              Cell.num 6],
             [Cell.str "KP781",
              Cell.num 40,
              Cell.str "Male",
              Cell.num 34000,
              Cell.num 70,
              Cell.num 2],
             [Cell.str "KP281",
              Cell.num 41,
              Cell.str "Female",
              Cell.num 34200,
              Cell.num 71,
              Cell.num 3],
             [Cell.str "KP481",
              Cell.num 42,
              Cell.str "Male",
              Cell.num 34400,
              Cell.num 72,
              Cell.num 4],
             [Cell.str "KP781",
              Cell.num 43,
              Cell.str "Female",
              Cell.num 34600,
              Cell.num 73,
              Cell.num 5],
             [Cell.str "KP281",
              Cell.num 44,
              Cell.str "Male",
              Cell.num 34800,
              Cell.num 74,
              Cell.num 6],
             [Cell.str "KP481",
              Cell.num 45,
              Cell.str "Female",
              Cell.num 35000,
              Cell.num 75,
              Cell.num 2],
             [Cell.str "KP781",
              Cell.num 46,
              Cell.str "Male",
              Cell.num 35200,
              Cell.num 76,
              Cell.num 3],
             [Cell.str "KP281",
              Cell.num 47,
              Cell.str "Female",
              Cell.num 35400,
              Cell.num 77,
              Cell.num 4],
             [Cell.str "KP481",
              Cell.num 48,
              Cell.str "Male",
              Cell.num 35600,
              Cell.num 78,
              Cell.num 5],
             [Cell.str "KP781",
              Cell.num 49,
              Cell.str "Female",
              Cell.num 35800,
              Cell.num 79,
              Cell.num 6],
             [Cell.str "KP281",
              Cell.num 50,
              Cell.str "Male",
              Cell.num 36000,
              Cell.num 80,
              Cell.num 2],
             [Cell.str "KP481",
              Cell.num 20,
              Cell.str "Female",
              Cell.num 36200,
              Cell.num 81,
              Cell.num 3],
             [Cell.str "KP781",
              Cell.num 21,
              Cell.str "Male",
              Cell.num 36400,
              Cell.num 82,
              Cell.num 4],
             [Cell.str "KP281",
              Cell.num 22,
              Cell.str "Female",
              Cell.num 36600,
              Cell.num 83,
              Cell.num 5],
             [Cell.str "KP481",
              Cell.num 23,
              Cell.str "Male",
              Cell.num 36800,
              Cell.num 84,
              Cell.num 6],
             [Cell.str "KP781",
              Cell.num 24,
              Cell.str "Female",
              Cell.num 37000,
              Cell.num 85,
              Cell.num 2],
             [Cell.str "KP281",
              Cell.num 25,
              Cell.str "Male",
              Cell.num 37200,
              Cell.num 86,
              Cell.num 3],
             [Cell.str "KP481",
              Cell.num 26,
              Cell.str "Female",
              Cell.num 37400,
              Cell.num 87,
              Cell.num 4],
             [Cell.str "KP781",
              Cell.num 27,
              Cell.str "Male",
              Cell.num 37600,
              Cell.num 88,
              Cell.num 5],
             [Cell.str "KP281",
              Cell.num 28,
              Cell.str "Female",
              Cell.num 37800,
              Cell.num 89,
              Cell.num 6],
             [Cell.str "KP481",
              Cell.num 29,
              Cell.str "Male",
              Cell.num 38000,
              Cell.num 90,
              Cell.num 2],
             [Cell.str "KP781",
              Cell.num 30,
              Cell.str "Female",
              Cell.num 38200,
              Cell.num 91,
              Cell.num 3],
             [Cell.str "KP281",
              Cell.num 31,
              Cell.str "Male",
              Cell.num 38400,
              Cell.num 92,
              Cell.num 4],
             [Cell.str "KP481",
              Cell.num 32,
              Cell.str "Female",
              Cell.num 38600,
              Cell.num 93,
              Cell.num 5],
             [Cell.str "KP781",
              Cell.num 33,
              Cell.str "Male",
              Cell.num 38800,
              Cell.num 94,
              Cell.num 6],
             [Cell.str "KP281",
              Cell.num 34,
              Cell.str "Female",
              Cell.num 39000,
              Cell.num 95,
              Cell.num 2],
             [Cell.str "KP481",
              Cell.num 35,
              Cell.str "Male",
              Cell.num 39200,
              Cell.num 96,
              Cell.num 3],
             [Cell.str "KP781",
              Cell.num 36,
              Cell.str "Female",
              Cell.num 39400,
              Cell.num 97,
              Cell.num 4],
             [Cell.str "KP281",
              Cell.num 37,
              Cell.str "Male",
              Cell.num 39600,
              Cell.num 98,
              Cell.num 5],
             [Cell.str "KP481",
              Cell.num 38,
              Cell.str "Female",
              Cell.num 39800,
              Cell.num 99,
              Cell.num 6],
             [Cell.str "KP781",
              Cell.num 39,
              Cell.str "Male",
              Cell.num 40000,
              Cell.num 100,
              Cell.num 2],
             [Cell.str "KP281",
              Cell.num 40,
              Cell.str "Female",
              Cell.num 40200,
              Cell.num 101,
              Cell.num 3],
             [Cell.str "KP481",
              Cell.num 41,
              Cell.str "Male",
              Cell.num 40400,
              Cell.num 102,
              Cell.num 4],
             [Cell.str "KP781",
              Cell.num 42,
              Cell.str "Female",
              Cell.num 40600,
              Cell.num 103,
              Cell.num 5],
             [Cell.str "KP281",
              Cell.num 43,
              Cell.str "Male",
              Cell.num 40800,
              Cell.num 104,
              Cell.num 6],
             [Cell.str "KP481",
              Cell.num 44,
              Cell.str "Female",
              Cell.num 41000,
              Cell.num 105,
              Cell.num 2],
             [Cell.str "KP781",
              Cell.num 45,
              Cell.str "Male",
              Cell.num 41200,
              Cell.num 106,
              Cell.num 3],
             [Cell.str "KP281",
              Cell.num 46,
              Cell.str "Female",
              Cell.num 41400,
              Cell.num 107,
              Cell.num 4],
             [Cell.str "KP481",
              Cell.num 47,
              Cell.str "Male",
              Cell.num 41600,
              Cell.num 108,
              Cell.num 5],
             [Cell.str "KP781",
              Cell.num 48,
              Cell.str "Female",
              Cell.num 41800,
              Cell.num 109,
              Cell.num 6],
             [Cell.str "KP281",
              Cell.num 49,
              Cell.str "Male",
              Cell.num 42000,
              Cell.num 110,
              Cell.num 2],
             [Cell.str "KP481",
              Cell.num 50,
              Cell.str "Female",
              Cell.num 42200,
              Cell.num 111,
              Cell.num 3],
             [Cell.str "KP781",
              Cell.num 20,
              Cell.str "Male",
              Cell.num 42400,
              Cell.num 112,
              Cell.num 4],
             [Cell.str "KP281",
              Cell.num 21,
              Cell.str "Female",
              Cell.num 42600,
              Cell.num 113,
              Cell.num 5],
             [Cell.str "KP481",
              Cell.num 22,
              Cell.str "Male",
              Cell.num 42800,
              Cell.num 114,
              Cell.num 6],
             [Cell.str "KP781",
              Cell.num 23,
              Cell.str "Female",
              Cell.num 43000,
              Cell.num 115,
              Cell.num 2],
             [Cell.str "KP281",
              Cell.num 24,
              Cell.str "Male",
              Cell.num 43200,
              Cell.num 116,
              Cell.num 3],
             [Cell.str "KP481",
              Cell.num 25,
              Cell.str "Female",
              Cell.num 43400,
              Cell.num 117,
              Cell.num 4],
             [Cell.str "KP781",
              Cell.num 26,
              Cell.str "Male",
              Cell.num 43600,
              Cell.num 118,
              Cell.num 5],
             [Cell.str "KP281",
              Cell.num 27,
              Cell.str "Female",
              Cell.num 43800,
              Cell.num 119,
              Cell.num 6],
             [Cell.str "KP481",
              Cell.num 28,
              Cell.str "Male",
              Cell.num 44000,
              Cell.num 120,
              Cell.num 2],
             [Cell.str "KP781",
              Cell.num 29,
              Cell.str "Female",
              Cell.num 44200,
              Cell.num 121,
              Cell.num 3],
             [Cell.str "KP281",
              Cell.num 30,
              Cell.str "Male",
              Cell.num 44400,
              Cell.num 122,
              Cell.num 4],
             [Cell.str "KP481",
              Cell.num 31,
              Cell.str "Female",
              Cell.num 44600,
              Cell.num 123,
              Cell.num 5],
             [Cell.str "KP781",
              Cell.num 32,
              Cell.str "Male",
              Cell.num 44800,
              Cell.num 124,
              Cell.num 6],
             [Cell.str "KP281",
              Cell.num 33,
              Cell.str "Female",
              Cell.num 45000,
              Cell.num 125,
              Cell.num 2],
             [Cell.str "KP481",
              Cell.num 34,
              Cell.str "Male",
              Cell.num 45200,
              Cell.num 126,
              Cell.num 3],
             [Cell.str "KP781",
              Cell.num 35,
              Cell.str "Female",
              Cell.num 45400,
              Cell.num 127,
              Cell.num 4],
             [Cell.str "KP281",
              Cell.num 36,
              Cell.str "Male",
              Cell.num 45600,
              Cell.num 128,
              Cell.num 5],
             [Cell.str "KP481",
              Cell.num 37,
              Cell.str "Female",
              Cell.num 45800,
              Cell.num 129,
              Cell.num 6],
             [Cell.str "KP781",
              Cell.num 38,
              Cell.str "Male",
              Cell.num 46000,
              Cell.num 130,
              Cell.num 2],
             [Cell.str "KP281",
              Cell.num 39,
              Cell.str "Female",
              Cell.num 46200,
              Cell.num 131,
              Cell.num 3],
             [Cell.str "KP481",
              Cell.num 40,
              Cell.str "Male",
              Cell.num 46400,
              Cell.num 132,
              Cell.num 4],
             [Cell.str "KP781",
              Cell.num 41,
              Cell.str "Female",
              Cell.num 46600,
              Cell.num 133,
              Cell.num 5],
             [Cell.str "KP281",
              Cell.num 42,
              Cell.str "Male",
              Cell.num 46800,
              Cell.num 134,
              Cell.num 6],
             [Cell.str "KP481",
              Cell.num 43,
              Cell.str "Female",
              Cell.num 47000,
              Cell.num 135,
              Cell.num 2],
             [Cell.str "KP781",
              Cell.num 44,
              Cell.str "Male",
              Cell.num 47200,
              Cell.num 136,
              Cell.num 3],
             [Cell.str "KP281",
              Cell.num 45,
              Cell.str "Female",
              Cell.num 47400,
              Cell.num 137,
              Cell.num 4],
             [Cell.str "KP481",
              Cell.num 46,
              Cell.str "Male",
              Cell.num 47600,
              Cell.num 138,
              Cell.num 5],
             [Cell.str "KP781",
              Cell.num 47,
              Cell.str "Female",
              Cell.num 47800,
              Cell.num 139,
              Cell.num 6],
             [Cell.str "KP281",
              Cell.num 48,
              Cell.str "Male",
              Cell.num 48000,
              Cell.num 140,
              Cell.num 2],
             [Cell.str "KP481",
              Cell.num 49,
              Cell.str "Female",
              Cell.num 48200,
              Cell.num 141,
              Cell.num 3],
             [Cell.str "KP781",
              Cell.num 50,
              Cell.str "Male",
              Cell.num 48400,
              Cell.num 142,
              Cell.num 4],
             [Cell.str "KP281",
              Cell.num 20,
              Cell.str "Female",
              Cell.num 48600,
              Cell.num 143,
              Cell.num 5],
             [Cell.str "KP481",
              Cell.num 21,
              Cell.str "Male",
              Cell.num 48800,
              Cell.num 144,
              Cell.num 6],
             [Cell.str "KP781",
              Cell.num 22,
              Cell.str "Female",
              Cell.num 49000,
              Cell.num 145,
              Cell.num 2],
             [Cell.str "KP281",
              Cell.num 23,
              Cell.str "Male",
              Cell.num 49200,
              Cell.num 146,
              Cell.num 3],
             [Cell.str "KP481",
              Cell.num 24,
              Cell.str "Female",
              Cell.num 49400,
              Cell.num 147,
              Cell.num 4],
             [Cell.str "KP781",
              Cell.num 25,
              Cell.str "Male",
              Cell.num 49600,
              Cell.num 148,
              Cell.num 5],
             [Cell.str "KP281",
              Cell.num 26,
              Cell.str "Female",
              Cell.num 49800,
              Cell.num 149,
              Cell.num 6],
             [Cell.str "KP481",
              Cell.num 27,
              Cell.str "Male",
              Cell.num 50000,
              Cell.num 50,
              Cell.num 2],
             [Cell.str "KP781",
              Cell.num 28,
              Cell.str "Female",
              Cell.num 50200,
              Cell.num 51,
              Cell.num 3],
             [Cell.str "KP281",
              Cell.num 29,
              Cell.str "Male",
              Cell.num 50400,
              Cell.num 52,
              Cell.num 4],
             [Cell.str "KP481",
              Cell.num 30,
              Cell.str "Female",
              Cell.num 50600,
              Cell.num 53,
              Cell.num 5],
             [Cell.str "KP781",
              Cell.num 31,
              Cell.str "Male",
              Cell.num 50800,
              Cell.num 54,
              Cell.num 6],
             [Cell.str "KP281",
              Cell.num 32,
              Cell.str "Female",
              Cell.num 51000,
              Cell.num 55,
              Cell.num 2],
             [Cell.str "KP481",
              Cell.num 33,
              Cell.str "Male",
              Cell.num 51200,
              Cell.num 56,
              Cell.num 3],
             [Cell.str "KP781",
              Cell.num 34,
              Cell.str "Female",
              Cell.num 51400,
              Cell.num 57,
              Cell.num 4],
             [Cell.str "KP281",
              Cell.num 35,
              Cell.str "Male",
              Cell.num 51600,
              Cell.num 58,
              Cell.num 5],
             [Cell.str "KP481",
              Cell.num 36,
              Cell.str "Female",
              Cell.num 51800,
              Cell.num 59,
              Cell.num 6],
             [Cell.str "KP781",
              Cell.num 37,
              Cell.str "Male",
              Cell.num 52000,
              Cell.num 60,
              Cell.num 2],
             [Cell.str "KP281",
              Cell.num 38,
              Cell.str "Female",
              Cell.num 52200,
              Cell.num 61,
              Cell.num 3],
             [Cell.str "KP481",
              Cell.num 39,
              Cell.str "Male",
              Cell.num 52400,
              Cell.num 62,
              Cell.num 4],
             [Cell.str "KP781",
              Cell.num 40,
              Cell.str "Female",
              Cell.num 52600,
              Cell.num 63,
              Cell.num 5],
             [Cell.str "KP281",
              Cell.num 41,
              Cell.str "Male",
              Cell.num 52800,
              Cell.num 64,
              Cell.num 6],
             [Cell.str "KP481",
              Cell.num 42,
              Cell.str "Female",
              Cell.num 53000,
              Cell.num 65,
              Cell.num 2],
             [Cell.str "KP781",
              Cell.num 43,
              Cell.str "Male",
              Cell.num 53200,
              Cell.num 66,
              Cell.num 3],
             [Cell.str "KP281",
              Cell.num 44,
              Cell.str "Female",
              Cell.num 53400,
              Cell.num 67,
              Cell.num 4],
             [Cell.str "KP481",
              Cell.num 45,
              Cell.str "Male",
              Cell.num 53600,
              Cell.num 68,
              Cell.num 5],
             [Cell.str "KP781",
              Cell.num 46,
              Cell.str "Female",
              Cell.num 53800,
              Cell.num 69,
              Cell.num 6],
             [Cell.str "KP281",
              Cell.num 47,
              Cell.str "Male",
              Cell.num 54000,
              Cell.num 70,
              Cell.num 2],
             [Cell.str "KP481",
              Cell.num 48,
              Cell.str "Female",
              Cell.num 54200,
              Cell.num 71,
              Cell.num 3],
             [Cell.str "KP781",
              Cell.num 49,
              Cell.str "Male",
              Cell.num 54400,
              Cell.num 72,
              Cell.num 4],
             [Cell.str "KP281",
              Cell.num 50,
              Cell.str "Female",
              Cell.num 54600,
              Cell.num 73,
              Cell.num 5],
             [Cell.str "KP481",
              Cell.num 20,
              Cell.str "Male",
              Cell.num 54800,
              Cell.num 74,
              Cell.num 6],
             [Cell.str "KP781",
              Cell.num 21,
              Cell.str "Female",
              Cell.num 55000,
              Cell.num 75,
              Cell.num 2],
             [Cell.str "KP281",
              Cell.num 22,
              Cell.str "Male",
              Cell.num 55200,
              Cell.num 76,
              Cell.num 3],
             [Cell.str "KP481",
              Cell.num 23,
              Cell.str "Female",
              Cell.num 55400,
              Cell.num 77,
              Cell.num 4],
             [Cell.str "KP781",
              Cell.num 24,
              Cell.str "Male",
              Cell.num 55600,
              Cell.num 78,
              Cell.num 5],
             [Cell.str "KP281",
              Cell.num 25,
              Cell.str "Female",
              Cell.num 55800,
              Cell.num 79,
              Cell.num 6],
             [Cell.str "KP481",
              Cell.num 26,
              Cell.str "Male",
              Cell.num 56000,
              Cell.num 80,
              Cell.num 2],
             [Cell.str "KP781",
              Cell.num 27,
              Cell.str "Female",
              Cell.num 56200,
              Cell.num 81,
              Cell.num 3],
             [Cell.str "KP281",
              Cell.num 28,
              Cell.str "Male",
              Cell.num 56400,
              Cell.num 82,
              Cell.num 4],
             [Cell.str "KP481",
              Cell.num 29,
              Cell.str "Female",
              Cell.num 56600,
              Cell.num 83,
              Cell.num 5],
             [Cell.str "KP781",
              Cell.num 30,
              Cell.str "Male",
              Cell.num 56800,
              Cell.num 84,
              Cell.num 6],
             [Cell.str "KP281",
              Cell.num 31,
              Cell.str "Female",
              Cell.num 57000,
              Cell.num 85,
              Cell.num 2],
             [Cell.str "KP481",
              Cell.num 32,
              Cell.str "Male",
              Cell.num 57200,
              Cell.num 86,
              Cell.num 3],
             [Cell.str "KP781",
              Cell.num 33,
              Cell.str "Female",
              Cell.num 57400,
              Cell.num 87,
              Cell.num 4],
             [Cell.str "KP281",
              Cell.num 34,
              Cell.str "Male",
              Cell.num 57600,
              Cell.num 88,
              Cell.num 5],
             [Cell.str "KP481",
              Cell.num 35,
              Cell.str "Female",
              Cell.num 57800,
              Cell.num 89,
              Cell.num 6],
             [Cell.str "KP781",
              Cell.num 36,
              Cell.str "Male",
              Cell.num 58000,
              Cell.num 90,
              Cell.num 2],
             [Cell.str "KP281",
              Cell.num 37,
              Cell.str "Female",
              Cell.num 58200,
              Cell.num 91,
              Cell.num 3],
             [Cell.str "KP481",
              Cell.num 38,
              Cell.str "Male",
              Cell.num 58400,
              Cell.num 92,
              Cell.num 4],
             [Cell.str "KP781",
              Cell.num 39,
              Cell.str "Female",
              Cell.num 58600,
              Cell.num 93,
              Cell.num 5],
             [Cell.str "KP281",
              Cell.num 40,
              Cell.str "Male",
              Cell.num 58800,
              Cell.num 94,
              Cell.num 6],
             [Cell.str "KP481",
              Cell.num 41,
              Cell.str "Female",
              Cell.num 59000,
              Cell.num 95,
              Cell.num 2],
             [Cell.str "KP781",
              Cell.num 42,
              Cell.str "Male",
              Cell.num 59200,
              Cell.num 96,
              Cell.num 3],
             [Cell.str "KP281",
              Cell.num 43,
              Cell.str "Female",
              Cell.num 59400,
              Cell.num 97,
              Cell.num 4],
             [Cell.str "KP481",
              Cell.num 44,
              Cell.str "Male",
              Cell.num 59600,
              Cell.num 98,
              Cell.num 5],
             [Cell.str "KP781",
              Cell.num 45,
              Cell.str "Female",
              Cell.num 59800,
              Cell.num 99,
              Cell.num 6],
             [Cell.str "KP281",
              Cell.num 46,
              Cell.str "Male",
              Cell.num 60000,
              Cell.num 100,
              Cell.num 2],
             [Cell.str "KP481",
              Cell.num 47,
              Cell.str "Female",
              Cell.num 60200,
              Cell.num 101,
              Cell.num 3],
             [Cell.str "KP781",
              Cell.num 48,
              Cell.str "Male",
              Cell.num 60400,
              Cell.num 102,
              Cell.num 4],
             [Cell.str "KP281",
              Cell.num 49,
              Cell.str "Female",
              Cell.num 60600,
              Cell.num 103,
              Cell.num 5],
             [Cell.str "KP481",
              Cell.num 50,
              Cell.str "Male",
              Cell.num 60800,
              Cell.num 104,
              Cell.num 6],
             [Cell.str "KP781",
              Cell.num 20,
              Cell.str "Female",
              Cell.num 61000,
              Cell.num 105,
              Cell.num 2],
             [Cell.str "KP281",
              Cell.num 21,
              Cell.str "Male",
              Cell.num 61200,
              Cell.num 106,
              Cell.num 3],
             [Cell.str "KP481",
              Cell.num 22,
              Cell.str "Female",
              Cell.num 61400,
              Cell.num 107,
              Cell.num 4],
             [Cell.str "KP781",
              Cell.num 23,
              Cell.str "Male",
              Cell.num 61600,
              Cell.num 108,
              Cell.num 5],
             [Cell.str "KP281",
              Cell.num 24,
              Cell.str "Female",
              Cell.num 61800,
              Cell.num 109,
              Cell.num 6],
             [Cell.str "KP481",
              Cell.num 25,
              Cell.str "Male",
              Cell.num 62000,
              Cell.num 110,
              Cell.num 2],
             [Cell.str "KP781",
              Cell.num 26,
              Cell.str "Female",
              Cell.num 62200,
              Cell.num 111,
              Cell.num 3],
             [Cell.str "KP281",
              Cell.num 27,
              Cell.str "Male",
              Cell.num 62400,
              Cell.num 112,
              Cell.num 4],
             [Cell.str "KP481",
              Cell.num 28,
              Cell.str "Female",
              Cell.num 62600,
              Cell.num 113,
              Cell.num 5],
             [Cell.str "KP781",
              Cell.num 29,
              Cell.str "Male",
              Cell.num 62800,
              Cell.num 114,
              Cell.num 6],
             [Cell.str "KP281",
              Cell.num 30,
              Cell.str "Female",
              Cell.num 63000,
              Cell.num 115,
              Cell.num 2],
             [Cell.str "KP481",
              Cell.num 31,
              Cell.str "Male",
              Cell.num 63200,
              Cell.num 116,
              Cell.num 3],
             [Cell.str "KP781",
              Cell.num 32,
              Cell.str "Female",
              Cell.num 63400,
              Cell.num 117,
              Cell.num 4],
             [Cell.str "KP281",
              Cell.num 33,
              Cell.str "Male",
              Cell.num 63600,
              Cell.num 118,
              Cell.num 5],
             [Cell.str "KP481",
              Cell.num 34,
              Cell.str "Female",
              Cell.num 63800,
              Cell.num 119,
              Cell.num 6],
             [Cell.str "KP781",
              Cell.num 35,
              Cell.str "Male",
              Cell.num 64000,
              Cell.num 120,
              Cell.num 2],
             [Cell.str "KP281",
              Cell.num 36,
              Cell.str "Female",
              Cell.num 64200,
              Cell.num 121,
              Cell.num 3],
             [Cell.str "KP481",
              Cell.num 37,
              Cell.str "Male",
              Cell.num 64400,
              Cell.num 122,
              Cell.num 4],
             [Cell.str "KP781",
              Cell.num 38,
              Cell.str "Female",
              Cell.num 64600,
              Cell.num 123,
              Cell.num 5],
             [Cell.str "KP281",
              Cell.num 39,
              Cell.str "Male",
              Cell.num 64800,
              Cell.num 124,
              Cell.num 6],
             [Cell.str "KP481",
              Cell.num 40,
              Cell.str "Female",
              Cell.num 65000,
              Cell.num 125,
              Cell.num 2],
             [Cell.str "KP781",
              Cell.num 41,
              Cell.str "Male",
              Cell.num 65200,
              Cell.num 126,
              Cell.num 3],
             [Cell.str "KP281",
              Cell.num 42,
              Cell.str "Female",
              Cell.num 65400,
              Cell.num 127,
              Cell.num 4],
             [Cell.str "KP481",
              Cell.num 43,
              Cell.str "Male",
              Cell.num 65600,
              Cell.num 128,
              Cell.num 5]] }

/-- The processed scenario table (computed literal). -/
def scenarioT3 : Table :=
  { header := ["product", "age", "gender", "income", "miles", "usage", "product_label", "gender_label",
               "income_bucket", "miles_category", "usage_category", "age_bucket"],
    rows := [[Cell.str "KP281",
              Cell.num 20,
              Cell.str "Male",
              Cell.num 30000,
              Cell.num 50,
              Cell.num 2,
              Cell.str "KP281",
              Cell.str "male",
              Cell.str "low",
              Cell.str "low",
              Cell.str "casual",
              Cell.str "<25"],
             [Cell.str "KP481",
              Cell.num 21,
              Cell.str "Female",
              Cell.num 30200,
              Cell.num 51,
              Cell.num 3,
              Cell.str "KP481",
              Cell.str "male",
              Cell.str "low",
              Cell.str "low",
              Cell.str "regular",
              Cell.str "<25"],
             [Cell.str "KP781",
              Cell.num 22,
              Cell.str "Male",
              Cell.num 30400,
              Cell.num 52,
              Cell.num 4,
              Cell.str "KP781",
              Cell.str "male",
              Cell.str "low",
              Cell.str "low",
              Cell.str "regular",
              Cell.str "<25"],
             [Cell.str "KP281",
              Cell.num 23,
              Cell.str "Female",
              Cell.num 30600,
              Cell.num 53,
              Cell.num 5,
              Cell.str "KP281",
              Cell.str "male",
              Cell.str "low",
              Cell.str "low",
              Cell.str "regular",
              Cell.str "<25"],
             [Cell.str "KP481",
              Cell.num 24,
              Cell.str "Male",
              Cell.num 30800,
              Cell.num 54,
              Cell.num 6,
              Cell.str "KP481",
              Cell.str "male",
              Cell.str "low",
              Cell.str "low",
              Cell.str "heavy",
              Cell.str "<25"],
             [Cell.str "KP781",
              Cell.num 25,
              Cell.str "Female",
              Cell.num 31000,
              Cell.num 55,
              Cell.num 2,
              Cell.str "KP781",
              Cell.str "male",
              Cell.str "low",
              Cell.str "low",
              Cell.str "casual",
              Cell.str "25-34"],
             [Cell.str "KP281",
              Cell.num 26,
              Cell.str "Male",
              Cell.num 31200,
              Cell.num 56,
              Cell.num 3,
              Cell.str "KP281",
              Cell.str "male",
              Cell.str "low",
              Cell.str "low",
              Cell.str "regular",
              Cell.str "25-34"],
             [Cell.str "KP481",
              Cell.num 27,
              Cell.str "Female",
              Cell.num 31400,
              Cell.num 57,
              Cell.num 4,
              Cell.str "KP481",
              Cell.str "male",
              Cell.str "low",
              Cell.str "low",
              Cell.str "regular",
              Cell.str "25-34"],
             [Cell.str "KP781",
              Cell.num 28,
              Cell.str "Male",
              Cell.num 31600,
              Cell.num 58,
              Cell.num 5,
              Cell.str "KP781",
              Cell.str "male",
              Cell.str "low",
              Cell.str "low",
              Cell.str "regular",
              Cell.str "25-34"],
             [Cell.str "KP281",
              Cell.num 29,
              Cell.str "Female",
              Cell.num 31800,
              Cell.num 59,
              Cell.num 6,
              Cell.str "KP281",
              Cell.str "male",
              Cell.str "low",
              Cell.str "low",
              Cell.str "heavy",
              Cell.str "25-34"],
             [Cell.str "KP481",
              Cell.num 30,
              Cell.str "Male",
              Cell.num 32000,
              Cell.num 60,
              Cell.num 2,
              Cell.str "KP481",
              Cell.str "male",
              Cell.str "low",
              Cell.str "low",
              Cell.str "casual",
              Cell.str "25-34"],
             [Cell.str "KP781",
              Cell.num 31,
              Cell.str "Female",
              Cell.num 32200,
              Cell.num 61,
              Cell.num 3,
              Cell.str "KP781",
              Cell.str "male",
              Cell.str "low",
              Cell.str "low",
              Cell.str "regular",
              Cell.str "25-34"],
             [Cell.str "KP281",
              Cell.num 32,
              Cell.str "Male",
              Cell.num 32400,
              Cell.num 62,
              Cell.num 4,
              Cell.str "KP281",
              Cell.str "male",
              Cell.str "low",
              Cell.str "low",
              Cell.str "regular",
              Cell.str "25-34"],
             [Cell.str "KP481",
              Cell.num 33,
              Cell.str "Female",
              Cell.num 32600,
              Cell.num 63,
              Cell.num 5,
              Cell.str "KP481",
              Cell.str "male",
              Cell.str "low",
              Cell.str "low",
              Cell.str "regular",
              Cell.str "25-34"],
             [Cell.str "KP781",
              Cell.num 34,
              Cell.str "Male",
              Cell.num 32800,
              Cell.num 64,
              Cell.num 6,
              Cell.str "KP781",
              Cell.str "male",
              Cell.str "low",
              Cell.str "low",
              Cell.str "heavy",
              Cell.str "25-34"],
             [Cell.str "KP281",
              Cell.num 35,
              Cell.str "Female",
              Cell.num 33000,
              Cell.num 65,
              Cell.num 2,
              Cell.str "KP281",
              Cell.str "male",
              Cell.str "low",
              Cell.str "low",
              Cell.str "casual",
              Cell.str "35-44"],
             [Cell.str "KP481",
              Cell.num 36,
              Cell.str "Male",
              Cell.num 33200,
              Cell.num 66,
              Cell.num 3,
              Cell.str "KP481",
              Cell.str "male",
              Cell.str "low",
              Cell.str "low",
              Cell.str "regular",
              Cell.str "35-44"],
             [Cell.str "KP781",
              Cell.num 37,
              Cell.str "Female",
              Cell.num 33400,
              Cell.num 67,
              Cell.num 4,
              Cell.str "KP781",
              Cell.str "male",
              Cell.str "low",
              Cell.str "low",
              Cell.str "regular",
              Cell.str "35-44"],
             [Cell.str "KP281",
              Cell.num 38,
              Cell.str "Male",
              Cell.num 33600,
              Cell.num 68,
              Cell.num 5,
              Cell.str "KP281",
              Cell.str "male",
              Cell.str "low",
              Cell.str "low",
              Cell.str "regular",
              Cell.str "35-44"],
             [Cell.str "KP481",
              Cell.num 39,
              Cell.str "Female",
              Cell.num 33800,
              Cell.num 69,
              Cell.num 6,
              Cell.str "KP481",
              Cell.str "male",
              Cell.str "low",
              Cell.str "low",
              Cell.str "heavy",
              Cell.str "35-44"],
             [Cell.str "KP781",
              Cell.num 40,
              Cell.str "Male",
              Cell.num 34000,
              Cell.num 70,
              Cell.num 2,
              Cell.str "KP781",
              Cell.str "male",
              Cell.str "low",
              Cell.str "low",
              Cell.str "casual",
              Cell.str "35-44"],
             [Cell.str "KP281",
              Cell.num 41,
              Cell.str "Female",
              Cell.num 34200,
              Cell.num 71,
              Cell.num 3,
              Cell.str "KP281",
              Cell.str "male",
              Cell.str "low",
              Cell.str "low",
              Cell.str "regular",
              Cell.str "35-44"],
             [Cell.str "KP481",
              Cell.num 42,
              Cell.str "Male",
              Cell.num 34400,
              Cell.num 72,
              Cell.num 4,
              Cell.str "KP481",
              Cell.str "male",
              Cell.str "low",
              Cell.str "low",
              Cell.str "regular",
              Cell.str "35-44"],
             [Cell.str "KP781",
              Cell.num 43,
              Cell.str "Female",
              Cell.num 34600,
              Cell.num 73,
              Cell.num 5,
              Cell.str "KP781",
              Cell.str "male",
              Cell.str "low",
              Cell.str "low",
              Cell.str "regular",
              Cell.str "35-44"],
             [Cell.str "KP281",
              Cell.num 44,
              Cell.str "Male",
              Cell.num 34800,
              Cell.num 74,
              Cell.num 6,
              Cell.str "KP281",
              Cell.str "male",
              Cell.str "low",
              Cell.str "low",
              Cell.str "heavy",
              Cell.str "35-44"],
             [Cell.str "KP481",
              Cell.num 45,
              Cell.str "Female",
              Cell.num 35000,
              Cell.num 75,
              Cell.num 2,
              Cell.str "KP481",
              Cell.str "male",
              Cell.str "low",
              Cell.str "low",
              Cell.str "casual",
              Cell.str "45-54"],
             [Cell.str "KP781",
              Cell.num 46,
              Cell.str "Male",
              Cell.num 35200,
              Cell.num 76,
              Cell.num 3,
              Cell.str "KP781",
              Cell.str "male",
              Cell.str "low",
              Cell.str "low",
              Cell.str "regular",
              Cell.str "45-54"],
             [Cell.str "KP281",
              Cell.num 47,
              Cell.str "Female",
              Cell.num 35400,
              Cell.num 77,
              Cell.num 4,
              Cell.str "KP281",
              Cell.str "male",
              Cell.str "low",
              Cell.str "low",
              Cell.str "regular",
              Cell.str "45-54"],
             [Cell.str "KP481",
              Cell.num 48,
              Cell.str "Male",
              Cell.num 35600,
              Cell.num 78,
              Cell.num 5,
              Cell.str "KP481",
              Cell.str "male",
              Cell.str "low",
              Cell.str "low",
              Cell.str "regular",
              Cell.str "45-54"],
             [Cell.str "KP781",
              Cell.num 49,
              Cell.str "Female",
              Cell.num 35800,
              Cell.num 79,
              Cell.num 6,
              Cell.str "KP781",
              Cell.str "male",
              Cell.str "low",
              Cell.str "low",
              Cell.str "heavy",
              Cell.str "45-54"],
             [Cell.str "KP281",
              Cell.num 50,
              Cell.str "Male",
              Cell.num 36000,
              Cell.num 80,
              Cell.num 2,
              Cell.str "KP281",
              Cell.str "male",
              Cell.str "low",
              Cell.str "medium",
              Cell.str "casual",
              Cell.str "45-54"],
             [Cell.str "KP481",
              Cell.num 20,
              Cell.str "Female",
              Cell.num 36200,
              Cell.num 81,
              Cell.num 3,
              Cell.str "KP481",
              Cell.str "male",
              Cell.str "low",
              Cell.str "medium",
              Cell.str "regular",
              Cell.str "<25"],
             [Cell.str "KP781",
              Cell.num 21,
              Cell.str "Male",
              Cell.num 36400,
              Cell.num 82,
              Cell.num 4,
              Cell.str "KP781",
              Cell.str "male",
              Cell.str "low",
              Cell.str "medium",
              Cell.str "regular",
              Cell.str "<25"],
             [Cell.str "KP281",
              Cell.num 22,
              Cell.str "Female",
              Cell.num 36600,
              Cell.num 83,
              Cell.num 5,
              Cell.str "KP281",
              Cell.str "male",
              Cell.str "low",
              Cell.str "medium",
              Cell.str "regular",
              Cell.str "<25"],
             [Cell.str "KP481",
              Cell.num 23,
              Cell.str "Male",
              Cell.num 36800,
              Cell.num 84,
              Cell.num 6,
              Cell.str "KP481",
              Cell.str "male",
              Cell.str "low",
              Cell.str "medium",
              Cell.str "heavy",
              Cell.str "<25"],
             [Cell.str "KP781",
              Cell.num 24,
              Cell.str "Female",
              Cell.num 37000,
              Cell.num 85,
              Cell.num 2,
              Cell.str "KP781",
              Cell.str "male",
              Cell.str "low",
              Cell.str "medium",
              Cell.str "casual",
              Cell.str "<25"],
             [Cell.str "KP281",
              Cell.num 25,
              Cell.str "Male",
              Cell.num 37200,
              Cell.num 86,
              Cell.num 3,
              Cell.str "KP281",
              Cell.str "male",
              Cell.str "low",
              Cell.str "medium",
              Cell.str "regular",
              Cell.str "25-34"],
             [Cell.str "KP481",
              Cell.num 26,
              Cell.str "Female",
              Cell.num 37400,
              Cell.num 87,
              Cell.num 4,
              Cell.str "KP481",
              Cell.str "male",
              Cell.str "low",
              Cell.str "medium",
              Cell.str "regular",
              Cell.str "25-34"],
             [Cell.str "KP781",
              Cell.num 27,
              Cell.str "Male",
              Cell.num 37600,
              Cell.num 88,
              Cell.num 5,
              Cell.str "KP781",
              Cell.str "male",
              Cell.str "low",
              Cell.str "medium",
              Cell.str "regular",
              Cell.str "25-34"],
             [Cell.str "KP281",
              Cell.num 28,
              Cell.str "Female",
              Cell.num 37800,
              Cell.num 89,
              Cell.num 6,
              Cell.str "KP281",
              Cell.str "male",
              Cell.str "low",
              Cell.str "medium",
              Cell.str "heavy",
              Cell.str "25-34"],
             [Cell.str "KP481",
              Cell.num 29,
              Cell.str "Male",
              Cell.num 38000,
              Cell.num 90,
              Cell.num 2,
              Cell.str "KP481",
              Cell.str "male",
              Cell.str "low",
              Cell.str "medium",
              Cell.str "casual",
              Cell.str "25-34"],
             [Cell.str "KP781",
              Cell.num 30,
              Cell.str "Female",
              Cell.num 38200,
              Cell.num 91,
              Cell.num 3,
              Cell.str "KP781",
              Cell.str "male",
              Cell.str "low",
              Cell.str "medium",
              Cell.str "regular",
              Cell.str "25-34"],
             [Cell.str "KP281",
              Cell.num 31,
              Cell.str "Male",
              Cell.num 38400,
              Cell.num 92,
              Cell.num 4,
              Cell.str "KP281",
              Cell.str "male",
              Cell.str "low",
              Cell.str "medium",
              Cell.str "regular",
              Cell.str "25-34"],
             [Cell.str "KP481",
              Cell.num 32,
              Cell.str "Female",
              Cell.num 38600,
              Cell.num 93,
              Cell.num 5,
              Cell.str "KP481",
              Cell.str "male",
              Cell.str "low",
              Cell.str "medium",
              Cell.str "regular",
              Cell.str "25-34"],
             [Cell.str "KP781",
              Cell.num 33,
              Cell.str "Male",
              Cell.num 38800,
              Cell.num 94,
              Cell.num 6,
              Cell.str "KP781",
              Cell.str "male",
              Cell.str "low",
              Cell.str "medium",
              Cell.str "heavy",
              Cell.str "25-34"],
             [Cell.str "KP281",
              Cell.num 34,
              Cell.str "Female",
              Cell.num 39000,
              Cell.num 95,
              Cell.num 2,
              Cell.str "KP281",
              Cell.str "male",
              Cell.str "low",
              Cell.str "medium",
              Cell.str "casual",
              Cell.str "25-34"],
             [Cell.str "KP481",
              Cell.num 35,
              Cell.str "Male",
              Cell.num 39200,
              Cell.num 96,
              Cell.num 3,
              Cell.str "KP481",
              Cell.str "male",
              Cell.str "low",
              Cell.str "medium",
              Cell.str "regular",
              Cell.str "35-44"],
             [Cell.str "KP781",
              Cell.num 36,
              Cell.str "Female",
              Cell.num 39400,
              Cell.num 97,
              Cell.num 4,
              Cell.str "KP781",
              Cell.str "male",
              Cell.str "low",
              Cell.str "medium",
              Cell.str "regular",
              Cell.str "35-44"],
             [Cell.str "KP281",
              Cell.num 37,
              Cell.str "Male",
              Cell.num 39600,
              Cell.num 98,
              Cell.num 5,
              Cell.str "KP281",
              Cell.str "male",
              Cell.str "low",
              Cell.str "medium",
              Cell.str "regular",
              Cell.str "35-44"],
             [Cell.str "KP481",
              Cell.num 38,
              Cell.str "Female",
              Cell.num 39800,
              Cell.num 99,
              Cell.num 6,
              Cell.str "KP481",
              Cell.str "male",
              Cell.str "low",
              Cell.str "medium",
              Cell.str "heavy",
              Cell.str "35-44"],
             [Cell.str "KP781",
              Cell.num 39,
              Cell.str "Male",
              Cell.num 40000,
              Cell.num 100,
              Cell.num 2,
              Cell.str "KP781",
              Cell.str "male",
              Cell.str "low",
              Cell.str "medium",
              Cell.str "casual",
              Cell.str "35-44"],
             [Cell.str "KP281",
              Cell.num 40,
              Cell.str "Female",
              Cell.num 40200,
              Cell.num 101,
              Cell.num 3,
              Cell.str "KP281",
              Cell.str "male",
              Cell.str "low",
              Cell.str "medium",
              Cell.str "regular",
              Cell.str "35-44"],
             [Cell.str "KP481",
              Cell.num 41,
              Cell.str "Male",
              Cell.num 40400,
              Cell.num 102,
              Cell.num 4,
              Cell.str "KP481",
              Cell.str "male",
              Cell.str "low",
              Cell.str "medium",
              Cell.str "regular",
              Cell.str "35-44"],
             [Cell.str "KP781",
              Cell.num 42,
              Cell.str "Female",
              Cell.num 40600,
              Cell.num 103,
              Cell.num 5,
              Cell.str "KP781",
              Cell.str "male",
              Cell.str "low",
              Cell.str "medium",
              Cell.str "regular",
              Cell.str "35-44"],
             [Cell.str "KP281",
              Cell.num 43,
              Cell.str "Male",
              Cell.num 40800,
              Cell.num 104,
              Cell.num 6,
              Cell.str "KP281",
              Cell.str "male",
              Cell.str "low",
              Cell.str "medium",
              Cell.str "heavy",
              Cell.str "35-44"],
             [Cell.str "KP481",
              Cell.num 44,
              Cell.str "Female",
              Cell.num 41000,
              Cell.num 105,
              Cell.num 2,
              Cell.str "KP481",
              Cell.str "male",
              Cell.str "low",
              Cell.str "medium",
              Cell.str "casual",
              Cell.str "35-44"],
             [Cell.str "KP781",
              Cell.num 45,
              Cell.str "Male",
              Cell.num 41200,
              Cell.num 106,
              Cell.num 3,
              Cell.str "KP781",
              Cell.str "male",
              Cell.str "low",
              Cell.str "medium",
              Cell.str "regular",
              Cell.str "45-54"],
             [Cell.str "KP281",
              Cell.num 46,
              Cell.str "Female",
              Cell.num 41400,
              Cell.num 107,
              Cell.num 4,
              Cell.str "KP281",
              Cell.str "male",
              Cell.str "low",
              Cell.str "medium",
              Cell.str "regular",
              Cell.str "45-54"],
             [Cell.str "KP481",
              Cell.num 47,
              Cell.str "Male",
              Cell.num 41600,
              Cell.num 108,
              Cell.num 5,
              Cell.str "KP481",
              Cell.str "male",
              Cell.str "low",
              Cell.str "medium",
              Cell.str "regular",
              Cell.str "45-54"],
             [Cell.str "KP781",
              Cell.num 48,
              Cell.str "Female",
              Cell.num 41800,
              Cell.num 109,
              Cell.num 6,
              Cell.str "KP781",
              Cell.str "male",
              Cell.str "low",
              Cell.str "medium",
              Cell.str "heavy",
              Cell.str "45-54"],
             [Cell.str "KP281",
              Cell.num 49,
              Cell.str "Male",
              Cell.num 42000,
              Cell.num 110,
              Cell.num 2,
              Cell.str "KP281",
              Cell.str "male",
              Cell.str "medium",
              Cell.str "high",
              Cell.str "casual",
              Cell.str "45-54"],
             [Cell.str "KP481",
              Cell.num 50,
              Cell.str "Female",
              Cell.num 42200,
              Cell.num 111,
              Cell.num 3,
              Cell.str "KP481",
              Cell.str "male",
              Cell.str "medium",
              Cell.str "high",
              Cell.str "regular",
              Cell.str "45-54"],
             [Cell.str "KP781",
              Cell.num 20,
              Cell.str "Male",
              Cell.num 42400,
              Cell.num 112,
              Cell.num 4,
              Cell.str "KP781",
              Cell.str "male",
              Cell.str "medium",
              Cell.str "high",
              Cell.str "regular",
              Cell.str "<25"],
             [Cell.str "KP281",
              Cell.num 21,
              Cell.str "Female",
              Cell.num 42600,
              Cell.num 113,
              Cell.num 5,
              Cell.str "KP281",
              Cell.str "male",
              Cell.str "medium",
              Cell.str "high",
              Cell.str "regular",
              Cell.str "<25"],
             [Cell.str "KP481",
              Cell.num 22,
              Cell.str "Male",
              Cell.num 42800,
              Cell.num 114,
              Cell.num 6,
              Cell.str "KP481",
              Cell.str "male",
              Cell.str "medium",
              Cell.str "high",
              Cell.str "heavy",
              Cell.str "<25"],
             [Cell.str "KP781",
              Cell.num 23,
              Cell.str "Female",
              Cell.num 43000,
              Cell.num 115,
              Cell.num 2,
              Cell.str "KP781",
              Cell.str "male",
              Cell.str "medium",
              Cell.str "high",
              Cell.str "casual",
              Cell.str "<25"],
             [Cell.str "KP281",
              Cell.num 24,
              Cell.str "Male",
              Cell.num 43200,
              Cell.num 116,
              Cell.num 3,
              Cell.str "KP281",
              Cell.str "male",
              Cell.str "medium",
              Cell.str "high",
              Cell.str "regular",
              Cell.str "<25"],
             [Cell.str "KP481",
              Cell.num 25,
              Cell.str "Female",
              Cell.num 43400,
              Cell.num 117,
              Cell.num 4,
              Cell.str "KP481",
              Cell.str "male",
              Cell.str "medium",
              Cell.str "high",
              Cell.str "regular",
              Cell.str "25-34"],
             [Cell.str "KP781",
              Cell.num 26,
              Cell.str "Male",
              Cell.num 43600,
              Cell.num 118,
              Cell.num 5,
              Cell.str "KP781",
              Cell.str "male",
              Cell.str "medium",
              Cell.str "high",
              Cell.str "regular",
              Cell.str "25-34"],
             [Cell.str "KP281",
              Cell.num 27,
              Cell.str "Female",
              Cell.num 43800,
              Cell.num 119,
              Cell.num 6,
              Cell.str "KP281",
              Cell.str "male",
              Cell.str "medium",
              Cell.str "high",
              Cell.str "heavy",
              Cell.str "25-34"],
             [Cell.str "KP481",
              Cell.num 28,
              Cell.str "Male",
              Cell.num 44000,
              Cell.num 120,
              Cell.num 2,
              Cell.str "KP481",
              Cell.str "male",
              Cell.str "medium",
              Cell.str "high",
              Cell.str "casual",
              Cell.str "25-34"],
             [Cell.str "KP781",
              Cell.num 29,
              Cell.str "Female",
              Cell.num 44200,
              Cell.num 121,
              Cell.num 3,
              Cell.str "KP781",
              Cell.str "male",
              Cell.str "medium",
              Cell.str "high",
              Cell.str "regular",
              Cell.str "25-34"],
             [Cell.str "KP281",
              Cell.num 30,
              Cell.str "Male",
              Cell.num 44400,
              Cell.num 122,
              Cell.num 4,
              Cell.str "KP281",
              Cell.str "male",
              Cell.str "medium",
              Cell.str "high",
              Cell.str "regular",
              Cell.str "25-34"],
             [Cell.str "KP481",
              Cell.num 31,
              Cell.str "Female",
              Cell.num 44600,
              Cell.num 123,
              Cell.num 5,
              Cell.str "KP481",
              Cell.str "male",
              Cell.str "medium",
              Cell.str "high",
              Cell.str "regular",
              Cell.str "25-34"],
             [Cell.str "KP781",
              Cell.num 32,
              Cell.str "Male",
              Cell.num 44800,
              Cell.num 124,
              Cell.num 6,
              Cell.str "KP781",
              Cell.str "male",
              Cell.str "medium",
              Cell.str "high",
              Cell.str "heavy",
              Cell.str "25-34"],
             [Cell.str "KP281",
              Cell.num 33,
              Cell.str "Female",
              Cell.num 45000,
              Cell.num 125,
              Cell.num 2,
              Cell.str "KP281",
              Cell.str "male",
              Cell.str "medium",
              Cell.str "high",
              Cell.str "casual",
              Cell.str "25-34"],
             [Cell.str "KP481",
              Cell.num 34,
              Cell.str "Male",
              Cell.num 45200,
              Cell.num 126,
              Cell.num 3,
              Cell.str "KP481",
              Cell.str "male",
              Cell.str "medium",
              Cell.str "high",
              Cell.str "regular",
              Cell.str "25-34"],
             [Cell.str "KP781",
              Cell.num 35,
              Cell.str "Female",
              Cell.num 45400,
              Cell.num 127,
              Cell.num 4,
              Cell.str "KP781",
              Cell.str "male",
              Cell.str "medium",
              Cell.str "high",
              Cell.str "regular",
              Cell.str "35-44"],
             [Cell.str "KP281",
              Cell.num 36,
              Cell.str "Male",
              Cell.num 45600,
              Cell.num 128,
              Cell.num 5,
              Cell.str "KP281",
              Cell.str "male",
              Cell.str "medium",
              Cell.str "high",
              Cell.str "regular",
              Cell.str "35-44"],
             [Cell.str "KP481",
              Cell.num 37,
              Cell.str "Female",
              Cell.num 45800,
              Cell.num 129,
              Cell.num 6,
              Cell.str "KP481",
              Cell.str "male",
              Cell.str "medium",
              Cell.str "high",
              Cell.str "heavy",
              Cell.str "35-44"],
             [Cell.str "KP781",
              Cell.num 38,
              Cell.str "Male",
              Cell.num 46000,
              Cell.num 130,
              Cell.num 2,
              Cell.str "KP781",
              Cell.str "male",
              Cell.str "medium",
              Cell.str "high",
              Cell.str "casual",
              Cell.str "35-44"],
             [Cell.str "KP281",
              Cell.num 39,
              Cell.str "Female",
              Cell.num 46200,
              Cell.num 131,
              Cell.num 3,
              Cell.str "KP281",
              Cell.str "male",
              Cell.str "medium",
              Cell.str "high",
              Cell.str "regular",
              Cell.str "35-44"],
             [Cell.str "KP481",
              Cell.num 40,
              Cell.str "Male",
              Cell.num 46400,
              Cell.num 132,
              Cell.num 4,
              Cell.str "KP481",
              Cell.str "male",
              Cell.str "medium",
              Cell.str "high",
              Cell.str "regular",
              Cell.str "35-44"],
             [Cell.str "KP781",
              Cell.num 41,
              Cell.str "Female",
              Cell.num 46600,
              Cell.num 133,
              Cell.num 5,
              Cell.str "KP781",
              Cell.str "male",
              Cell.str "medium",
              Cell.str "high",
              Cell.str "regular",
              Cell.str "35-44"],
             [Cell.str "KP281",
              Cell.num 42,
              Cell.str "Male",
              Cell.num 46800,
              Cell.num 134,
              Cell.num 6,
              Cell.str "KP281",
              Cell.str "male",
              Cell.str "medium",
              Cell.str "high",
              Cell.str "heavy",
              Cell.str "35-44"],
             [Cell.str "KP481",
              Cell.num 43,
              Cell.str "Female",
              Cell.num 47000,
              Cell.num 135,
              Cell.num 2,
              Cell.str "KP481",
              Cell.str "male",
              Cell.str "medium",
              Cell.str "high",
              Cell.str "casual",
              Cell.str "35-44"],
             [Cell.str "KP781",
              Cell.num 44,
              Cell.str "Male",
              Cell.num 47200,
              Cell.num 136,
              Cell.num 3,
              Cell.str "KP781",
              Cell.str "male",
              Cell.str "medium",
              Cell.str "high",
              Cell.str "regular",
              Cell.str "35-44"],
             [Cell.str "KP281",
              Cell.num 45,
              Cell.str "Female",
              Cell.num 47400,
              Cell.num 137,
              Cell.num 4,
              Cell.str "KP281",
              Cell.str "male",
              Cell.str "medium",
              Cell.str "high",
              Cell.str "regular",
              Cell.str "45-54"],
             [Cell.str "KP481",
              Cell.num 46,
              Cell.str "Male",
              Cell.num 47600,
              Cell.num 138,
              Cell.num 5,
              Cell.str "KP481",
              Cell.str "male",
              Cell.str "medium",
              Cell.str "high",
              Cell.str "regular",
              Cell.str "45-54"],
             [Cell.str "KP781",
              Cell.num 47,
              Cell.str "Female",
              Cell.num 47800,
              Cell.num 139,
              Cell.num 6,
              Cell.str "KP781",
              Cell.str "male",
              Cell.str "medium",
              Cell.str "high",
              Cell.str "heavy",
              Cell.str "45-54"],
             [Cell.str "KP281",
              Cell.num 48,
              Cell.str "Male",
              Cell.num 48000,
              Cell.num 140,
              Cell.num 2,
              Cell.str "KP281",
              Cell.str "male",
              Cell.str "medium",
              Cell.str "high",
              Cell.str "casual",
              Cell.str "45-54"],
             [Cell.str "KP481",
              Cell.num 49,
              Cell.str "Female",
              Cell.num 48200,
              Cell.num 141,
              Cell.num 3,
              Cell.str "KP481",
              Cell.str "male",
              Cell.str "medium",
              Cell.str "high",
              Cell.str "regular",
              Cell.str "45-54"],
             [Cell.str "KP781",
              Cell.num 50,
              Cell.str "Male",
              Cell.num 48400,
              Cell.num 142,
              Cell.num 4,
              Cell.str "KP781",
              Cell.str "male",
              Cell.str "medium",
              Cell.str "high",
              Cell.str "regular",
              Cell.str "45-54"],
             [Cell.str "KP281",
              Cell.num 20,
              Cell.str "Female",
              Cell.num 48600,
              Cell.num 143,
              Cell.num 5,
              Cell.str "KP281",
              Cell.str "male",
              Cell.str "medium",
              Cell.str "high",
              Cell.str "regular",
              Cell.str "<25"],
             [Cell.str "KP481",
              Cell.num 21,
              Cell.str "Male",
              Cell.num 48800,
              Cell.num 144,
              Cell.num 6,
              Cell.str "KP481",
              Cell.str "male",
              Cell.str "medium",
              Cell.str "high",
              Cell.str "heavy",
              Cell.str "<25"],
             [Cell.str "KP781",
              Cell.num 22,
              Cell.str "Female",
              Cell.num 49000,
              Cell.num 145,
              Cell.num 2,
              Cell.str "KP781",
              Cell.str "male",
              Cell.str "medium",
              Cell.str "high",
              Cell.str "casual",
              Cell.str "<25"],
             [Cell.str "KP281",
              Cell.num 23,
              Cell.str "Male",
              Cell.num 49200,
              Cell.num 146,
              Cell.num 3,
              Cell.str "KP281",
              Cell.str "male",
              Cell.str "medium",
              Cell.str "high",
              Cell.str "regular",
              Cell.str "<25"],
             [Cell.str "KP481",
              Cell.num 24,
              Cell.str "Female",
              Cell.num 49400,
              Cell.num 147,
              Cell.num 4,
              Cell.str "KP481",
              Cell.str "male",
              Cell.str "medium",
              Cell.str "high",
              Cell.str "regular",
              Cell.str "<25"],
             [Cell.str "KP781",
              Cell.num 25,
              Cell.str "Male",
              Cell.num 49600,
              Cell.num 148,
              Cell.num 5,
              Cell.str "KP781",
              Cell.str "male",
              Cell.str "medium",
              Cell.str "high",
              Cell.str "regular",
              Cell.str "25-34"],
             [Cell.str "KP281",
              Cell.num 26,
              Cell.str "Female",
              Cell.num 49800,
              Cell.num 149,
              Cell.num 6,
              Cell.str "KP281",
              Cell.str "male",
              Cell.str "medium",
              Cell.str "high",
              Cell.str "heavy",
              Cell.str "25-34"],
             [Cell.str "KP481",
              Cell.num 27,
              Cell.str "Male",
              Cell.num 50000,
              Cell.num 50,
              Cell.num 2,
              Cell.str "KP481",
              Cell.str "male",
              Cell.str "medium",
              Cell.str "low",
              Cell.str "casual",
              Cell.str "25-34"],
             [Cell.str "KP781",
              Cell.num 28,
              Cell.str "Female",
              Cell.num 50200,
              Cell.num 51,
              Cell.num 3,
              Cell.str "KP781",
              Cell.str "male",
              Cell.str "medium",
              Cell.str "low",
              Cell.str "regular",
              Cell.str "25-34"],
             [Cell.str "KP281",
              Cell.num 29,
              Cell.str "Male",
              Cell.num 50400,
              Cell.num 52,
              Cell.num 4,
              Cell.str "KP281",
              Cell.str "male",
              Cell.str "medium",
              Cell.str "low",
              Cell.str "regular",
              Cell.str "25-34"],
             [Cell.str "KP481",
              Cell.num 30,
              Cell.str "Female",
              Cell.num 50600,
              Cell.num 53,
              Cell.num 5,
              Cell.str "KP481",
              Cell.str "male",
              Cell.str "medium",
              Cell.str "low",
              Cell.str "regular",
              Cell.str "25-34"],
             [Cell.str "KP781",
              Cell.num 31,
              Cell.str "Male",
              Cell.num 50800,
              Cell.num 54,
              Cell.num 6,
              Cell.str "KP781",
              Cell.str "male",
              Cell.str "medium",
              Cell.str "low",
              Cell.str "heavy",
              Cell.str "25-34"],
             [Cell.str "KP281",
              Cell.num 32,
              Cell.str "Female",
              Cell.num 51000,
              Cell.num 55,
              Cell.num 2,
              Cell.str "KP281",
              Cell.str "male",
              Cell.str "medium",
              Cell.str "low",
              Cell.str "casual",
              Cell.str "25-34"],
             [Cell.str "KP481",
              Cell.num 33,
              Cell.str "Male",
              Cell.num 51200,
              Cell.num 56,
              Cell.num 3,
              Cell.str "KP481",
              Cell.str "male",
              Cell.str "medium",
              Cell.str "low",
              Cell.str "regular",
              Cell.str "25-34"],
             [Cell.str "KP781",
              Cell.num 34,
              Cell.str "Female",
              Cell.num 51400,
              Cell.num 57,
              Cell.num 4,
              Cell.str "KP781",
              Cell.str "male",
              Cell.str "medium",
              Cell.str "low",
              Cell.str "regular",
              Cell.str "25-34"],
             [Cell.str "KP281",
              Cell.num 35,
              Cell.str "Male",
              Cell.num 51600,
              Cell.num 58,
              Cell.num 5,
              Cell.str "KP281",
              Cell.str "male",
              Cell.str "medium",
              Cell.str "low",
              Cell.str "regular",
              Cell.str "35-44"],
             [Cell.str "KP481",
              Cell.num 36,
              Cell.str "Female",
              Cell.num 51800,
              Cell.num 59,
              Cell.num 6,
              Cell.str "KP481",
              Cell.str "male",
              Cell.str "medium",
              Cell.str "low",
              Cell.str "heavy",
              Cell.str "35-44"],
             [Cell.str "KP781",
              Cell.num 37,
              Cell.str "Male",
              Cell.num 52000,
              Cell.num 60,
              Cell.num 2,
              Cell.str "KP781",
              Cell.str "male",
              Cell.str "medium",
              Cell.str "low",
              Cell.str "casual",
              Cell.str "35-44"],
             [Cell.str "KP281",
              Cell.num 38,
              Cell.str "Female",
              Cell.num 52200,
              Cell.num 61,
              Cell.num 3,
              Cell.str "KP281",
              Cell.str "male",
              Cell.str "medium",
              Cell.str "low",
              Cell.str "regular",
              Cell.str "35-44"],
             [Cell.str "KP481",
              Cell.num 39,
              Cell.str "Male",
              Cell.num 52400,
              Cell.num 62,
              Cell.num 4,
              Cell.str "KP481",
              Cell.str "male",
              Cell.str "medium",
              Cell.str "low",
              Cell.str "regular",
              Cell.str "35-44"],
             [Cell.str "KP781",
              Cell.num 40,
              Cell.str "Female",
              Cell.num 52600,
              Cell.num 63,
              Cell.num 5,
              Cell.str "KP781",
              Cell.str "male",
              Cell.str "medium",
              Cell.str "low",
              Cell.str "regular",
              Cell.str "35-44"],
             [Cell.str "KP281",
              Cell.num 41,
              Cell.str "Male",
              Cell.num 52800,
              Cell.num 64,
              Cell.num 6,
              Cell.str "KP281",
              Cell.str "male",
              Cell.str "medium",
              Cell.str "low",
              Cell.str "heavy",
              Cell.str "35-44"],
             [Cell.str "KP481",
              Cell.num 42,
              Cell.str "Female",
              Cell.num 53000,
              Cell.num 65,
              Cell.num 2,
              Cell.str "KP481",
              Cell.str "male",
              Cell.str "medium",
              Cell.str "low",
              Cell.str "casual",
              Cell.str "35-44"],
             [Cell.str "KP781",
              Cell.num 43,
              Cell.str "Male",
              Cell.num 53200,
              Cell.num 66,
              Cell.num 3,
              Cell.str "KP781",
              Cell.str "male",
              Cell.str "medium",
              Cell.str "low",
              Cell.str "regular",
              Cell.str "35-44"],
             [Cell.str "KP281",
              Cell.num 44,
              Cell.str "Female",
              Cell.num 53400,
              Cell.num 67,
              Cell.num 4,
              Cell.str "KP281",
              Cell.str "male",
              Cell.str "medium",
              Cell.str "low",
              Cell.str "regular",
              Cell.str "35-44"],
             [Cell.str "KP481",
              Cell.num 45,
              Cell.str "Male",
              Cell.num 53600,
              Cell.num 68,
              Cell.num 5,
              Cell.str "KP481",
              Cell.str "male",
              Cell.str "medium",
              Cell.str "low",
              Cell.str "regular",
              Cell.str "45-54"],
             [Cell.str "KP781",
              Cell.num 46,
              Cell.str "Female",
              Cell.num 53800,
              Cell.num 69,
              Cell.num 6,
              Cell.str "KP781",
              Cell.str "male",
              Cell.str "high",
              Cell.str "low",
              Cell.str "heavy",
              Cell.str "45-54"],
             [Cell.str "KP281",
              Cell.num 47,
              Cell.str "Male",
              Cell.num 54000,
              Cell.num 70,
              Cell.num 2,
              Cell.str "KP281",
              Cell.str "male",
              Cell.str "high",
              Cell.str "low",
              Cell.str "casual",
              Cell.str "45-54"],
             [Cell.str "KP481",
              Cell.num 48,
              Cell.str "Female",
              Cell.num 54200,
              Cell.num 71,
              Cell.num 3,
              Cell.str "KP481",
              Cell.str "male",
              Cell.str "high",
              Cell.str "low",
              Cell.str "regular",
              Cell.str "45-54"],
             [Cell.str "KP781",
              Cell.num 49,
              Cell.str "Male",
              Cell.num 54400,
              Cell.num 72,
              Cell.num 4,
              Cell.str "KP781",
              Cell.str "male",
              Cell.str "high",
              Cell.str "low",
              Cell.str "regular",
              Cell.str "45-54"],
             [Cell.str "KP281",
              Cell.num 50,
              Cell.str "Female",
              Cell.num 54600,
              Cell.num 73,
              Cell.num 5,
              Cell.str "KP281",
              Cell.str "male",
              Cell.str "high",
              Cell.str "low",
              Cell.str "regular",
              Cell.str "45-54"],
             [Cell.str "KP481",
              Cell.num 20,
              Cell.str "Male",
              Cell.num 54800,
              Cell.num 74,
              Cell.num 6,
              Cell.str "KP481",
              Cell.str "male",
              Cell.str "high",
              Cell.str "low",
              Cell.str "heavy",
              Cell.str "<25"],
             [Cell.str "KP781",
              Cell.num 21,
              Cell.str "Female",
              Cell.num 55000,
              Cell.num 75,
              Cell.num 2,
              Cell.str "KP781",
              Cell.str "male",
              Cell.str "high",
              Cell.str "low",
              Cell.str "casual",
              Cell.str "<25"],
             [Cell.str "KP281",
              Cell.num 22,
              Cell.str "Male",
              Cell.num 55200,
              Cell.num 76,
              Cell.num 3,
              Cell.str "KP281",
              Cell.str "male",
              Cell.str "high",
              Cell.str "low",
              Cell.str "regular",
              Cell.str "<25"],
             [Cell.str "KP481",
              Cell.num 23,
              Cell.str "Female",
              Cell.num 55400,
              Cell.num 77,
              Cell.num 4,
              Cell.str "KP481",
              Cell.str "male",
              Cell.str "high",
              Cell.str "low",
              Cell.str "regular",
              Cell.str "<25"],
             [Cell.str "KP781",
              Cell.num 24,
              Cell.str "Male",
              Cell.num 55600,
              Cell.num 78,
              Cell.num 5,
              Cell.str "KP781",
              Cell.str "male",
              Cell.str "high",
              Cell.str "low",
              Cell.str "regular",
              Cell.str "<25"],
             [Cell.str "KP281",
              Cell.num 25,
              Cell.str "Female",
              Cell.num 55800,
              Cell.num 79,
              Cell.num 6,
              Cell.str "KP281",
              Cell.str "male",
              Cell.str "high",
              Cell.str "low",
              Cell.str "heavy",
              Cell.str "25-34"],
             [Cell.str "KP481",
              Cell.num 26,
              Cell.str "Male",
              Cell.num 56000,
              Cell.num 80,
              Cell.num 2,
              Cell.str "KP481",
              Cell.str "male",
              Cell.str "high",
              Cell.str "medium",
              Cell.str "casual",
              Cell.str "25-34"],
             [Cell.str "KP781",
              Cell.num 27,
              Cell.str "Female",
              Cell.num 56200,
              Cell.num 81,
              Cell.num 3,
              Cell.str "KP781",
              Cell.str "male",
              Cell.str "high",
              Cell.str "medium",
              Cell.str "regular",
              Cell.str "25-34"],
             [Cell.str "KP281",
              Cell.num 28,
              Cell.str "Male",
              Cell.num 56400,
              Cell.num 82,
              Cell.num 4,
              Cell.str "KP281",
              Cell.str "male",
              Cell.str "high",
              Cell.str "medium",
              Cell.str "regular",
              Cell.str "25-34"],
             [Cell.str "KP481",
              Cell.num 29,
              Cell.str "Female",
              Cell.num 56600,
              Cell.num 83,
              Cell.num 5,
              Cell.str "KP481",
              Cell.str "male",
              Cell.str "high",
              Cell.str "medium",
              Cell.str "regular",
              Cell.str "25-34"],
             [Cell.str "KP781",
              Cell.num 30,
              Cell.str "Male",
              Cell.num 56800,
              Cell.num 84,
              Cell.num 6,
              Cell.str "KP781",
              Cell.str "male",
              Cell.str "high",
              Cell.str "medium",
              Cell.str "heavy",
              Cell.str "25-34"],
             [Cell.str "KP281",
              Cell.num 31,
              Cell.str "Female",
              Cell.num 57000,
              Cell.num 85,
              Cell.num 2,
              Cell.str "KP281",
              Cell.str "male",
              Cell.str "high",
              Cell.str "medium",
              Cell.str "casual",
              Cell.str "25-34"],
             [Cell.str "KP481",
              Cell.num 32,
              Cell.str "Male",
              Cell.num 57200,
              Cell.num 86,
              Cell.num 3,
              Cell.str "KP481",
              Cell.str "male",
              Cell.str "high",
              Cell.str "medium",
              Cell.str "regular",
              Cell.str "25-34"],
             [Cell.str "KP781",
              Cell.num 33,
              Cell.str "Female",
              Cell.num 57400,
              Cell.num 87,
              Cell.num 4,
              Cell.str "KP781",
              Cell.str "male",
              Cell.str "high",
              Cell.str "medium",
              Cell.str "regular",
              Cell.str "25-34"],
             [Cell.str "KP281",
              Cell.num 34,
              Cell.str "Male",
              Cell.num 57600,
              Cell.num 88,
              Cell.num 5,
              Cell.str "KP281",
              Cell.str "male",
              Cell.str "high",
              Cell.str "medium",
              Cell.str "regular",
              Cell.str "25-34"],
             [Cell.str "KP481",
              Cell.num 35,
              Cell.str "Female",
              Cell.num 57800,
              Cell.num 89,
              Cell.num 6,
              Cell.str "KP481",
              Cell.str "male",
              Cell.str "high",
              Cell.str "medium",
              Cell.str "heavy",
              Cell.str "35-44"],
             [Cell.str "KP781",
              Cell.num 36,
              Cell.str "Male",
              Cell.num 58000,
              Cell.num 90,
              Cell.num 2,
              Cell.str "KP781",
              Cell.str "male",
              Cell.str "high",
              Cell.str "medium",
              Cell.str "casual",
              Cell.str "35-44"],
             [Cell.str "KP281",
              Cell.num 37,
              Cell.str "Female",
              Cell.num 58200,
              Cell.num 91,
              Cell.num 3,
              Cell.str "KP281",
              Cell.str "male",
              Cell.str "high",
              Cell.str "medium",
              Cell.str "regular",
              Cell.str "35-44"],
             [Cell.str "KP481",
              Cell.num 38,
              Cell.str "Male",
              Cell.num 58400,
              Cell.num 92,
              Cell.num 4,
              Cell.str "KP481",
              Cell.str "male",
              Cell.str "high",
              Cell.str "medium",
              Cell.str "regular",
              Cell.str "35-44"],
             [Cell.str "KP781",
              Cell.num 39,
              Cell.str "Female",
              Cell.num 58600,
              Cell.num 93,
              Cell.num 5,
              Cell.str "KP781",
              Cell.str "male",
              Cell.str "high",
              Cell.str "medium",
              Cell.str "regular",
              Cell.str "35-44"],
             [Cell.str "KP281",
              Cell.num 40,
              Cell.str "Male",
              Cell.num 58800,
              Cell.num 94,
              Cell.num 6,
              Cell.str "KP281",
              Cell.str "male",
              Cell.str "high",
              Cell.str "medium",
              Cell.str "heavy",
              Cell.str "35-44"],
             [Cell.str "KP481",
              Cell.num 41,
              Cell.str "Female",
              Cell.num 59000,
              Cell.num 95,
              Cell.num 2,
              Cell.str "KP481",
              Cell.str "male",
              Cell.str "high",
              Cell.str "medium",
              Cell.str "casual",
              Cell.str "35-44"],
             [Cell.str "KP781",
              Cell.num 42,
              Cell.str "Male",
              Cell.num 59200,
              Cell.num 96,
              Cell.num 3,
              Cell.str "KP781",
              Cell.str "male",
              Cell.str "high",
              Cell.str "medium",
              Cell.str "regular",
              Cell.str "35-44"],
             [Cell.str "KP281",
              Cell.num 43,
              Cell.str "Female",
              Cell.num 59400,
              Cell.num 97,
              Cell.num 4,
              Cell.str "KP281",
              Cell.str "male",
              Cell.str "high",
              Cell.str "medium",
              Cell.str "regular",
              Cell.str "35-44"],
             [Cell.str "KP481",
              Cell.num 44,
              Cell.str "Male",
              Cell.num 59600,
              Cell.num 98,
              Cell.num 5,
              Cell.str "KP481",
              Cell.str "male",
              Cell.str "high",
              Cell.str "medium",
              Cell.str "regular",
              Cell.str "35-44"],
             [Cell.str "KP781",
              Cell.num 45,
              Cell.str "Female",
              Cell.num 59800,
              Cell.num 99,
              Cell.num 6,
              Cell.str "KP781",
              Cell.str "male",
              Cell.str "high",
              Cell.str "medium",
              Cell.str "heavy",
              Cell.str "45-54"],
             [Cell.str "KP281",
              Cell.num 46,
              Cell.str "Male",
              Cell.num 60000,
              Cell.num 100,
              Cell.num 2,
              Cell.str "KP281",
              Cell.str "male",
              Cell.str "high",
              Cell.str "medium",
              Cell.str "casual",
              Cell.str "45-54"],
             [Cell.str "KP481",
              Cell.num 47,
              Cell.str "Female",
              Cell.num 60200,
              Cell.num 101,
              Cell.num 3,
              Cell.str "KP481",
              Cell.str "male",
              Cell.str "high",
              Cell.str "medium",
              Cell.str "regular",
              Cell.str "45-54"],
             [Cell.str "KP781",
              Cell.num 48,
              Cell.str "Male",
              Cell.num 60400,
              Cell.num 102,
              Cell.num 4,
              Cell.str "KP781",
              Cell.str "male",
              Cell.str "high",
              Cell.str "medium",
              Cell.str "regular",
              Cell.str "45-54"],
             [Cell.str "KP281",
              Cell.num 49,
              Cell.str "Female",
              Cell.num 60600,
              Cell.num 103,
              Cell.num 5,
              Cell.str "KP281",
              Cell.str "male",
              Cell.str "high",
              Cell.str "medium",
              Cell.str "regular",
              Cell.str "45-54"],
             [Cell.str "KP481",
              Cell.num 50,
              Cell.str "Male",
              Cell.num 60800,
              Cell.num 104,
              Cell.num 6,
              Cell.str "KP481",
              Cell.str "male",
              Cell.str "high",
              Cell.str "medium",
              Cell.str "heavy",
              Cell.str "45-54"],
             [Cell.str "KP781",
              Cell.num 20,
              Cell.str "Female",
              Cell.num 61000,
              Cell.num 105,
              Cell.num 2,
              Cell.str "KP781",
              Cell.str "male",
              Cell.str "high",
              Cell.str "medium",
              Cell.str "casual",
              Cell.str "<25"],
             [Cell.str "KP281",
              Cell.num 21,
              Cell.str "Male",
              Cell.num 61200,
              Cell.num 106,
              Cell.num 3,
              Cell.str "KP281",
              Cell.str "male",
              Cell.str "high",
              Cell.str "medium",
              Cell.str "regular",
              Cell.str "<25"],
             [Cell.str "KP481",
              Cell.num 22,
              Cell.str "Female",
              Cell.num 61400,
              Cell.num 107,
              Cell.num 4,
              Cell.str "KP481",
              Cell.str "male",
              Cell.str "high",
              Cell.str "medium",
              Cell.str "regular",
              Cell.str "<25"],
             [Cell.str "KP781",
              Cell.num 23,
              Cell.str "Male",
              Cell.num 61600,
              Cell.num 108,
              Cell.num 5,
              Cell.str "KP781",
              Cell.str "male",
              Cell.str "high",
              Cell.str "medium",
              Cell.str "regular",
              Cell.str "<25"],
             [Cell.str "KP281",
              Cell.num 24,
              Cell.str "Female",
              Cell.num 61800,
              Cell.num 109,
              Cell.num 6,
              Cell.str "KP281",
              Cell.str "male",
              Cell.str "high",
              Cell.str "medium",
              Cell.str "heavy",
              Cell.str "<25"],
             [Cell.str "KP481",
              Cell.num 25,
              Cell.str "Male",
              Cell.num 62000,
              Cell.num 110,
              Cell.num 2,
              Cell.str "KP481",
              Cell.str "male",
              Cell.str "high",
              Cell.str "high",
              Cell.str "casual",
              Cell.str "25-34"],
             [Cell.str "KP781",
              Cell.num 26,
              Cell.str "Female",
              Cell.num 62200,
              Cell.num 111,
              Cell.num 3,
              Cell.str "KP781",
              Cell.str "male",
              Cell.str "high",
              Cell.str "high",
              Cell.str "regular",
              Cell.str "25-34"],
             [Cell.str "KP281",
              Cell.num 27,
              Cell.str "Male",
              Cell.num 62400,
              Cell.num 112,
              Cell.num 4,
              Cell.str "KP281",
              Cell.str "male",
              Cell.str "high",
              Cell.str "high",
              Cell.str "regular",
              Cell.str "25-34"],
             [Cell.str "KP481",
              Cell.num 28,
              Cell.str "Female",
              Cell.num 62600,
              Cell.num 113,
              Cell.num 5,
              Cell.str "KP481",
              Cell.str "male",
              Cell.str "high",
              Cell.str "high",
              Cell.str "regular",
              Cell.str "25-34"],
             [Cell.str "KP781",
              Cell.num 29,
              Cell.str "Male",
              Cell.num 62800,
              Cell.num 114,
              Cell.num 6,
              Cell.str "KP781",
              Cell.str "male",
              Cell.str "high",
              Cell.str "high",
              Cell.str "heavy",
              Cell.str "25-34"],
             [Cell.str "KP281",
              Cell.num 30,
              Cell.str "Female",
              Cell.num 63000,
              Cell.num 115,
              Cell.num 2,
              Cell.str "KP281",
              Cell.str "male",
              Cell.str "high",
              Cell.str "high",
              Cell.str "casual",
              Cell.str "25-34"],
             [Cell.str "KP481",
              Cell.num 31,
              Cell.str "Male",
              Cell.num 63200,
              Cell.num 116,
              Cell.num 3,
              Cell.str "KP481",
              Cell.str "male",
              Cell.str "high",
              Cell.str "high",
              Cell.str "regular",
              Cell.str "25-34"],
             [Cell.str "KP781",
              Cell.num 32,
              Cell.str "Female",
              Cell.num 63400,
              Cell.num 117,
              Cell.num 4,
              Cell.str "KP781",
              Cell.str "male",
              Cell.str "high",
              Cell.str "high",
              Cell.str "regular",
              Cell.str "25-34"],
             [Cell.str "KP281",
              Cell.num 33,
              Cell.str "Male",
              Cell.num 63600,
              Cell.num 118,
              Cell.num 5,
              Cell.str "KP281",
              Cell.str "male",
              Cell.str "high",
              Cell.str "high",
              Cell.str "regular",
              Cell.str "25-34"],
             [Cell.str "KP481",
              Cell.num 34,
              Cell.str "Female",
              Cell.num 63800,
              Cell.num 119,
              Cell.num 6,
              Cell.str "KP481",
              Cell.str "male",
              Cell.str "high",
              Cell.str "high",
              Cell.str "heavy",
              Cell.str "25-34"],
             [Cell.str "KP781",
              Cell.num 35,
              Cell.str "Male",
              Cell.num 64000,
              Cell.num 120,
              Cell.num 2,
              Cell.str "KP781",
              Cell.str "male",
              Cell.str "high",
              Cell.str "high",
              Cell.str "casual",
              Cell.str "35-44"],
             [Cell.str "KP281",
              Cell.num 36,
              Cell.str "Female",
              Cell.num 64200,
              Cell.num 121,
              Cell.num 3,
              Cell.str "KP281",
              Cell.str "male",
              Cell.str "high",
              Cell.str "high",
              Cell.str "regular",
              Cell.str "35-44"],
             [Cell.str "KP481",
              Cell.num 37,
              Cell.str "Male",
              Cell.num 64400,
              Cell.num 122,
              Cell.num 4,
              Cell.str "KP481",
              Cell.str "male",
              Cell.str "high",
              Cell.str "high",
              Cell.str "regular",
              Cell.str "35-44"],
             [Cell.str "KP781",
              Cell.num 38,
              Cell.str "Female",
              Cell.num 64600,
              Cell.num 123,
              Cell.num 5,
              Cell.str "KP781",
              Cell.str "male",
              Cell.str "high",
              Cell.str "high",
              Cell.str "regular",
              Cell.str "35-44"],
             [Cell.str "KP281",
              Cell.num 39,
              Cell.str "Male",
              Cell.num 64800,
              Cell.num 124,
              Cell.num 6,
              Cell.str "KP281",
              Cell.str "male",
              Cell.str "high",
              Cell.str "high",
              Cell.str "heavy",
              Cell.str "35-44"],
             [Cell.str "KP481",
              Cell.num 40,
              Cell.str "Female",
              Cell.num 65000,
              Cell.num 125,
              Cell.num 2,
              Cell.str "KP481",
              Cell.str "male",
              Cell.str "high",
              Cell.str "high",
              Cell.str "casual",
              Cell.str "35-44"],
             [Cell.str "KP781",
              Cell.num 41,
              Cell.str "Male",
              Cell.num 65200,
              Cell.num 126,
              Cell.num 3,
              Cell.str "KP781",
              Cell.str "male",
              Cell.str "high",
              Cell.str "high",
              Cell.str "regular",
              Cell.str "35-44"],
             [Cell.str "KP281",
              Cell.num 42,
              Cell.str "Female",
              Cell.num 65400,
              Cell.num 127,
              Cell.num 4,
              Cell.str "KP281",
              Cell.str "male",
              Cell.str "high",
              Cell.str "high",
              Cell.str "regular",
              Cell.str "35-44"],
             [Cell.str "KP481",
              Cell.num 43,
              Cell.str "Male",
              Cell.num 65600,
              Cell.num 128,
              Cell.num 5,
              Cell.str "KP481",
              Cell.str "male",
              Cell.str "high",
              Cell.str "high",
              Cell.str "regular",
              Cell.str "35-44"]] }


/- ### Basic lemmas about cells, rows and columns -/

theorem cellAt_eq_getElem? (r : List Cell) (i : ℕ) :
    cellAt r i = (r[i]?).getD Cell.na := by
  simp [cellAt, List.getD_eq_getElem?_getD]

theorem cellAt_set_ne {i j : ℕ} (h : i ≠ j) (r : List Cell) (v : Cell) :
    cellAt (r.set i v) j = cellAt r j := by
  simp [cellAt_eq_getElem?, List.getElem?_set_ne h]

theorem cellAt_set_self {i : ℕ} {r : List Cell} (h : i < r.length) (v : Cell) :
    cellAt (r.set i v) i = v := by
  simp [cellAt_eq_getElem?, List.getElem?_set_self', List.getElem?_eq_getElem h]

theorem cellAt_append_left {r : List Cell} {i : ℕ} (h : i < r.length) (l : List Cell) :
    cellAt (r ++ l) i = cellAt r i := by
  simp [cellAt_eq_getElem?, List.getElem?_append, h]

theorem cellAt_concat_self (r : List Cell) (v : Cell) :
    cellAt (r ++ [v]) r.length = v := by
  simp [cellAt_eq_getElem?, List.getElem?_concat_length]

theorem idxOf?_eq_none_iff {n : String} {h : List String} :
    idxOf? n h = none ↔ n ∉ h := by
  induction h with
  | nil => simp [idxOf?]
  | cons a l ih =>
      by_cases ha : a = n
      · simp [idxOf?, ha]
      · rw [idxOf?, if_neg ha, Option.map_eq_none', ih]
        simp only [List.mem_cons, not_or]
        exact ⟨fun hn => ⟨fun e => ha e.symm, hn⟩, fun hn => hn.2⟩

theorem idxOf?_isSome_iff {n : String} {h : List String} :
    (idxOf? n h).isSome ↔ n ∈ h := by
  rw [← Decidable.not_iff_not, Option.not_isSome_iff_eq_none, idxOf?_eq_none_iff]

theorem idxOf?_bound {n : String} {h : List String} {i : ℕ}
    (hi : idxOf? n h = some i) : i < h.length := by
  induction h generalizing i with
  | nil => simp [idxOf?] at hi
  | cons a l ih =>
      by_cases ha : a = n
      · rw [idxOf?, if_pos ha] at hi
        cases hi
        simp
      · rw [idxOf?, if_neg ha, Option.map_eq_some'] at hi
        obtain ⟨j, hj, he⟩ := hi
        subst he
        simpa using ih hj

theorem idxOf?_getElem {n : String} {h : List String} {i : ℕ}
    (hi : idxOf? n h = some i) : h[i]? = some n := by
  induction h generalizing i with
  | nil => simp [idxOf?] at hi
  | cons a l ih =>
      by_cases ha : a = n
      · rw [idxOf?, if_pos ha] at hi
        cases hi
        simp [ha]
      · rw [idxOf?, if_neg ha, Option.map_eq_some'] at hi
        obtain ⟨j, hj, he⟩ := hi
        subst he
        simpa using ih hj

theorem idxOf?_ne_of_name_ne {n m : String} {h : List String} {i j : ℕ}
    (hn : idxOf? n h = some i) (hm : idxOf? m h = some j) (hne : n ≠ m) :
    i ≠ j := by
  intro e
  subst e
  have h1 := idxOf?_getElem hn
  have h2 := idxOf?_getElem hm
  rw [h1] at h2
  exact hne (Option.some.inj h2)

theorem idxOf?_append_left {n : String} {h : List String} {i : ℕ}
    (hi : idxOf? n h = some i) (l : List String) :
    idxOf? n (h ++ l) = some i := by
  induction h generalizing i with
  | nil => simp [idxOf?] at hi
  | cons a tl ih =>
      by_cases ha : a = n
      · rw [idxOf?, if_pos ha] at hi
        cases hi
        simp [idxOf?, ha]
      · rw [idxOf?, if_neg ha, Option.map_eq_some'] at hi
        obtain ⟨j, hj, he⟩ := hi
        subst he
        rw [List.cons_append, idxOf?, if_neg ha, ih hj]
        rfl

theorem idxOf?_append_of_not_mem {n : String} {h : List String} (l : List String)
    (hn : n ∉ h) : idxOf? n (h ++ l) = (idxOf? n l).map (· + h.length) := by
  induction h with
  | nil =>
      simp only [List.nil_append, List.length_nil]
      cases hres : idxOf? n l <;> simp
  | cons a tl ih =>
      simp only [List.mem_cons, not_or] at hn
      rw [List.cons_append, idxOf?, if_neg (fun e => hn.1 e.symm), ih hn.2]
      cases hres : idxOf? n l with
      | none => rfl
      | some j =>
          simp only [Option.map_some', Option.some.injEq, List.length_cons]
          omega

theorem idxOf?_concat_self {n : String} {h : List String} (hn : n ∉ h) :
    idxOf? n (h ++ [n]) = some h.length := by
  rw [idxOf?_append_of_not_mem _ hn]
  simp [idxOf?]

theorem idxOf?_concat_of_ne {n m : String} {h : List String} (hm : m ∉ h)
    (hne : m ≠ n) : idxOf? m (h ++ [n]) = none := by
  rw [idxOf?_append_of_not_mem _ hm]
  simp [idxOf?, Ne.symm hne]

/- ### Table frame lemmas -/

theorem mem_zipWith {α β γ : Type} {f : α → β → γ} {l₁ : List α} {l₂ : List β} {x : γ}
    (h : x ∈ List.zipWith f l₁ l₂) : ∃ a ∈ l₁, ∃ b ∈ l₂, x = f a b := by
  induction l₁ generalizing l₂ with
  | nil => simp at h
  | cons a as ih =>
      cases l₂ with
      | nil => simp at h
      | cons b bs =>
          simp only [List.zipWith_cons_cons, List.mem_cons] at h
          rcases h with rfl | h
          · exact ⟨a, by simp, b, by simp, rfl⟩
          · obtain ⟨a', ha, b', hb, rfl⟩ := ih h
            exact ⟨a', by simp [ha], b', by simp [hb], rfl⟩

theorem Table.getCol?_eq_none_iff {t : Table} {n : String} :
    t.getCol? n = none ↔ n ∉ t.header := by
  simp [Table.getCol?, Option.map_eq_none', idxOf?_eq_none_iff]

theorem Table.getCol?_isSome_iff {t : Table} {n : String} :
    (t.getCol? n).isSome ↔ n ∈ t.header := by
  rw [← Decidable.not_iff_not, Option.not_isSome_iff_eq_none, Table.getCol?_eq_none_iff]

theorem Table.getCol?_length {t : Table} {n : String} {cs : List Cell}
    (h : t.getCol? n = some cs) : cs.length = t.nrows := by
  rw [Table.getCol?, Option.map_eq_some'] at h
  obtain ⟨i, _, rfl⟩ := h
  simp [Table.nrows]

theorem map_cellAt_zipWith_set {i : ℕ} :
    ∀ (rows : List (List Cell)) (vs : List Cell),
      (∀ r ∈ rows, i < r.length) → vs.length = rows.length →
      (List.zipWith (fun r v => r.set i v) rows vs).map (fun r => cellAt r i) = vs := by
  intro rows
  induction rows with
  | nil => intro vs _ hv; cases vs <;> simp_all
  | cons r rs ih =>
      intro vs hlt hv
      cases vs with
      | nil => simp at hv
      | cons v vs' =>
          simp only [List.zipWith_cons_cons, List.map_cons, List.cons.injEq]
          refine ⟨cellAt_set_self (hlt r (by simp)) v, ih vs' (fun r hr => hlt r (by simp [hr])) ?_⟩
          simpa using hv

theorem map_cellAt_zipWith_set_ne {i j : ℕ} (hne : i ≠ j) :
    ∀ (rows : List (List Cell)) (vs : List Cell),
      vs.length = rows.length →
      (List.zipWith (fun r v => r.set i v) rows vs).map (fun r => cellAt r j) =
        rows.map (fun r => cellAt r j) := by
  intro rows
  induction rows with
  | nil => intro vs _; simp
  | cons r rs ih =>
      intro vs hv
      cases vs with
      | nil => simp at hv
      | cons v vs' =>
          simp only [List.zipWith_cons_cons, List.map_cons, List.cons.injEq]
          exact ⟨cellAt_set_ne hne r v, ih vs' (by simpa using hv)⟩

theorem map_cellAt_zipWith_concat_self {L : ℕ} :
    ∀ (rows : List (List Cell)) (vs : List Cell),
      (∀ r ∈ rows, r.length = L) → vs.length = rows.length →
      (List.zipWith (fun r v => r ++ [v]) rows vs).map (fun r => cellAt r L) = vs := by
  intro rows
  induction rows with
  | nil => intro vs _ hv; cases vs <;> simp_all
  | cons r rs ih =>
      intro vs hlen hv
      cases vs with
      | nil => simp at hv
      | cons v vs' =>
          simp only [List.zipWith_cons_cons, List.map_cons, List.cons.injEq]
          constructor
          · rw [← hlen r (by simp)]
            exact cellAt_concat_self r v
          · exact ih vs' (fun r hr => hlen r (by simp [hr])) (by simpa using hv)

theorem map_cellAt_zipWith_concat_ne {j : ℕ} :
    ∀ (rows : List (List Cell)) (vs : List Cell),
      (∀ r ∈ rows, j < r.length) → vs.length = rows.length →
      (List.zipWith (fun r v => r ++ [v]) rows vs).map (fun r => cellAt r j) =
        rows.map (fun r => cellAt r j) := by
  intro rows
  induction rows with
  | nil => intro vs _ _; simp
  | cons r rs ih =>
      intro vs hlt hv
      cases vs with
      | nil => simp at hv
      | cons v vs' =>
          simp only [List.zipWith_cons_cons, List.map_cons, List.cons.injEq]
          exact ⟨cellAt_append_left (hlt r (by simp)) [v],
            ih vs' (fun r hr => hlt r (by simp [hr])) (by simpa using hv)⟩

theorem Table.setCol_header_of_mem {t : Table} {n : String} (vs : List Cell)
    (h : n ∈ t.header) : (t.setCol n vs).header = t.header := by
  rcases hix : idxOf? n t.header with _ | i
  · exact absurd (idxOf?_eq_none_iff.mp hix) (by simpa using h)
  · simp [Table.setCol, hix, Table.setColAt]

theorem Table.setCol_header_of_not_mem {t : Table} {n : String} (vs : List Cell)
    (h : n ∉ t.header) : (t.setCol n vs).header = t.header ++ [n] := by
  rw [Table.setCol, idxOf?_eq_none_iff.mpr h]
  rfl

theorem Table.mem_header_setCol {t : Table} {m n : String} (vs : List Cell)
    (h : m ∈ t.header) : m ∈ (t.setCol n vs).header := by
  by_cases hn : n ∈ t.header
  · rw [Table.setCol_header_of_mem vs hn]; exact h
  · rw [Table.setCol_header_of_not_mem vs hn]; simp [h]

theorem Table.nrows_setCol {t : Table} {n : String} {vs : List Cell}
    (hv : vs.length = t.nrows) : (t.setCol n vs).nrows = t.nrows := by
  have hv' : vs.length = t.rows.length := hv
  rcases hix : idxOf? n t.header with _ | i <;>
    · simp only [Table.setCol, hix, Table.setColAt, Table.addCol, Table.nrows,
        List.length_zipWith]
      omega

theorem Table.wf_setCol {t : Table} {n : String} {vs : List Cell}
    (hwf : t.Wf) (hv : vs.length = t.nrows) : (t.setCol n vs).Wf := by
  rcases hix : idxOf? n t.header with _ | i
  · intro r hr
    rw [Table.setCol, hix] at hr ⊢
    obtain ⟨a, ha, b, _, rfl⟩ := mem_zipWith hr
    simp [Table.addCol, hwf a ha]
  · intro r hr
    rw [Table.setCol, hix] at hr ⊢
    obtain ⟨a, ha, b, _, rfl⟩ := mem_zipWith hr
    simp [Table.setColAt, hwf a ha]

theorem Table.getCol?_setCol_self {t : Table} {n : String} {vs : List Cell}
    (hwf : t.Wf) (hv : vs.length = t.nrows) :
    (t.setCol n vs).getCol? n = some vs := by
  rcases hix : idxOf? n t.header with _ | i
  · have hn : n ∉ t.header := idxOf?_eq_none_iff.mp hix
    rw [Table.setCol, hix]
    show ((idxOf? n (t.header ++ [n])).map _) = _
    rw [idxOf?_concat_self hn]
    simp only [Option.map_some', Option.some.injEq]
    exact map_cellAt_zipWith_concat_self t.rows vs (fun r hr => hwf r hr) hv
  · rw [Table.setCol, hix]
    show ((idxOf? n t.header).map _) = _
    rw [hix]
    simp only [Option.map_some', Option.some.injEq]
    exact map_cellAt_zipWith_set t.rows vs
      (fun r hr => (hwf r hr) ▸ idxOf?_bound hix) hv

theorem Table.getCol?_setCol_ne {t : Table} {m n : String} {vs : List Cell}
    (hwf : t.Wf) (hv : vs.length = t.nrows) (hne : m ≠ n) :
    (t.setCol n vs).getCol? m = t.getCol? m := by
  rcases hix : idxOf? n t.header with _ | i
  · have hn : n ∉ t.header := idxOf?_eq_none_iff.mp hix
    rw [Table.setCol, hix]
    show ((idxOf? m (t.header ++ [n])).map _) = _
    rcases hjx : idxOf? m t.header with _ | j
    · rw [idxOf?_concat_of_ne (idxOf?_eq_none_iff.mp hjx) hne, Table.getCol?, hjx]
      rfl
    · rw [idxOf?_append_left hjx, Table.getCol?, hjx]
      simp only [Option.map_some', Option.some.injEq]
      exact map_cellAt_zipWith_concat_ne t.rows vs
        (fun r hr => (hwf r hr) ▸ idxOf?_bound hjx) hv
  · rw [Table.setCol, hix]
    show ((idxOf? m t.header).map _) = _
    rcases hjx : idxOf? m t.header with _ | j
    · rw [Table.getCol?, hjx]; rfl
    · rw [Table.getCol?, hjx]
      simp only [Option.map_some', Option.some.injEq]
      exact map_cellAt_zipWith_set_ne (idxOf?_ne_of_name_ne hix hjx (Ne.symm hne))
        t.rows vs hv

/- ### Character and string lemmas -/

theorem char_eq_of_toNat {a b : Char} (h : a.toNat = b.toNat) : a = b :=
  Char.ext (UInt32.ext h)

theorem toNat_ofNatAux (n : ℕ) (h : n.isValidChar) : (Char.ofNatAux n h).toNat = n := rfl

theorem lowerChar_toNat (c : Char) :
    (lowerChar c).toNat = if 65 ≤ c.toNat ∧ c.toNat ≤ 90 then c.toNat + 32 else c.toNat := by
  rw [lowerChar]
  by_cases h : 65 ≤ c.toNat ∧ c.toNat ≤ 90
  · rw [dif_pos h, if_pos h, toNat_ofNatAux]
  · rw [dif_neg h, if_neg h]

theorem lowerChar_idem (c : Char) : lowerChar (lowerChar c) = lowerChar c := by
  apply char_eq_of_toNat
  rw [lowerChar_toNat (lowerChar c), lowerChar_toNat c]
  split_ifs <;> omega

theorem char_ne_of_toNat_ne {a b : Char} (h : a.toNat ≠ b.toNat) : a ≠ b :=
  fun e => h (congrArg Char.toNat e)

theorem not_ws_of_toNat {d : Char} (h97 : 97 ≤ d.toNat) (h122 : d.toNat ≤ 122) :
    d.isWhitespace = false := by
  have hsp : d ≠ ' ' := char_ne_of_toNat_ne (by have : (' ').toNat = 32 := rfl; omega)
  have htb : d ≠ '\t' := char_ne_of_toNat_ne (by have : ('\t').toNat = 9 := rfl; omega)
  have hcr : d ≠ '\r' := char_ne_of_toNat_ne (by have : ('\r').toNat = 13 := rfl; omega)
  have hnl : d ≠ '\n' := char_ne_of_toNat_ne (by have : ('\n').toNat = 10 := rfl; omega)
  simp [Char.isWhitespace, hsp, htb, hcr, hnl]

theorem not_ws_of_toNat_upper {d : Char} (h65 : 65 ≤ d.toNat) (h90 : d.toNat ≤ 90) :
    d.isWhitespace = false := by
  have hsp : d ≠ ' ' := char_ne_of_toNat_ne (by have : (' ').toNat = 32 := rfl; omega)
  have htb : d ≠ '\t' := char_ne_of_toNat_ne (by have : ('\t').toNat = 9 := rfl; omega)
  have hcr : d ≠ '\r' := char_ne_of_toNat_ne (by have : ('\r').toNat = 13 := rfl; omega)
  have hnl : d ≠ '\n' := char_ne_of_toNat_ne (by have : ('\n').toNat = 10 := rfl; omega)
  simp [Char.isWhitespace, hsp, htb, hcr, hnl]

theorem lowerChar_isWhitespace (c : Char) :
    (lowerChar c).isWhitespace = c.isWhitespace := by
  by_cases h : 65 ≤ c.toNat ∧ c.toNat ≤ 90
  · have ht : (lowerChar c).toNat = c.toNat + 32 := by rw [lowerChar_toNat, if_pos h]
    rw [not_ws_of_toNat (by omega) (by omega), not_ws_of_toNat_upper h.1 h.2]
  · rw [lowerChar, dif_neg h]

theorem replChar_not_ws {c : Char} (h : c.isWhitespace = false) :
    (replChar c).isWhitespace = false := by
  simp only [replChar]
  by_cases hc : c = ' '
  · rw [if_pos hc]; rfl
  · rw [if_neg hc]; exact h

theorem replChar_idem (c : Char) : replChar (replChar c) = replChar c := by
  by_cases hc : c = ' '
  · simp only [replChar, if_pos hc]
    rfl
  · simp only [replChar, if_neg hc]

theorem lowerChar_replChar_lowerChar (c : Char) :
    lowerChar (replChar (lowerChar c)) = replChar (lowerChar c) := by
  by_cases hc : lowerChar c = ' '
  · simp only [replChar, if_pos hc]
    decide
  · simp only [replChar, if_neg hc]
    exact lowerChar_idem c

theorem head?_dropWhile {α : Type} (p : α → Bool) (l : List α) :
    ∀ x, (l.dropWhile p).head? = some x → p x = false := by
  induction l with
  | nil => intro x hx; simp at hx
  | cons a tl ih =>
      intro x hx
      by_cases ha : p a
      · rw [List.dropWhile_cons, if_pos ha] at hx
        exact ih x hx
      · rw [List.dropWhile_cons, if_neg ha] at hx
        cases hx
        simpa using ha

theorem dropWhile_eq_self_of_head? {α : Type} {p : α → Bool} {l : List α}
    (h : ∀ x, l.head? = some x → p x = false) : l.dropWhile p = l := by
  cases l with
  | nil => rfl
  | cons a tl => rw [List.dropWhile_cons, if_neg (by simp [h a rfl])]

theorem getLast?_dropWhile {α : Type} (p : α → Bool) (l : List α) :
    ∀ x, (l.dropWhile p).getLast? = some x → l.getLast? = some x := by
  induction l with
  | nil => intro x hx; simp at hx
  | cons a tl ih =>
      intro x hx
      by_cases ha : p a
      · rw [List.dropWhile_cons, if_pos ha] at hx
        have h2 := ih x hx
        cases tl with
        | nil => simp at h2
        | cons b tb => rw [List.getLast?_cons_cons]; exact h2
      · rw [List.dropWhile_cons, if_neg ha] at hx
        exact hx

theorem trimChars_head?_not_ws (l : List Char) :
    ∀ x, (trimChars l).head? = some x → x.isWhitespace = false := by
  intro x hx
  rw [trimChars, List.head?_reverse] at hx
  have h1 := getLast?_dropWhile _ _ _ hx
  rw [List.getLast?_reverse] at h1
  exact head?_dropWhile _ _ _ h1

theorem trimChars_getLast?_not_ws (l : List Char) :
    ∀ x, (trimChars l).getLast? = some x → x.isWhitespace = false := by
  intro x hx
  rw [trimChars, List.getLast?_reverse] at hx
  exact head?_dropWhile _ _ _ hx

theorem trimChars_eq_self {l : List Char}
    (h1 : ∀ x, l.head? = some x → x.isWhitespace = false)
    (h2 : ∀ x, l.getLast? = some x → x.isWhitespace = false) :
    trimChars l = l := by
  rw [trimChars, dropWhile_eq_self_of_head? h1]
  rw [dropWhile_eq_self_of_head? (by intro x hx; rw [List.head?_reverse] at hx; exact h2 x hx)]
  exact List.reverse_reverse l

theorem trimChars_idem (l : List Char) : trimChars (trimChars l) = trimChars l :=
  trimChars_eq_self (trimChars_head?_not_ws l) (trimChars_getLast?_not_ws l)

theorem mk_data (s : String) : String.mk s.data = s := by cases s; rfl

theorem data_stripStr (s : String) : (stripStr s).data = trimChars s.data := rfl

theorem stripStr_idem (s : String) : stripStr (stripStr s) = stripStr s := by
  show String.mk (trimChars (trimChars s.data)) = String.mk (trimChars s.data)
  rw [trimChars_idem]

theorem stripCell_idem (c : Cell) : stripCell (stripCell c) = stripCell c := by
  simp only [stripCell, cellStr, stripStr_idem]

theorem castCat_idem (cs : List Cell) : castCat (castCat cs) = castCat cs := by
  rw [castCat, castCat, List.map_map]
  exact List.map_congr_left fun c _ => stripCell_idem c

theorem normalizeName_idem (s : String) : normalizeName (normalizeName s) = normalizeName s := by
  have hdata : (normalizeName s).data =
      (trimChars s.data).map (fun c => replChar (lowerChar c)) := by
    simp only [normalizeName, replaceSpace, lowerStr, data_stripStr, List.map_map]
    rfl
  -- strip is the identity on the normalized name
  have hstrip : stripStr (normalizeName s) = normalizeName s := by
    rw [stripStr]
    have htr : trimChars (normalizeName s).data = (normalizeName s).data := by
      apply trimChars_eq_self
      · intro x hx
        rw [hdata, List.head?_map] at hx
        cases hh : (trimChars s.data).head? with
        | none => rw [hh] at hx; simp at hx
        | some y =>
            rw [hh] at hx
            simp only [Option.map_some', Option.some.injEq] at hx
            rw [← hx]
            apply replChar_not_ws
            rw [lowerChar_isWhitespace]
            exact trimChars_head?_not_ws _ _ hh
      · intro x hx
        rw [hdata, List.getLast?_map] at hx
        cases hh : (trimChars s.data).getLast? with
        | none => rw [hh] at hx; simp at hx
        | some y =>
            rw [hh] at hx
            simp only [Option.map_some', Option.some.injEq] at hx
            rw [← hx]
            apply replChar_not_ws
            rw [lowerChar_isWhitespace]
            exact trimChars_getLast?_not_ws _ _ hh
    rw [htr, mk_data]
  -- lower-casing is the identity on the normalized name
  have hlower : lowerStr (normalizeName s) = normalizeName s := by
    have hm : (normalizeName s).data.map lowerChar = (normalizeName s).data := by
      conv_lhs => rw [hdata]
      conv_rhs => rw [hdata]
      rw [List.map_map]
      exact List.map_congr_left fun c _ => lowerChar_replChar_lowerChar c
    rw [lowerStr, hm, mk_data]
  rw [normalizeName, hstrip, hlower]
  -- space replacement is the identity on the normalized name
  have hr : (normalizeName s).data.map replChar = (normalizeName s).data := by
    conv_lhs => rw [hdata]
    conv_rhs => rw [hdata]
    rw [List.map_map]
    exact List.map_congr_left fun c _ => replChar_idem (lowerChar c)
  rw [replaceSpace, hr, mk_data]

/- ### updateCol lemmas -/

theorem updateCol_header (t : Table) (n : String) (f : List Cell → List Cell) :
    (updateCol t n f).header = t.header := by
  rw [updateCol]
  cases hc : t.getCol? n with
  | none => rfl
  | some cs =>
      exact Table.setCol_header_of_mem _
        (Table.getCol?_isSome_iff.mp (by rw [hc]; rfl))

theorem updateCol_of_absent {t : Table} {n : String} {f : List Cell → List Cell}
    (h : t.getCol? n = none) : updateCol t n f = t := by
  rw [updateCol, h]

theorem updateCol_nrows {f : List Cell → List Cell}
    (hf : ∀ cs, (f cs).length = cs.length) (t : Table) (n : String) :
    (updateCol t n f).nrows = t.nrows := by
  rw [updateCol]
  cases hc : t.getCol? n with
  | none => rfl
  | some cs => exact Table.nrows_setCol (by rw [hf]; exact Table.getCol?_length hc)

theorem updateCol_wf {f : List Cell → List Cell}
    (hf : ∀ cs, (f cs).length = cs.length) {t : Table} (hwf : t.Wf) (n : String) :
    (updateCol t n f).Wf := by
  rw [updateCol]
  cases hc : t.getCol? n with
  | none => exact hwf
  | some cs => exact Table.wf_setCol hwf (by rw [hf]; exact Table.getCol?_length hc)

theorem getCol?_updateCol_self {f : List Cell → List Cell} {t : Table} {n : String}
    {cs : List Cell} (hf : ∀ cs, (f cs).length = cs.length) (hwf : t.Wf)
    (hc : t.getCol? n = some cs) :
    (updateCol t n f).getCol? n = some (f cs) := by
  rw [updateCol, hc]
  exact Table.getCol?_setCol_self hwf (by rw [hf]; exact Table.getCol?_length hc)

theorem getCol?_updateCol_ne {f : List Cell → List Cell} {t : Table} {m n : String}
    (hf : ∀ cs, (f cs).length = cs.length) (hwf : t.Wf) (hne : m ≠ n) :
    (updateCol t n f).getCol? m = t.getCol? m := by
  rw [updateCol]
  cases hc : t.getCol? n with
  | none => rfl
  | some cs =>
      exact Table.getCol?_setCol_ne hwf (by rw [hf]; exact Table.getCol?_length hc) hne

theorem getCol?_updateCol {f : List Cell → List Cell} {t : Table} {n : String}
    (hf : ∀ cs, (f cs).length = cs.length) (hwf : t.Wf) :
    (updateCol t n f).getCol? n = (t.getCol? n).map f := by
  cases hc : t.getCol? n with
  | none => rw [updateCol, hc]; simp [hc, Table.getCol?_eq_none_iff.mp hc]
  | some cs => rw [getCol?_updateCol_self hf hwf hc]; rfl

/- ### setCol composition lemmas -/

theorem zipWith_absorb {f g h : List Cell → Cell → List Cell} :
    ∀ (rows : List (List Cell)) (v w : List Cell),
      v.length = rows.length →
      (∀ r ∈ rows, ∀ a b, g (f r a) b = h r b) →
      List.zipWith g (List.zipWith f rows v) w = List.zipWith h rows w := by
  intro rows
  induction rows with
  | nil => intro v w _ _; simp
  | cons r rs ih =>
      intro v w hv hp
      cases v with
      | nil => simp at hv
      | cons a v' =>
          cases w with
          | nil => simp
          | cons b w' =>
              simp only [List.zipWith_cons_cons, List.cons.injEq]
              exact ⟨hp r (by simp) a b,
                ih v' w' (by simpa using hv) (fun r hr => hp r (by simp [hr]))⟩

theorem zipWith_swap {f g : List Cell → Cell → List Cell} :
    ∀ (rows : List (List Cell)) (v w : List Cell),
      (∀ r ∈ rows, ∀ a b, g (f r a) b = f (g r b) a) →
      List.zipWith g (List.zipWith f rows v) w =
        List.zipWith f (List.zipWith g rows w) v := by
  intro rows
  induction rows with
  | nil => intro v w _; simp
  | cons r rs ih =>
      intro v w hp
      cases v with
      | nil => simp
      | cons a v' =>
          cases w with
          | nil => simp
          | cons b w' =>
              simp only [List.zipWith_cons_cons, List.cons.injEq]
              exact ⟨hp r (by simp) a b, ih v' w' (fun r hr => hp r (by simp [hr]))⟩

theorem set_concat_self (v w : Cell) :
    ∀ r : List Cell, (r ++ [v]).set r.length w = r ++ [w] := by
  intro r
  induction r with
  | nil => rfl
  | cons a tl ih => simp only [List.cons_append, List.length_cons, List.set_cons_succ, ih]

theorem Table.setCol_eq_setColAt {t : Table} {n : String} {i : ℕ}
    (hix : idxOf? n t.header = some i) (vs : List Cell) :
    t.setCol n vs = t.setColAt i vs := by
  rw [Table.setCol, hix]

theorem Table.setCol_eq_addCol {t : Table} {n : String}
    (hix : idxOf? n t.header = none) (vs : List Cell) :
    t.setCol n vs = t.addCol n vs := by
  rw [Table.setCol, hix]

theorem Table.setCol_setCol_same {t : Table} {n : String} {v w : List Cell}
    (hwf : t.Wf) (hv : v.length = t.nrows) :
    (t.setCol n v).setCol n w = t.setCol n w := by
  rcases hix : idxOf? n t.header with _ | i
  · have hn : n ∉ t.header := idxOf?_eq_none_iff.mp hix
    have e1 : t.setCol n v = t.addCol n v := Table.setCol_eq_addCol hix v
    have hix2 : idxOf? n (t.addCol n v).header = some t.header.length :=
      idxOf?_concat_self hn
    rw [e1, Table.setCol_eq_setColAt hix2 w, Table.setCol_eq_addCol hix w]
    simp only [Table.setColAt, Table.addCol, Table.mk.injEq, true_and]
    exact zipWith_absorb t.rows v w (by rw [hv]; rfl)
      (fun r hr a b => by rw [← hwf r hr]; exact set_concat_self a b r)
  · have e1 : t.setCol n v = t.setColAt i v := Table.setCol_eq_setColAt hix v
    have hix2 : idxOf? n (t.setColAt i v).header = some i := hix
    rw [e1, Table.setCol_eq_setColAt hix2 w, Table.setCol_eq_setColAt hix w]
    simp only [Table.setColAt, Table.mk.injEq, true_and]
    exact zipWith_absorb t.rows v w (by rw [hv]; rfl)
      (fun r hr a b => List.set_set a b r i)

theorem Table.setCol_setCol_comm_of_mem {t : Table} {n m : String} {v w : List Cell}
    (hwf : t.Wf) (hn : n ∈ t.header) (hm : m ∈ t.header) (hne : n ≠ m) :
    (t.setCol n v).setCol m w = (t.setCol m w).setCol n v := by
  rcases hix : idxOf? n t.header with _ | i
  · exact absurd (idxOf?_eq_none_iff.mp hix) (by simpa using hn)
  rcases hjx : idxOf? m t.header with _ | j
  · exact absurd (idxOf?_eq_none_iff.mp hjx) (by simpa using hm)
  have hij : i ≠ j := idxOf?_ne_of_name_ne hix hjx hne
  have e1 : t.setCol n v = t.setColAt i v := Table.setCol_eq_setColAt hix v
  have e2 : t.setCol m w = t.setColAt j w := Table.setCol_eq_setColAt hjx w
  have hjx2 : idxOf? m (t.setColAt i v).header = some j := hjx
  have hix2 : idxOf? n (t.setColAt j w).header = some i := hix
  rw [e1, Table.setCol_eq_setColAt hjx2 w, e2, Table.setCol_eq_setColAt hix2 v]
  simp only [Table.setColAt, Table.mk.injEq, true_and]
  exact zipWith_swap t.rows v w (fun r _ a b => List.set_comm a b r hij)

/- ### The impute/cast loops -/

theorem length_imputeNums (cs : List Cell) : (imputeNums cs).length = cs.length := by
  simp [imputeNums]

theorem length_castCat (cs : List Cell) : (castCat cs).length = cs.length := by
  simp [castCat]

theorem imputeNums_idem (cs : List Cell) : imputeNums (imputeNums cs) = imputeNums cs := by
  rw [imputeNums, imputeNums, List.map_map, List.map_map]
  apply List.map_congr_left
  intro o _
  rfl

theorem updateCol_of_present {t : Table} {n : String} {f : List Cell → List Cell}
    {cs : List Cell} (hc : t.getCol? n = some cs) :
    updateCol t n f = t.setCol n (f cs) := by
  rw [updateCol, hc]

theorem updateCol_idem {t : Table} {n : String} {f : List Cell → List Cell}
    (hf : ∀ cs, (f cs).length = cs.length) (hff : ∀ cs, f (f cs) = f cs)
    (hwf : t.Wf) : updateCol (updateCol t n f) n f = updateCol t n f := by
  cases hc : t.getCol? n with
  | none => rw [updateCol_of_absent hc, updateCol_of_absent hc]
  | some cs =>
      have h1 : (updateCol t n f).getCol? n = some (f cs) :=
        getCol?_updateCol_self hf hwf hc
      rw [updateCol_of_present h1, updateCol_of_present hc, hff]
      exact Table.setCol_setCol_same hwf (by rw [hf]; exact Table.getCol?_length hc)

theorem updateCol_comm {t : Table} {n m : String} {f g : List Cell → List Cell}
    (hf : ∀ cs, (f cs).length = cs.length) (hg : ∀ cs, (g cs).length = cs.length)
    (hwf : t.Wf) (hne : n ≠ m) :
    updateCol (updateCol t n f) m g = updateCol (updateCol t m g) n f := by
  cases hcn : t.getCol? n with
  | none =>
      rw [updateCol_of_absent hcn]
      cases hcm : t.getCol? m with
      | none => rw [updateCol_of_absent hcm, updateCol_of_absent hcn]
      | some csm =>
          have h2 : (updateCol t m g).getCol? n = none := by
            rw [getCol?_updateCol_ne hg hwf hne]; exact hcn
          rw [updateCol_of_absent h2]
  | some csn =>
      cases hcm : t.getCol? m with
      | none =>
          have h1 : (updateCol t n f).getCol? m = none := by
            rw [getCol?_updateCol_ne hf hwf (Ne.symm hne)]; exact hcm
          rw [updateCol_of_absent h1, updateCol_of_absent hcm]
      | some csm =>
          have h1 : (updateCol t n f).getCol? m = some csm := by
            rw [getCol?_updateCol_ne hf hwf (Ne.symm hne)]; exact hcm
          have h2 : (updateCol t m g).getCol? n = some csn := by
            rw [getCol?_updateCol_ne hg hwf hne]; exact hcn
          rw [updateCol_of_present h1, updateCol_of_present h2,
            updateCol_of_present hcn, updateCol_of_present hcm]
          exact Table.setCol_setCol_comm_of_mem hwf
            (Table.getCol?_isSome_iff.mp (by rw [hcn]; rfl))
            (Table.getCol?_isSome_iff.mp (by rw [hcm]; rfl)) hne

theorem icFn_length (n : String) :
    ∀ cs, ((if n ∈ catColumns then castCat else imputeNums) cs).length = cs.length := by
  intro cs
  by_cases h : n ∈ catColumns <;> simp [h, length_imputeNums, length_castCat]

theorem icFn_idem (n : String) (cs : List Cell) :
    (if n ∈ catColumns then castCat else imputeNums)
      ((if n ∈ catColumns then castCat else imputeNums) cs) =
    (if n ∈ catColumns then castCat else imputeNums) cs := by
  by_cases h : n ∈ catColumns <;> simp [h, castCat_idem, imputeNums_idem]

theorem icStep_wf {t : Table} (hwf : t.Wf) (n : String) : (icStep t n).Wf :=
  updateCol_wf (icFn_length n) hwf n

theorem icStep_header (t : Table) (n : String) : (icStep t n).header = t.header :=
  updateCol_header t n _

theorem icStep_idem {t : Table} (hwf : t.Wf) (n : String) :
    icStep (icStep t n) n = icStep t n :=
  updateCol_idem (icFn_length n) (icFn_idem n) hwf

theorem icStep_comm {t : Table} (hwf : t.Wf) {n m : String} (hne : n ≠ m) :
    icStep (icStep t n) m = icStep (icStep t m) n :=
  updateCol_comm (icFn_length n) (icFn_length m) hwf hne

/- ### Fold lemmas for the impute/cast loops -/

theorem foldl_icStep_wf : ∀ (L : List String) {t : Table}, t.Wf → (L.foldl icStep t).Wf := by
  intro L
  induction L with
  | nil => intro t h; exact h
  | cons a M ih => intro t h; exact ih (icStep_wf h a)

theorem foldl_icStep_header : ∀ (L : List String) (t : Table),
    (L.foldl icStep t).header = t.header := by
  intro L
  induction L with
  | nil => intro t; rfl
  | cons a M ih => intro t; rw [List.foldl_cons, ih, icStep_header]

theorem icStep_foldl_comm {n : String} : ∀ (L : List String) {t : Table}, t.Wf → n ∉ L →
    icStep (L.foldl icStep t) n = L.foldl icStep (icStep t n) := by
  intro L
  induction L with
  | nil => intro t _ _; rfl
  | cons a M ih =>
      intro t hwf hn
      simp only [List.mem_cons, not_or] at hn
      rw [List.foldl_cons, ih (icStep_wf hwf a) hn.2, icStep_comm hwf (Ne.symm hn.1),
        List.foldl_cons]

theorem icStep_absorb {n : String} : ∀ (L : List String) {t : Table}, t.Wf → n ∈ L →
    icStep (L.foldl icStep t) n = L.foldl icStep t := by
  intro L
  induction L with
  | nil => intro t _ h; simp at h
  | cons a M ih =>
      intro t hwf hn
      by_cases hm : n ∈ M
      · rw [List.foldl_cons]
        exact ih (icStep_wf hwf a) hm
      · have ha : n = a := by
          rcases List.mem_cons.mp hn with h | h
          · exact h
          · exact absurd h hm
        subst ha
        rw [List.foldl_cons, icStep_foldl_comm M (icStep_wf hwf n) hm,
          icStep_idem hwf, ← List.foldl_cons]

theorem foldl_icStep_absorb_all : ∀ (M L : List String) {t : Table}, t.Wf →
    (∀ x ∈ M, x ∈ L) → M.foldl icStep (L.foldl icStep t) = L.foldl icStep t := by
  intro M
  induction M with
  | nil => intro L t _ _; rfl
  | cons a M' ih =>
      intro L t hwf hsub
      rw [List.foldl_cons, icStep_absorb L hwf (hsub a (by simp))]
      exact ih L hwf (fun x hx => hsub x (by simp [hx]))

theorem foldl_congr_step {s1 s2 : Table → String → Table} :
    ∀ (L : List String) (t : Table), (∀ n ∈ L, ∀ u, s1 u n = s2 u n) →
      L.foldl s1 t = L.foldl s2 t := by
  intro L
  induction L with
  | nil => intro t _; rfl
  | cons a M ih =>
      intro t hp
      rw [List.foldl_cons, List.foldl_cons, hp a (by simp) t]
      exact ih _ (fun n hn u => hp n (by simp [hn]) u)

theorem impute_and_cast_eq_foldl (t : Table) :
    impute_and_cast t = (numericCandidates ++ catColumns).foldl icStep t := by
  have hnc : ∀ n ∈ numericCandidates, n ∉ catColumns := by decide
  rw [impute_and_cast, List.foldl_append]
  have h1 : numericCandidates.foldl imputeStep t = numericCandidates.foldl icStep t :=
    foldl_congr_step _ _ (fun n hn u => by
      rw [imputeStep, icStep, if_neg (hnc n hn)])
  have h2 : ∀ u, catColumns.foldl castStep u = catColumns.foldl icStep u := fun u =>
    foldl_congr_step _ _ (fun n hn v => by
      rw [castStep, icStep, if_pos hn])
  rw [h1, h2]

theorem impute_and_cast_header (t : Table) :
    (impute_and_cast t).header = t.header := by
  rw [impute_and_cast_eq_foldl]
  exact foldl_icStep_header _ t

theorem impute_and_cast_wf {t : Table} (hwf : t.Wf) : (impute_and_cast t).Wf := by
  rw [impute_and_cast_eq_foldl]
  exact foldl_icStep_wf _ hwf

theorem getCol?_foldl_icStep_not_mem {n : String} :
    ∀ (L : List String) {t : Table}, t.Wf → n ∉ L →
      (L.foldl icStep t).getCol? n = t.getCol? n := by
  intro L
  induction L with
  | nil => intro t _ _; rfl
  | cons a M ih =>
      intro t hwf hn
      simp only [List.mem_cons, not_or] at hn
      rw [List.foldl_cons, ih (icStep_wf hwf a) hn.2, icStep,
        getCol?_updateCol_ne (icFn_length a) hwf hn.1]

theorem getCol?_foldl_icStep_mem {n : String} :
    ∀ (L : List String) {t : Table}, t.Wf → L.Nodup → n ∈ L →
      (L.foldl icStep t).getCol? n =
        (t.getCol? n).map (if n ∈ catColumns then castCat else imputeNums) := by
  intro L
  induction L with
  | nil => intro t _ _ h; simp at h
  | cons a M ih =>
      intro t hwf hnd hn
      rcases List.mem_cons.mp hn with he | hm
      · subst he
        have hnm : n ∉ M := (List.nodup_cons.mp hnd).1
        rw [List.foldl_cons, getCol?_foldl_icStep_not_mem M (icStep_wf hwf n) hnm,
          icStep, getCol?_updateCol (icFn_length n) hwf]
      · have hna : n ≠ a := by
          intro e
          subst e
          exact (List.nodup_cons.mp hnd).1 hm
        rw [List.foldl_cons, ih (icStep_wf hwf a) (List.nodup_cons.mp hnd).2 hm,
          icStep, getCol?_updateCol_ne (icFn_length a) hwf hna]

theorem getCol?_impute_and_cast_candidate {t : Table} {n : String} (hwf : t.Wf)
    (hn : n ∈ numericCandidates) :
    (impute_and_cast t).getCol? n = (t.getCol? n).map imputeNums := by
  have hnc : ∀ m ∈ numericCandidates, m ∉ catColumns := by decide
  have hnodup : (numericCandidates ++ catColumns).Nodup := by decide
  rw [impute_and_cast_eq_foldl,
    getCol?_foldl_icStep_mem _ hwf hnodup (by simp [hn]), if_neg (hnc n hn)]

theorem getCol?_impute_and_cast_cat {t : Table} {n : String} (hwf : t.Wf)
    (hn : n ∈ catColumns) :
    (impute_and_cast t).getCol? n = (t.getCol? n).map castCat := by
  have hnodup : (numericCandidates ++ catColumns).Nodup := by decide
  rw [impute_and_cast_eq_foldl,
    getCol?_foldl_icStep_mem _ hwf hnodup (by simp [hn]), if_pos hn]

theorem getCol?_impute_and_cast_other {t : Table} {n : String} (hwf : t.Wf)
    (h1 : n ∉ numericCandidates) (h2 : n ∉ catColumns) :
    (impute_and_cast t).getCol? n = t.getCol? n := by
  rw [impute_and_cast_eq_foldl]
  exact getCol?_foldl_icStep_not_mem _ hwf (by simp [h1, h2])

theorem impute_and_cast_idem {t : Table} (hwf : t.Wf) :
    impute_and_cast (impute_and_cast t) = impute_and_cast t := by
  rw [impute_and_cast_eq_foldl (impute_and_cast t), impute_and_cast_eq_foldl t]
  exact foldl_icStep_absorb_all _ _ hwf (fun x hx => hx)

/- ### Lengths of derived columns -/

theorem length_toNums? {cs : List Cell} {nums : List (Option ℚ)}
    (h : toNums? cs = some nums) : nums.length = cs.length := by
  rw [toNums?] at h
  by_cases hc : cs.all (fun c => !isStrCell c)
  · rw [if_pos hc] at h
    cases h
    simp
  · rw [if_neg hc] at h
    cases h

theorem length_qcut3 {a b c : String} {nums : List (Option ℚ)} {ls : List Cell}
    (h : qcut3 a b c nums = some ls) : ls.length = nums.length := by
  rw [qcut3] at h
  split at h
  · cases h
  · dsimp only at h
    split at h
    · cases h
      simp
    · cases h

theorem length_cut3 {a b c : String} {nums : List (Option ℚ)} {ls : List Cell}
    (h : cut3 a b c nums = some ls) : ls.length = nums.length := by
  rw [cut3] at h
  split at h
  · cases h
    simp
  · cases h

theorem length_milesCategoryCol (cs : List Cell) :
    (milesCategoryCol cs).length = cs.length := by
  rw [milesCategoryCol]
  cases hn : toNums? cs with
  | none => simp
  | some nums =>
      have hlen := length_toNums? hn
      simp only
      split
      · cases hq : qcut3 "low" "medium" "high" nums with
        | none => simp
        | some ls => simpa [length_qcut3 hq] using hlen
      · cases hq : cut3 "low" "medium" "high" nums with
        | none => simp
        | some ls => simpa [length_cut3 hq] using hlen

theorem length_addCols {reg cas vs : List Cell}
    (h : addCols reg cas = some vs) : vs.length ≤ reg.length := by
  induction reg generalizing cas vs with
  | nil =>
      rw [addCols] at h
      cases h
      simp
  | cons a as ih =>
      cases cas with
      | nil =>
          rw [addCols] at h
          cases h
          simp
      | cons b bs =>
          rw [addCols] at h
          simp only [Option.bind_eq_bind, Option.bind_eq_some] at h
          obtain ⟨c, hc, rest, hrest, hv⟩ := h
          cases hv
          simpa using ih hrest

theorem length_addCols_eq {reg cas vs : List Cell} (hl : reg.length = cas.length)
    (h : addCols reg cas = some vs) : vs.length = reg.length := by
  induction reg generalizing cas vs with
  | nil =>
      rw [addCols] at h
      cases h
      simp
  | cons a as ih =>
      cases cas with
      | nil => simp at hl
      | cons b bs =>
          rw [addCols] at h
          simp only [Option.bind_eq_bind, Option.bind_eq_some] at h
          obtain ⟨c, hc, rest, hrest, hv⟩ := h
          cases hv
          simpa using ih (by simpa using hl) hrest

/- ### Per-step lemmas for feature_engineering -/

theorem productStep_cases {t t' : Table} (h : productStep t = some t') :
    (t.getCol? "product" = none ∧ t' = t) ∨
    ∃ cs, t.getCol? "product" = some cs ∧ cs.any isStrCell = true ∧
      t' = t.setCol "product_label" (cs.map fun c =>
        match c with
        | .str s => .str (removeWhitespace (upperStr s))
        | _ => .na) := by
  rw [productStep] at h
  cases hc : t.getCol? "product" with
  | none =>
      rw [hc] at h
      cases h
      exact Or.inl ⟨rfl, rfl⟩
  | some cs =>
      rw [hc] at h
      dsimp only at h
      by_cases ha : cs.any isStrCell
      · rw [if_pos ha] at h
        cases h
        exact Or.inr ⟨cs, rfl, ha, rfl⟩
      · rw [if_neg ha] at h
        cases h

theorem genderStep_cases {t t' : Table} (h : genderStep t = some t') :
    (t.getCol? "gender" = none ∧ t' = t) ∨
    ∃ cs, t.getCol? "gender" = some cs ∧ cs.all isStrCell = true ∧
      t' = t.setCol "gender_label" (cs.map fun c =>
        match c with
        | .str s => .str (genderLabel s)
        | _ => .na) := by
  rw [genderStep] at h
  cases hc : t.getCol? "gender" with
  | none =>
      rw [hc] at h
      cases h
      exact Or.inl ⟨rfl, rfl⟩
  | some cs =>
      rw [hc] at h
      dsimp only at h
      by_cases ha : cs.all isStrCell
      · rw [if_pos ha] at h
        cases h
        exact Or.inr ⟨cs, rfl, ha, rfl⟩
      · rw [if_neg ha] at h
        cases h

theorem incomeStep_cases {t t' : Table} (h : incomeStep t = some t') :
    (t.getCol? "income" = none ∧ t' = t) ∨
    ∃ cs nums, t.getCol? "income" = some cs ∧ toNums? cs = some nums ∧
      ((∃ labels, qcut3 "low" "medium" "high"
          (nums.map fun o => if o = some 0 then none else o) = some labels ∧
          t' = t.setCol "income_bucket" labels) ∨
       (qcut3 "low" "medium" "high"
          (nums.map fun o => if o = some 0 then none else o) = none ∧
        t' = t.setCol "income_bucket" (nums.map fun o =>
          match o with
          | none => .na
          | some q => .str (labelOf 40000 70000 "low" "medium" "high" q)))) := by
  rw [incomeStep] at h
  cases hc : t.getCol? "income" with
  | none =>
      rw [hc] at h
      cases h
      exact Or.inl ⟨rfl, rfl⟩
  | some cs =>
      rw [hc] at h
      dsimp only at h
      cases hn : toNums? cs with
      | none => rw [hn] at h; cases h
      | some nums =>
          rw [hn] at h
          dsimp only at h
          cases hq : qcut3 "low" "medium" "high"
              (nums.map fun o => if o = some 0 then none else o) with
          | none =>
              rw [hq] at h
              cases h
              exact Or.inr ⟨cs, nums, rfl, hn, Or.inr ⟨hq, rfl⟩⟩
          | some labels =>
              rw [hq] at h
              cases h
              exact Or.inr ⟨cs, nums, rfl, hn, Or.inl ⟨labels, hq, rfl⟩⟩

theorem milesStep_cases (t : Table) :
    (t.getCol? "miles" = none ∧ milesStep t = t) ∨
    ∃ cs, t.getCol? "miles" = some cs ∧
      milesStep t = t.setCol "miles_category" (milesCategoryCol cs) := by
  rw [milesStep]
  cases hc : t.getCol? "miles" with
  | none => exact Or.inl ⟨rfl, rfl⟩
  | some cs => exact Or.inr ⟨cs, rfl, rfl⟩

theorem usageStep_cases {t t' : Table} (h : usageStep t = some t') :
    (t.getCol? "usage" = none ∧ t' = t) ∨
    ∃ cs nums, t.getCol? "usage" = some cs ∧ toNums? cs = some nums ∧
      t' = t.setCol "usage_category" (nums.map fun o =>
        match o with
        | none => .na
        | some q => .str (usageRule q)) := by
  rw [usageStep] at h
  cases hc : t.getCol? "usage" with
  | none =>
      rw [hc] at h
      cases h
      exact Or.inl ⟨rfl, rfl⟩
  | some cs =>
      rw [hc] at h
      dsimp only at h
      cases hn : toNums? cs with
      | none => rw [hn] at h; cases h
      | some nums =>
          rw [hn] at h
          cases h
          exact Or.inr ⟨cs, nums, rfl, hn, rfl⟩

theorem ageStep_cases {t t' : Table} (h : ageStep t = some t') :
    (t.getCol? "age" = none ∧ t' = t) ∨
    ∃ cs nums, t.getCol? "age" = some cs ∧ toNums? cs = some nums ∧
      t' = t.setCol "age_bucket" (nums.map fun o =>
        match o with
        | none => .na
        | some q => ageRule q) := by
  rw [ageStep] at h
  cases hc : t.getCol? "age" with
  | none =>
      rw [hc] at h
      cases h
      exact Or.inl ⟨rfl, rfl⟩
  | some cs =>
      rw [hc] at h
      dsimp only at h
      cases hn : toNums? cs with
      | none => rw [hn] at h; cases h
      | some nums =>
          rw [hn] at h
          cases h
          exact Or.inr ⟨cs, nums, rfl, hn, rfl⟩

theorem educationStep_cases (t : Table) :
    (t.getCol? "education" = none ∧ educationStep t = t) ∨
    ∃ cs, t.getCol? "education" = some cs ∧
      educationStep t = t.setCol "education_label" (cs.map eduLabel) := by
  rw [educationStep]
  cases hc : t.getCol? "education" with
  | none => exact Or.inl ⟨rfl, rfl⟩
  | some cs => exact Or.inr ⟨cs, rfl, rfl⟩

theorem datetimeStep_cases (t : Table) :
    (t.header.find? isDatetimeName = none ∧ datetimeStep t = t) ∨
    ∃ dtc cs, t.header.find? isDatetimeName = some dtc ∧
      t.getCol? dtc = some cs ∧
      datetimeStep t =
        (((t.setCol dtc (cs.map parseCellDatetime)).setCol "date"
            ((cs.map parseCellDatetime).map dateCell)).setCol "hour"
            ((cs.map parseCellDatetime).map hourCell)).setCol "day_of_week"
            ((cs.map parseCellDatetime).map dayNameCell) := by
  cases hf : t.header.find? isDatetimeName with
  | none =>
      refine Or.inl ⟨rfl, ?_⟩
      rw [datetimeStep, hf]
  | some dtc =>
      cases hc : t.getCol? dtc with
      | none =>
          exfalso
          have : dtc ∈ t.header := List.mem_of_find?_eq_some hf
          exact (Table.getCol?_eq_none_iff.mp hc) this
      | some cs =>
          refine Or.inr ⟨dtc, cs, rfl, hc, ?_⟩
          rw [datetimeStep, hf]
          dsimp only
          rw [hc]

theorem countStep_cases {t t' : Table} (h : countStep t = some t') :
    t' = t ∨
    ∃ reg cas vs, t.getCol? "registered" = some reg ∧ t.getCol? "casual" = some cas ∧
      "count" ∉ t.header ∧ addCols reg cas = some vs ∧
      t' = t.setCol "count" vs := by
  rw [countStep] at h
  by_cases hg : ("registered" ∈ t.header ∨ "casual" ∈ t.header) ∧ "count" ∉ t.header
  · rw [if_pos hg] at h
    cases hr : t.getCol? "registered" with
    | none =>
        rw [hr] at h
        cases hcs : t.getCol? "casual" with
        | none => rw [hcs] at h; cases h; exact Or.inl rfl
        | some cas => rw [hcs] at h; cases h; exact Or.inl rfl
    | some reg =>
        rw [hr] at h
        cases hcs : t.getCol? "casual" with
        | none => rw [hcs] at h; cases h; exact Or.inl rfl
        | some cas =>
            rw [hcs] at h
            dsimp only at h
            cases hv : addCols reg cas with
            | none => rw [hv] at h; cases h
            | some vs =>
                rw [hv] at h
                cases h
                exact Or.inr ⟨reg, cas, vs, rfl, rfl, hg.2, hv, rfl⟩
  · rw [if_neg hg] at h
    cases h
    exact Or.inl rfl

/- ### Evolution of a table through a derivation step -/

theorem evolves_refl {t : Table} (hwf : t.Wf) (outs : List String) :
    Evolves t t outs :=
  ⟨hwf, rfl, ⟨[], by simp, by simp⟩, fun _ _ => rfl⟩

theorem evolves_setCol {t : Table} {out : String} {vs : List Cell} (hwf : t.Wf)
    (hv : vs.length = t.nrows) {outs : List String} (hout : out ∈ outs) :
    Evolves t (t.setCol out vs) outs := by
  refine ⟨Table.wf_setCol hwf hv, Table.nrows_setCol hv, ?_, ?_⟩
  · by_cases hm : out ∈ t.header
    · exact ⟨[], by simp [Table.setCol_header_of_mem vs hm], by simp⟩
    · exact ⟨[out], by simp [Table.setCol_header_of_not_mem vs hm], by simpa using hout⟩
  · intro n hn
    exact Table.getCol?_setCol_ne hwf hv (fun e => hn (e ▸ hout))

theorem evolves_trans {t u v : Table} {outs : List String}
    (h1 : Evolves t u outs) (h2 : Evolves u v outs) : Evolves t v outs := by
  obtain ⟨hw1, hn1, ⟨L1, hh1, hs1⟩, hf1⟩ := h1
  obtain ⟨hw2, hn2, ⟨L2, hh2, hs2⟩, hf2⟩ := h2
  refine ⟨hw2, by rw [hn2, hn1], ⟨L1 ++ L2, ?_, ?_⟩, ?_⟩
  · rw [hh2, hh1, List.append_assoc]
  · intro x hx
    rcases List.mem_append.mp hx with h | h
    · exact hs1 x h
    · exact hs2 x h
  · intro n hn
    rw [hf2 n hn, hf1 n hn]

theorem evolves_mono {t t' : Table} {outs w : List String}
    (h : Evolves t t' outs) (hsub : ∀ x ∈ outs, x ∈ w) :
    Evolves t t' w := by
  obtain ⟨hw, hn, ⟨L, hh, hs⟩, hf⟩ := h
  exact ⟨hw, hn, ⟨L, hh, fun x hx => hsub x (hs x hx)⟩,
    fun n hn => hf n (fun hc => hn (hsub n hc))⟩

theorem Evolves.wf {t t' : Table} {outs : List String} (h : Evolves t t' outs) :
    t'.Wf := h.1

theorem Evolves.nrows {t t' : Table} {outs : List String} (h : Evolves t t' outs) :
    t'.nrows = t.nrows := h.2.1

theorem Evolves.frame {t t' : Table} {outs : List String} (h : Evolves t t' outs)
    {n : String} (hn : n ∉ outs) : t'.getCol? n = t.getCol? n :=
  h.2.2.2 n hn

theorem Evolves.mem_header {t t' : Table} {outs : List String}
    (h : Evolves t t' outs) {n : String} (hn : n ∈ t.header) : n ∈ t'.header := by
  obtain ⟨_, _, ⟨L, hh, _⟩, _⟩ := h
  rw [hh]
  simp [hn]

theorem productStep_evolves {t t' : Table} (hwf : t.Wf)
    (h : productStep t = some t') : Evolves t t' ["product_label"] := by
  rcases productStep_cases h with ⟨_, rfl⟩ | ⟨cs, hc, _, rfl⟩
  · exact evolves_refl hwf _
  · exact evolves_setCol hwf (by simpa using Table.getCol?_length hc) (by simp)

theorem genderStep_evolves {t t' : Table} (hwf : t.Wf)
    (h : genderStep t = some t') : Evolves t t' ["gender_label"] := by
  rcases genderStep_cases h with ⟨_, rfl⟩ | ⟨cs, hc, _, rfl⟩
  · exact evolves_refl hwf _
  · exact evolves_setCol hwf (by simpa using Table.getCol?_length hc) (by simp)

theorem incomeStep_evolves {t t' : Table} (hwf : t.Wf)
    (h : incomeStep t = some t') : Evolves t t' ["income_bucket"] := by
  rcases incomeStep_cases h with ⟨_, rfl⟩ | ⟨cs, nums, hc, hn, hrest⟩
  · exact evolves_refl hwf _
  · rcases hrest with ⟨labels, hq, rfl⟩ | ⟨hq, rfl⟩
    · refine evolves_setCol hwf ?_ (by simp)
      rw [length_qcut3 hq]
      simp [length_toNums? hn, Table.getCol?_length hc]
    · refine evolves_setCol hwf ?_ (by simp)
      simp [length_toNums? hn, Table.getCol?_length hc]

theorem milesStep_evolves {t : Table} (hwf : t.Wf) :
    Evolves t (milesStep t) ["miles_category"] := by
  rcases milesStep_cases t with ⟨_, he⟩ | ⟨cs, hc, he⟩
  · rw [he]; exact evolves_refl hwf _
  · rw [he]
    refine evolves_setCol hwf ?_ (by simp)
    rw [length_milesCategoryCol]
    exact Table.getCol?_length hc

theorem usageStep_evolves {t t' : Table} (hwf : t.Wf)
    (h : usageStep t = some t') : Evolves t t' ["usage_category"] := by
  rcases usageStep_cases h with ⟨_, rfl⟩ | ⟨cs, nums, hc, hn, rfl⟩
  · exact evolves_refl hwf _
  · refine evolves_setCol hwf ?_ (by simp)
    simp [length_toNums? hn, Table.getCol?_length hc]

theorem ageStep_evolves {t t' : Table} (hwf : t.Wf)
    (h : ageStep t = some t') : Evolves t t' ["age_bucket"] := by
  rcases ageStep_cases h with ⟨_, rfl⟩ | ⟨cs, nums, hc, hn, rfl⟩
  · exact evolves_refl hwf _
  · refine evolves_setCol hwf ?_ (by simp)
    simp [length_toNums? hn, Table.getCol?_length hc]

theorem educationStep_evolves {t : Table} (hwf : t.Wf) :
    Evolves t (educationStep t) ["education_label"] := by
  rcases educationStep_cases t with ⟨_, he⟩ | ⟨cs, hc, he⟩
  · rw [he]; exact evolves_refl hwf _
  · rw [he]
    refine evolves_setCol hwf ?_ (by simp)
    simpa using Table.getCol?_length hc

theorem countStep_evolves {t t' : Table} (hwf : t.Wf)
    (h : countStep t = some t') : Evolves t t' ["count"] := by
  rcases countStep_cases h with rfl | ⟨reg, cas, vs, hr, hcs, _, hv, rfl⟩
  · exact evolves_refl hwf _
  · refine evolves_setCol hwf ?_ (by simp)
    rw [length_addCols_eq ?_ hv]
    · exact Table.getCol?_length hr
    · rw [Table.getCol?_length hr, Table.getCol?_length hcs]

theorem datetimeStep_evolves {t : Table} (hwf : t.Wf) {dtc : String}
    (hf : t.header.find? isDatetimeName = some dtc) :
    Evolves t (datetimeStep t) [dtc, "date", "hour", "day_of_week"] := by
  rcases datetimeStep_cases t with ⟨hn, _⟩ | ⟨dtc', cs, hf', hc, he⟩
  · rw [hn] at hf; cases hf
  · rw [hf'] at hf
    cases hf
    rw [he]
    have hlen : (cs.map parseCellDatetime).length = t.nrows := by
      simpa using Table.getCol?_length hc
    have e1 : Evolves t (t.setCol dtc (cs.map parseCellDatetime))
        [dtc, "date", "hour", "day_of_week"] :=
      evolves_setCol hwf hlen (by simp)
    have l2 : ((cs.map parseCellDatetime).map dateCell).length =
        (t.setCol dtc (cs.map parseCellDatetime)).nrows := by
      rw [e1.nrows]
      simpa using hlen
    have e2 := evolves_setCol e1.wf l2
      (show "date" ∈ [dtc, "date", "hour", "day_of_week"] by simp)
    have l3 : ((cs.map parseCellDatetime).map hourCell).length =
        ((t.setCol dtc (cs.map parseCellDatetime)).setCol "date"
          ((cs.map parseCellDatetime).map dateCell)).nrows := by
      rw [e2.nrows, e1.nrows]
      simpa using hlen
    have e3 := evolves_setCol e2.wf l3
      (show "hour" ∈ [dtc, "date", "hour", "day_of_week"] by simp)
    have l4 : ((cs.map parseCellDatetime).map dayNameCell).length =
        (((t.setCol dtc (cs.map parseCellDatetime)).setCol "date"
          ((cs.map parseCellDatetime).map dateCell)).setCol "hour"
          ((cs.map parseCellDatetime).map hourCell)).nrows := by
      rw [e3.nrows, e2.nrows, e1.nrows]
      simpa using hlen
    have e4 := evolves_setCol e3.wf l4
      (show "day_of_week" ∈ [dtc, "date", "hour", "day_of_week"] by simp)
    exact evolves_trans e1 (evolves_trans e2 (evolves_trans e3 e4))

theorem datetimeStep_evolves_none {t : Table} (hwf : t.Wf)
    (hf : t.header.find? isDatetimeName = none) (outs : List String) :
    Evolves t (datetimeStep t) outs := by
  rcases datetimeStep_cases t with ⟨_, he⟩ | ⟨dtc', cs, hf', hc, he⟩
  · rw [he]; exact evolves_refl hwf _
  · rw [hf'] at hf; cases hf

/- ### Decomposition of feature_engineering -/

theorem feature_engineering_bind {t t' : Table} (h : feature_engineering t = some t') :
    ∃ t1 t2 t3 t5 t6, productStep t = some t1 ∧ genderStep t1 = some t2 ∧
      incomeStep t2 = some t3 ∧ usageStep (milesStep t3) = some t5 ∧
      ageStep t5 = some t6 ∧
      countStep (datetimeStep (educationStep t6)) = some t' := by
  rw [feature_engineering] at h
  simp only [Option.bind_eq_bind, Option.bind_eq_some] at h
  obtain ⟨t1, h1, t2, h2, t3, h3, t5, h5, t6, h6, h9⟩ := h
  exact ⟨t1, t2, t3, t5, t6, h1, h2, h3, h5, h6, h9⟩

theorem not_datetime_name_of_mem_first7 :
    ∀ n ∈ ["product_label", "gender_label", "income_bucket", "miles_category",
           "usage_category", "age_bucket", "education_label"],
      isDatetimeName n = false := by decide

/-- Frame through the education, datetime and count steps. -/
theorem tail7_frame {t6 t' : Table} (hwf6 : t6.Wf)
    (h9 : countStep (datetimeStep (educationStep t6)) = some t')
    {n : String} (hdt : isDatetimeName n = false)
    (hn : n ∉ (["education_label", "date", "hour", "day_of_week", "count"] : List String)) :
    t'.getCol? n = t6.getCol? n ∧ t'.Wf := by
  have hedu : n ≠ "education_label" := fun e => hn (by simp [e])
  have hdate : n ≠ "date" := fun e => hn (by simp [e])
  have hhour : n ≠ "hour" := fun e => hn (by simp [e])
  have hdow : n ≠ "day_of_week" := fun e => hn (by simp [e])
  have hcount : n ≠ "count" := fun e => hn (by simp [e])
  have e7 : Evolves t6 (educationStep t6) ["education_label"] := educationStep_evolves hwf6
  have f7 : (educationStep t6).getCol? n = t6.getCol? n :=
    e7.frame (by simp [hedu])
  cases hf : (educationStep t6).header.find? isDatetimeName with
  | none =>
      have e8 := datetimeStep_evolves_none e7.wf hf ["date"]
      have f8 : (datetimeStep (educationStep t6)).getCol? n =
          (educationStep t6).getCol? n := e8.frame (by simp [hdate])
      have e9 : Evolves (datetimeStep (educationStep t6)) t' ["count"] :=
        countStep_evolves e8.wf h9
      have f9 := e9.frame (n := n) (by simp [hcount])
      exact ⟨by rw [f9, f8, f7], e9.wf⟩
  | some dtc =>
      have hdtc : isDatetimeName dtc = true := List.find?_some hf
      have e8 := datetimeStep_evolves e7.wf hf
      have f8 : (datetimeStep (educationStep t6)).getCol? n =
          (educationStep t6).getCol? n := by
        refine e8.frame (fun hm => ?_)
        rcases (by simpa using hm :
            n = dtc ∨ n = "date" ∨ n = "hour" ∨ n = "day_of_week") with e | e | e | e
        · rw [e, hdtc] at hdt
          cases hdt
        · exact hdate e
        · exact hhour e
        · exact hdow e
      have e9 : Evolves (datetimeStep (educationStep t6)) t' ["count"] :=
        countStep_evolves e8.wf h9
      have f9 := e9.frame (n := n) (by simp [hcount])
      exact ⟨by rw [f9, f8, f7], e9.wf⟩

/-- Frame through the age, education, datetime and count steps. -/
theorem tail6_frame {t5 t6 t' : Table} (hwf5 : t5.Wf)
    (h6 : ageStep t5 = some t6)
    (h9 : countStep (datetimeStep (educationStep t6)) = some t')
    {n : String} (hdt : isDatetimeName n = false)
    (hn : n ∉ (["age_bucket", "education_label", "date", "hour", "day_of_week",
      "count"] : List String)) :
    t'.getCol? n = t5.getCol? n ∧ t'.Wf := by
  have hage : n ≠ "age_bucket" := fun e => hn (by simp [e])
  have e6 := ageStep_evolves hwf5 h6
  have f6 : t6.getCol? n = t5.getCol? n := e6.frame (by simp [hage])
  have ht := tail7_frame e6.wf h9 hdt (fun hm => hn (by revert hm; simp; tauto))
  exact ⟨by rw [ht.1, f6], ht.2⟩

/-- Frame through the usage, age, education, datetime and count steps. -/
theorem tail5_frame {t4 t5 t6 t' : Table} (hwf4 : t4.Wf)
    (h5 : usageStep t4 = some t5) (h6 : ageStep t5 = some t6)
    (h9 : countStep (datetimeStep (educationStep t6)) = some t')
    {n : String} (hdt : isDatetimeName n = false)
    (hn : n ∉ (["usage_category", "age_bucket", "education_label", "date", "hour",
      "day_of_week", "count"] : List String)) :
    t'.getCol? n = t4.getCol? n ∧ t'.Wf := by
  have husage : n ≠ "usage_category" := fun e => hn (by simp [e])
  have e5 := usageStep_evolves hwf4 h5
  have f5 : t5.getCol? n = t4.getCol? n := e5.frame (by simp [husage])
  have ht := tail6_frame e5.wf h6 h9 hdt (fun hm => hn (by revert hm; simp; tauto))
  exact ⟨by rw [ht.1, f5], ht.2⟩

/-- Frame through the miles, usage, age, education, datetime and count steps. -/
theorem tail4_frame {t3 t5 t6 t' : Table} (hwf3 : t3.Wf)
    (h5 : usageStep (milesStep t3) = some t5) (h6 : ageStep t5 = some t6)
    (h9 : countStep (datetimeStep (educationStep t6)) = some t')
    {n : String} (hdt : isDatetimeName n = false)
    (hn : n ∉ (["miles_category", "usage_category", "age_bucket", "education_label",
      "date", "hour", "day_of_week", "count"] : List String)) :
    t'.getCol? n = t3.getCol? n ∧ t'.Wf := by
  have hmiles : n ≠ "miles_category" := fun e => hn (by simp [e])
  have e4 := milesStep_evolves (t := t3) hwf3
  have f4 : (milesStep t3).getCol? n = t3.getCol? n := e4.frame (by simp [hmiles])
  have ht := tail5_frame e4.wf h5 h6 h9 hdt (fun hm => hn (by revert hm; simp; tauto))
  exact ⟨by rw [ht.1, f4], ht.2⟩

/-- Frame through the income step and everything after it. -/
theorem tail3_frame {t2 t3 t5 t6 t' : Table} (hwf2 : t2.Wf)
    (h3 : incomeStep t2 = some t3)
    (h5 : usageStep (milesStep t3) = some t5) (h6 : ageStep t5 = some t6)
    (h9 : countStep (datetimeStep (educationStep t6)) = some t')
    {n : String} (hdt : isDatetimeName n = false)
    (hn : n ∉ (["income_bucket", "miles_category", "usage_category", "age_bucket",
      "education_label", "date", "hour", "day_of_week", "count"] : List String)) :
    t'.getCol? n = t2.getCol? n ∧ t'.Wf := by
  have hinc : n ≠ "income_bucket" := fun e => hn (by simp [e])
  have e3 := incomeStep_evolves hwf2 h3
  have f3 : t3.getCol? n = t2.getCol? n := e3.frame (by simp [hinc])
  have ht := tail4_frame e3.wf h5 h6 h9 hdt (fun hm => hn (by revert hm; simp; tauto))
  exact ⟨by rw [ht.1, f3], ht.2⟩

/- ### Derived-column values produced by feature_engineering -/

theorem fe_gender_label {t t' : Table} (hwf : t.Wf)
    (h : feature_engineering t = some t') {cs : List Cell}
    (hc : t.getCol? "gender" = some cs) :
    cs.all isStrCell = true ∧
    t'.getCol? "gender_label" =
      some (cs.map fun c => match c with
        | .str s => .str (genderLabel s)
        | _ => .na) := by
  obtain ⟨t1, t2, t3, t5, t6, h1, h2, h3, h5, h6, h9⟩ := feature_engineering_bind h
  have e1 := productStep_evolves hwf h1
  have hg1 : t1.getCol? "gender" = some cs := by
    rw [e1.frame (by decide), hc]
  rcases genderStep_cases h2 with ⟨hnone, rfl⟩ | ⟨cs2, hc2, hall, rfl⟩
  · rw [hg1] at hnone
    cases hnone
  · rw [hg1] at hc2
    cases hc2
    refine ⟨hall, ?_⟩
    have hv : (cs.map fun c => match c with
        | Cell.str s => Cell.str (genderLabel s)
        | _ => Cell.na).length = t1.nrows := by
      simpa using Table.getCol?_length hg1
    have hval := Table.getCol?_setCol_self (n := "gender_label") e1.wf hv
    have ht := tail3_frame (n := "gender_label") (Table.wf_setCol e1.wf hv) h3 h5 h6 h9
      (by decide) (by decide)
    rw [ht.1, hval]

theorem fe_usage_category {t t' : Table} (hwf : t.Wf)
    (h : feature_engineering t = some t') {cs : List Cell}
    (hc : t.getCol? "usage" = some cs) :
    ∃ nums, toNums? cs = some nums ∧
      t'.getCol? "usage_category" = some (nums.map fun o =>
        match o with
        | none => Cell.na
        | some q => Cell.str (usageRule q)) := by
  obtain ⟨t1, t2, t3, t5, t6, h1, h2, h3, h5, h6, h9⟩ := feature_engineering_bind h
  have e1 := productStep_evolves hwf h1
  have e2 := genderStep_evolves e1.wf h2
  have e3 := incomeStep_evolves e2.wf h3
  have e4 := milesStep_evolves e3.wf
  have hu : (milesStep t3).getCol? "usage" = some cs := by
    rw [e4.frame (by decide), e3.frame (by decide), e2.frame (by decide),
      e1.frame (by decide), hc]
  rcases usageStep_cases h5 with ⟨hnone, rfl⟩ | ⟨cs2, nums, hc2, hn, rfl⟩
  · rw [hu] at hnone
    cases hnone
  · rw [hu] at hc2
    cases hc2
    refine ⟨nums, hn, ?_⟩
    have hv : (nums.map fun o => match o with
        | none => Cell.na
        | some q => Cell.str (usageRule q)).length = (milesStep t3).nrows := by
      rw [List.length_map, length_toNums? hn]
      exact Table.getCol?_length hu
    have hval := Table.getCol?_setCol_self (n := "usage_category") e4.wf hv
    have ht := tail6_frame (n := "usage_category") (Table.wf_setCol e4.wf hv) h6 h9
      (by decide) (by decide)
    rw [ht.1, hval]

theorem fe_age_bucket {t t' : Table} (hwf : t.Wf)
    (h : feature_engineering t = some t') {cs : List Cell}
    (hc : t.getCol? "age" = some cs) :
    ∃ nums, toNums? cs = some nums ∧
      t'.getCol? "age_bucket" = some (nums.map fun o =>
        match o with
        | none => Cell.na
        | some q => ageRule q) := by
  obtain ⟨t1, t2, t3, t5, t6, h1, h2, h3, h5, h6, h9⟩ := feature_engineering_bind h
  have e1 := productStep_evolves hwf h1
  have e2 := genderStep_evolves e1.wf h2
  have e3 := incomeStep_evolves e2.wf h3
  have e4 := milesStep_evolves e3.wf
  have e5 := usageStep_evolves e4.wf h5
  have ha : t5.getCol? "age" = some cs := by
    rw [e5.frame (by decide), e4.frame (by decide), e3.frame (by decide),
      e2.frame (by decide), e1.frame (by decide), hc]
  rcases ageStep_cases h6 with ⟨hnone, rfl⟩ | ⟨cs2, nums, hc2, hn, rfl⟩
  · rw [ha] at hnone
    cases hnone
  · rw [ha] at hc2
    cases hc2
    refine ⟨nums, hn, ?_⟩
    have hv : (nums.map fun o => match o with
        | none => Cell.na
        | some q => ageRule q).length = t5.nrows := by
      rw [List.length_map, length_toNums? hn]
      exact Table.getCol?_length ha
    have hval := Table.getCol?_setCol_self (n := "age_bucket") e5.wf hv
    have ht := tail7_frame (n := "age_bucket") (Table.wf_setCol e5.wf hv) h9
      (by decide) (by decide)
    rw [ht.1, hval]

theorem fe_miles_category {t t' : Table} (hwf : t.Wf)
    (h : feature_engineering t = some t') {cs : List Cell}
    (hc : t.getCol? "miles" = some cs) :
    t'.getCol? "miles_category" = some (milesCategoryCol cs) := by
  obtain ⟨t1, t2, t3, t5, t6, h1, h2, h3, h5, h6, h9⟩ := feature_engineering_bind h
  have e1 := productStep_evolves hwf h1
  have e2 := genderStep_evolves e1.wf h2
  have e3 := incomeStep_evolves e2.wf h3
  have hm : t3.getCol? "miles" = some cs := by
    rw [e3.frame (by decide), e2.frame (by decide), e1.frame (by decide), hc]
  rcases milesStep_cases t3 with ⟨hnone, he⟩ | ⟨cs2, hc2, he⟩
  · rw [hm] at hnone
    cases hnone
  · rw [hm] at hc2
    cases hc2
    have hv : (milesCategoryCol cs).length = t3.nrows := by
      rw [length_milesCategoryCol]
      exact Table.getCol?_length hm
    have hval := Table.getCol?_setCol_self (n := "miles_category") e3.wf hv
    rw [he] at h5
    have ht := tail5_frame (n := "miles_category") (Table.wf_setCol e3.wf hv) h5 h6 h9
      (by decide) (by decide)
    rw [ht.1, hval]

theorem fe_income_bucket {t t' : Table} (hwf : t.Wf)
    (h : feature_engineering t = some t') {cs : List Cell}
    (hc : t.getCol? "income" = some cs) :
    ∃ nums, toNums? cs = some nums ∧
      ((∃ labels, qcut3 "low" "medium" "high"
          (nums.map fun o => if o = some 0 then none else o) = some labels ∧
          t'.getCol? "income_bucket" = some labels) ∨
       (qcut3 "low" "medium" "high"
          (nums.map fun o => if o = some 0 then none else o) = none ∧
        t'.getCol? "income_bucket" = some (nums.map fun o =>
          match o with
          | none => Cell.na
          | some q => Cell.str (labelOf 40000 70000 "low" "medium" "high" q)))) := by
  obtain ⟨t1, t2, t3, t5, t6, h1, h2, h3, h5, h6, h9⟩ := feature_engineering_bind h
  have e1 := productStep_evolves hwf h1
  have e2 := genderStep_evolves e1.wf h2
  have hi : t2.getCol? "income" = some cs := by
    rw [e2.frame (by decide), e1.frame (by decide), hc]
  rcases incomeStep_cases h3 with ⟨hnone, rfl⟩ | ⟨cs2, nums, hc2, hn, hrest⟩
  · rw [hi] at hnone
    cases hnone
  · rw [hi] at hc2
    cases hc2
    refine ⟨nums, hn, ?_⟩
    rcases hrest with ⟨labels, hq, rfl⟩ | ⟨hq, rfl⟩
    · refine Or.inl ⟨labels, hq, ?_⟩
      have hv : labels.length = t2.nrows := by
        rw [length_qcut3 hq, List.length_map, length_toNums? hn]
        exact Table.getCol?_length hi
      have hval := Table.getCol?_setCol_self (n := "income_bucket") e2.wf hv
      have ht := tail4_frame (n := "income_bucket") (Table.wf_setCol e2.wf hv) h5 h6 h9
        (by decide) (by decide)
      rw [ht.1, hval]
    · refine Or.inr ⟨hq, ?_⟩
      have hv : (nums.map fun o => match o with
          | none => Cell.na
          | some q => Cell.str (labelOf 40000 70000 "low" "medium" "high" q)).length =
          t2.nrows := by
        rw [List.length_map, length_toNums? hn]
        exact Table.getCol?_length hi
      have hval := Table.getCol?_setCol_self (n := "income_bucket") e2.wf hv
      have ht := tail4_frame (n := "income_bucket") (Table.wf_setCol e2.wf hv) h5 h6 h9
        (by decide) (by decide)
      rw [ht.1, hval]

/- ### Cleaner lemmas -/

theorem basic_clean_header (t : Table) :
    (basic_clean t).header = t.header.map normalizeName := rfl

theorem basic_clean_rows (t : Table) :
    (basic_clean t).rows = (dedupKeepFirst t.rows []).map
      (trimRow (objMask (t.header.map normalizeName).length (dedupKeepFirst t.rows []))) := rfl

theorem mem_dedupKeepFirst {α : Type} [DecidableEq α] {x : α} :
    ∀ {l seen : List α}, x ∈ dedupKeepFirst l seen → x ∈ l ∧ x ∉ seen := by
  intro l
  induction l with
  | nil => intro seen h; simp [dedupKeepFirst] at h
  | cons a tl ih =>
      intro seen h
      rw [dedupKeepFirst] at h
      by_cases ha : a ∈ seen
      · rw [if_pos ha] at h
        obtain ⟨h1, h2⟩ := ih h
        exact ⟨by simp [h1], h2⟩
      · rw [if_neg ha] at h
        rcases List.mem_cons.mp h with rfl | h
        · exact ⟨by simp, ha⟩
        · obtain ⟨h1, h2⟩ := ih h
          have h2' : x ∉ seen := fun hc => h2 (by simp [hc])
          exact ⟨by simp [h1], h2'⟩

theorem nodup_dedupKeepFirst {α : Type} [DecidableEq α] :
    ∀ (l seen : List α), (dedupKeepFirst l seen).Nodup := by
  intro l
  induction l with
  | nil => intro seen; simp [dedupKeepFirst]
  | cons a tl ih =>
      intro seen
      rw [dedupKeepFirst]
      by_cases ha : a ∈ seen
      · rw [if_pos ha]
        exact ih seen
      · rw [if_neg ha]
        rw [List.nodup_cons]
        refine ⟨fun hc => ?_, ih (a :: seen)⟩
        exact (mem_dedupKeepFirst hc).2 (by simp)

theorem dedupKeepFirst_eq_self {α : Type} [DecidableEq α] :
    ∀ {l seen : List α}, l.Nodup → (∀ x ∈ l, x ∉ seen) → dedupKeepFirst l seen = l := by
  intro l
  induction l with
  | nil => intro seen _ _; rfl
  | cons a tl ih =>
      intro seen hnd hs
      rw [dedupKeepFirst, if_neg (hs a (by simp))]
      congr 1
      refine ih (List.nodup_cons.mp hnd).2 (fun x hx => ?_)
      intro hc
      rcases List.mem_cons.mp hc with rfl | hc
      · exact (List.nodup_cons.mp hnd).1 hx
      · exact hs x (by simp [hx]) hc

theorem objMask_length (hlen : ℕ) (rows : List (List Cell)) :
    (objMask hlen rows).length = hlen := by
  simp [objMask]

theorem objMask_getD {hlen : ℕ} {rows : List (List Cell)} {i : ℕ} (hi : i < hlen) :
    (objMask hlen rows).getD i false =
      rows.any (fun r => isStrCell (cellAt r i)) := by
  rw [objMask, List.getD_eq_getElem?_getD, List.getElem?_map, List.getElem?_range hi]
  rfl

theorem length_trimRow (mask : List Bool) (r : List Cell) :
    (trimRow mask r).length = min mask.length r.length := by
  simp [trimRow]

theorem cellAt_trimRow {mask : List Bool} {r : List Cell} {i : ℕ}
    (him : i < mask.length) (hir : i < r.length) :
    cellAt (trimRow mask r) i =
      (if mask.getD i false then stripCell (cellAt r i) else cellAt r i) := by
  rw [trimRow, cellAt_eq_getElem?, List.getElem?_zipWith,
    List.getElem?_eq_getElem him, List.getElem?_eq_getElem hir]
  rw [cellAt_eq_getElem?, List.getElem?_eq_getElem hir, List.getD_eq_getElem?_getD,
    List.getElem?_eq_getElem him]
  rfl

theorem trimRow_eq_self :
    ∀ (mask : List Bool) (r : List Cell), r.length ≤ mask.length →
      (∀ i, i < r.length → mask.getD i false = true →
        stripCell (cellAt r i) = cellAt r i) →
      trimRow mask r = r := by
  intro mask
  induction mask with
  | nil =>
      intro r hle _
      cases r with
      | nil => rfl
      | cons c rc => simp at hle
  | cons b mb ih =>
      intro r hle hp
      cases r with
      | nil => rfl
      | cons c rc =>
          rw [trimRow, List.zipWith_cons_cons]
          have hhead : (if b then stripCell c else c) = c := by
            by_cases hb : b
            · rw [if_pos hb]
              exact hp 0 (by simp) (by simpa using hb)
            · rw [if_neg hb]
          rw [hhead]
          congr 1
          exact ih rc (by simpa using hle)
            (fun i hi hm => hp (i + 1) (by simpa using Nat.succ_lt_succ hi) (by simpa using hm))

theorem trimRow_trimRow_self {hlen : ℕ} {D1 D2 : List (List Cell)}
    (hsub : ∀ r ∈ D2, r ∈ D1.map (trimRow (objMask hlen D1))) :
    ∀ r ∈ D2, trimRow (objMask hlen D2) r = r := by
  intro r hr
  obtain ⟨d, hd, rfl⟩ := List.mem_map.mp (hsub r hr)
  have hlen1 : (trimRow (objMask hlen D1) d).length ≤ (objMask hlen D2).length := by
    rw [length_trimRow, objMask_length, objMask_length]
    omega
  refine trimRow_eq_self _ _ hlen1 (fun i hi hm => ?_)
  have hilen : i < hlen := by
    rw [length_trimRow, objMask_length] at hi
    omega
  have hid : i < d.length := by
    rw [length_trimRow, objMask_length] at hi
    omega
  -- some row of D2 has a string at position i
  rw [objMask_getD hilen, List.any_eq_true] at hm
  obtain ⟨r', hr', hstr⟩ := hm
  obtain ⟨d', hd', rfl⟩ := List.mem_map.mp (hsub r' hr')
  -- hence column i is an object column of D1
  have hmask1 : (objMask hlen D1).getD i false = true := by
    rcases Nat.lt_or_ge i (trimRow (objMask hlen D1) d').length with hlt | hge
    · have hid' : i < d'.length := by
        rw [length_trimRow, objMask_length] at hlt
        omega
      rw [cellAt_trimRow (by rw [objMask_length]; exact hilen) hid'] at hstr
      by_cases hb : (objMask hlen D1).getD i false
      · exact hb
      · rw [if_neg hb] at hstr
        rw [objMask_getD hilen, List.any_eq_true]
        exact ⟨d', hd', hstr⟩
    · rw [cellAt_eq_getElem?, List.getElem?_eq_none hge] at hstr
      simp [isStrCell] at hstr
  -- the cell is already stripped
  rw [cellAt_trimRow (by rw [objMask_length]; exact hilen) hid, if_pos hmask1]
  exact stripCell_idem _

theorem basic_clean_clean_rows (t : Table) :
    (basic_clean (basic_clean t)).rows =
      dedupKeepFirst (basic_clean t).rows [] := by
  rw [basic_clean_rows (basic_clean t)]
  have hsub : ∀ r ∈ dedupKeepFirst (basic_clean t).rows [],
      r ∈ (dedupKeepFirst t.rows []).map
        (trimRow (objMask (t.header.map normalizeName).length (dedupKeepFirst t.rows []))) := by
    intro r hr
    have := (mem_dedupKeepFirst hr).1
    rwa [basic_clean_rows t] at this
  have hlen2 : ((basic_clean t).header.map normalizeName).length =
      (t.header.map normalizeName).length := by
    simp [basic_clean_header]
  rw [hlen2]
  exact (List.map_congr_left
    (fun r hr => trimRow_trimRow_self hsub r hr)).trans (List.map_id' _)

theorem basic_clean_stable_nrows (t : Table) :
    (basic_clean (basic_clean (basic_clean t))).nrows =
      (basic_clean (basic_clean t)).nrows := by
  have h2 := basic_clean_clean_rows t
  have hnd : (basic_clean (basic_clean t)).rows.Nodup := by
    rw [h2]
    exact nodup_dedupKeepFirst _ _
  show (basic_clean (basic_clean (basic_clean t))).rows.length = _
  rw [basic_clean_rows (basic_clean (basic_clean t)), List.length_map,
    dedupKeepFirst_eq_self hnd (by simp)]
  rfl

/- ### Well-formedness of the Cleaner output -/

theorem basic_clean_wf {t : Table} (hwf : t.Wf) : (basic_clean t).Wf := by
  intro r hr
  rw [basic_clean_rows] at hr
  obtain ⟨d, hd, rfl⟩ := List.mem_map.mp hr
  have hdlen : d.length = t.header.length := hwf d (mem_dedupKeepFirst hd).1
  rw [length_trimRow, objMask_length, basic_clean_header, List.length_map]
  omega

theorem basic_clean_nrows_le (t : Table) : (basic_clean t).nrows ≤ t.nrows := by
  show (basic_clean t).rows.length ≤ t.rows.length
  rw [basic_clean_rows, List.length_map]
  have : ∀ (l seen : List (List Cell)), (dedupKeepFirst l seen).length ≤ l.length := by
    intro l
    induction l with
    | nil => intro seen; simp [dedupKeepFirst]
    | cons a tl ih =>
        intro seen
        rw [dedupKeepFirst]
        by_cases ha : a ∈ seen
        · rw [if_pos ha]
          exact Nat.le_succ_of_le (ih seen)
        · rw [if_neg ha]
          simpa using ih (a :: seen)
  exact this t.rows []

/- ### Value sets of the derived categorical columns -/

theorem labelOf_mem (e1 e2 : ℚ) (a b c : String) (q : ℚ) :
    labelOf e1 e2 a b c q = a ∨ labelOf e1 e2 a b c q = b ∨
      labelOf e1 e2 a b c q = c := by
  rw [labelOf]
  split_ifs <;> simp

theorem strLabelCell_mem (e1 e2 : ℚ) (a b c : String) (q : ℚ) :
    Cell.str (labelOf e1 e2 a b c q) = Cell.str a ∨
    Cell.str (labelOf e1 e2 a b c q) = Cell.str b ∨
    Cell.str (labelOf e1 e2 a b c q) = Cell.str c := by
  rcases labelOf_mem e1 e2 a b c q with e | e | e <;> simp [e]

theorem usageRule_mem (q : ℚ) :
    usageRule q = "casual" ∨ usageRule q = "regular" ∨ usageRule q = "heavy" :=
  labelOf_mem _ _ _ _ _ q

theorem ageRule_mem (q : ℚ) :
    ageRule q = Cell.na ∨ ageRule q = Cell.str "<25" ∨ ageRule q = Cell.str "25-34" ∨
    ageRule q = Cell.str "35-44" ∨ ageRule q = Cell.str "45-54" ∨
    ageRule q = Cell.str "55+" := by
  rw [ageRule]
  split_ifs <;> simp

theorem imputeNums_all_num (cs : List Cell) :
    ∀ c ∈ imputeNums cs, ∃ q : ℚ, c = Cell.num q := by
  intro c hc
  rw [imputeNums, List.map_map] at hc
  obtain ⟨o, _, rfl⟩ := List.mem_map.mp hc
  exact ⟨_, rfl⟩

theorem toNums?_all_num {cs : List Cell} (hnum : ∀ c ∈ cs, ∃ q : ℚ, c = Cell.num q) :
    toNums? cs = some (cs.map toNumericCell) ∧
      ∀ o ∈ cs.map toNumericCell, o.isSome = true := by
  constructor
  · rw [toNums?, if_pos]
    rw [List.all_eq_true]
    intro c hc
    obtain ⟨q, rfl⟩ := hnum c hc
    rfl
  · intro o ho
    obtain ⟨c, hc, rfl⟩ := List.mem_map.mp ho
    obtain ⟨q, rfl⟩ := hnum c hc
    rfl

theorem qcut3_mem {a b c : String} {nums : List (Option ℚ)} {ls : List Cell}
    (h : qcut3 a b c nums = some ls) :
    ∀ x ∈ ls, x = Cell.na ∨ x = Cell.str a ∨ x = Cell.str b ∨ x = Cell.str c := by
  rw [qcut3] at h
  split at h
  · cases h
  · dsimp only at h
    split at h
    · cases h
      intro x hx
      obtain ⟨o, _, rfl⟩ := List.mem_map.mp hx
      cases o with
      | none => exact Or.inl rfl
      | some q => exact Or.inr (strLabelCell_mem _ _ a b c q)
    · cases h

theorem qcut3_mem_of_some {a b c : String} {nums : List (Option ℚ)} {ls : List Cell}
    (h : qcut3 a b c nums = some ls) (hall : ∀ o ∈ nums, o.isSome = true) :
    ∀ x ∈ ls, x = Cell.str a ∨ x = Cell.str b ∨ x = Cell.str c := by
  rw [qcut3] at h
  split at h
  · cases h
  · dsimp only at h
    split at h
    · cases h
      intro x hx
      obtain ⟨o, ho, rfl⟩ := List.mem_map.mp hx
      cases o with
      | none => cases hall none ho
      | some q => exact strLabelCell_mem _ _ a b c q
    · cases h

theorem cut3_mem_of_some {a b c : String} {nums : List (Option ℚ)} {ls : List Cell}
    (h : cut3 a b c nums = some ls) (hall : ∀ o ∈ nums, o.isSome = true) :
    ∀ x ∈ ls, x = Cell.str a ∨ x = Cell.str b ∨ x = Cell.str c := by
  rw [cut3] at h
  split at h
  · cases h
    intro x hx
    obtain ⟨o, ho, rfl⟩ := List.mem_map.mp hx
    cases o with
    | none => cases hall none ho
    | some q => exact strLabelCell_mem _ _ a b c q
  · cases h

theorem milesCategoryCol_mem {cs : List Cell}
    (hnum : ∀ c ∈ cs, ∃ q : ℚ, c = Cell.num q) :
    ∀ x ∈ milesCategoryCol cs, x = Cell.str "low" ∨ x = Cell.str "medium" ∨
      x = Cell.str "high" ∨ x = Cell.str "unknown" := by
  obtain ⟨hn, hall⟩ := toNums?_all_num hnum
  intro x hx
  rw [milesCategoryCol, hn] at hx
  dsimp only at hx
  split at hx
  · cases hq : qcut3 "low" "medium" "high" (cs.map toNumericCell) with
    | none =>
        rw [hq] at hx
        simp only [List.mem_replicate] at hx
        simp [hx.2]
    | some ls =>
        rw [hq] at hx
        rcases qcut3_mem_of_some hq hall x hx with e | e | e <;> simp [e]
  · cases hq : cut3 "low" "medium" "high" (cs.map toNumericCell) with
    | none =>
        rw [hq] at hx
        simp only [List.mem_replicate] at hx
        simp [hx.2]
    | some ls =>
        rw [hq] at hx
        rcases cut3_mem_of_some hq hall x hx with e | e | e <;> simp [e]

/- ### Positional characterization of the imputation -/

theorem imputeNums_getD_some {cs : List Cell} {i : ℕ} (hi : i < cs.length) {q : ℚ}
    (h : toNumericCell (cs.getD i Cell.na) = some q) :
    (imputeNums cs).getD i Cell.na = Cell.num q := by
  rw [List.getD_eq_getElem?_getD, List.getElem?_eq_getElem hi] at h
  rw [imputeNums, List.getD_eq_getElem?_getD, List.getElem?_map, List.getElem?_map,
    List.getElem?_eq_getElem hi]
  simp only [Option.getD_some] at h
  simp [h]

theorem imputeNums_getD_none {cs : List Cell} {i : ℕ} (hi : i < cs.length)
    (h : toNumericCell (cs.getD i Cell.na) = none) :
    (imputeNums cs).getD i Cell.na = Cell.num (fillValue cs) := by
  rw [List.getD_eq_getElem?_getD, List.getElem?_eq_getElem hi] at h
  rw [imputeNums, List.getD_eq_getElem?_getD, List.getElem?_map, List.getElem?_map,
    List.getElem?_eq_getElem hi]
  simp only [Option.getD_some] at h
  simp [h]

theorem fillValue_def (cs : List Cell) :
    fillValue cs = (if (cs.filterMap toNumericCell).isEmpty then 0
      else median (cs.filterMap toNumericCell)) := rfl

/- ### The first seven derivation steps together -/

theorem steps1to7_evolves {t t1 t2 t3 t5 t6 : Table} (hwf : t.Wf)
    (h1 : productStep t = some t1) (h2 : genderStep t1 = some t2)
    (h3 : incomeStep t2 = some t3) (h5 : usageStep (milesStep t3) = some t5)
    (h6 : ageStep t5 = some t6) :
    Evolves t (educationStep t6) outs7 := by
  have e1 := evolves_mono (productStep_evolves hwf h1) (w := outs7) (by decide)
  have e2 := evolves_mono (genderStep_evolves e1.wf h2) (w := outs7) (by decide)
  have e3 := evolves_mono (incomeStep_evolves e2.wf h3) (w := outs7) (by decide)
  have e4 := evolves_mono (milesStep_evolves e3.wf) (w := outs7) (by decide)
  have e5 := evolves_mono (usageStep_evolves e4.wf h5) (w := outs7) (by decide)
  have e6 := evolves_mono (ageStep_evolves e5.wf h6) (w := outs7) (by decide)
  have e7 := evolves_mono (educationStep_evolves e6.wf) (w := outs7) (by decide)
  exact evolves_trans e1 (evolves_trans e2 (evolves_trans e3
    (evolves_trans e4 (evolves_trans e5 (evolves_trans e6 e7)))))

theorem find?_datetime_of_evolves {t u : Table} (he : Evolves t u outs7) :
    u.header.find? isDatetimeName = t.header.find? isDatetimeName := by
  obtain ⟨_, _, ⟨L, hh, hs⟩, _⟩ := he
  have hnone : L.find? isDatetimeName = none := by
    rw [List.find?_eq_none]
    intro x hx
    have hmem := hs x hx
    have : ∀ y ∈ outs7, isDatetimeName y = false := by decide
    simp [this x hmem]
  rw [hh, List.find?_append, hnone]
  cases t.header.find? isDatetimeName <;> rfl

theorem datetimeStep_dtc_value {t : Table} (hwf : t.Wf) {dtc : String} {cs : List Cell}
    (hf : t.header.find? isDatetimeName = some dtc) (hc : t.getCol? dtc = some cs)
    (hd : dtc ≠ "date") (hh : dtc ≠ "hour") (hw : dtc ≠ "day_of_week") :
    (datetimeStep t).getCol? dtc = some (cs.map parseCellDatetime) := by
  rcases datetimeStep_cases t with ⟨hn, _⟩ | ⟨dtc', cs', hf', hc', he⟩
  · rw [hn] at hf
    cases hf
  · rw [hf'] at hf
    cases hf
    rw [hc] at hc'
    cases hc'
    rw [he]
    have hlen : (cs.map parseCellDatetime).length = t.nrows := by
      simpa using Table.getCol?_length hc
    have w1 : (t.setCol dtc (cs.map parseCellDatetime)).Wf := Table.wf_setCol hwf hlen
    have n1 : (t.setCol dtc (cs.map parseCellDatetime)).nrows = t.nrows :=
      Table.nrows_setCol hlen
    have v1 : (t.setCol dtc (cs.map parseCellDatetime)).getCol? dtc =
        some (cs.map parseCellDatetime) := Table.getCol?_setCol_self hwf hlen
    have l2 : ((cs.map parseCellDatetime).map dateCell).length =
        (t.setCol dtc (cs.map parseCellDatetime)).nrows := by
      rw [n1]
      simpa using hlen
    have w2 := Table.wf_setCol (n := "date") w1 l2
    have n2 := Table.nrows_setCol (n := "date")
      (t := t.setCol dtc (cs.map parseCellDatetime)) l2
    have v2 := Table.getCol?_setCol_ne (n := "date") w1 l2 hd
    have l3 : ((cs.map parseCellDatetime).map hourCell).length =
        ((t.setCol dtc (cs.map parseCellDatetime)).setCol "date"
          ((cs.map parseCellDatetime).map dateCell)).nrows := by
      rw [n2, n1]
      simpa using hlen
    have w3 := Table.wf_setCol (n := "hour") w2 l3
    have n3 := Table.nrows_setCol (n := "hour") l3
    have v3 := Table.getCol?_setCol_ne (n := "hour") w2 l3 hh
    have l4 : ((cs.map parseCellDatetime).map dayNameCell).length =
        (((t.setCol dtc (cs.map parseCellDatetime)).setCol "date"
          ((cs.map parseCellDatetime).map dateCell)).setCol "hour"
          ((cs.map parseCellDatetime).map hourCell)).nrows := by
      rw [n3, n2, n1]
      simpa using hlen
    have v4 := Table.getCol?_setCol_ne (n := "day_of_week") w3 l4 hw
    rw [v4, v3, v2, v1]

/- quick evaluation sanity checks (removed helpers would not change proofs) -/
example : normalizeName "  Miles Run " = "miles_run" := by decide
example : parseRat " 28 " = some 28 := by decide
example : parseRat "3.25" = some (13/4) := by decide
example : parseRat "x" = none := by decide
example : median [1, 2, 3, 4] = 5/2 := by decide
example :
    impute_and_cast ⟨["age"], [[.num 4], [.na], [.num 8]]⟩ =
      ⟨["age"], [[.num 4], [.num 6], [.num 8]]⟩ := by decide
example :
    basic_clean ⟨["A B"], [[.str " x"], [.str " x"], [.str "x"]]⟩ =
      ⟨["a_b"], [[.str "x"], [.str "x"]]⟩ := by decide
example : genderLabel "Female" = "male" := by decide
example : genderLabel "f" = "female" := by decide
example : ageRule 0 = .na := by decide
example : ageRule 24 = .str "<25" := by decide
example : usageRule (299/100) = "casual" := by decide
example : usageRule 5 = "regular" := by decide
example :
    qcut3 "low" "medium" "high" [some 1, some 2, some 3] =
      some [.str "low", .str "medium", .str "high"] := by decide
example : qcut3 "low" "medium" "high" [some 1, some 1, some 1] = none := by decide
example :
    cut3 "low" "medium" "high" [some 5, some 5] =
      some [.str "medium", .str "medium"] := by decide
example : parseDate "2021-05-03" = some (2021, 5, 3) := by decide
example : dayNameCell (.dt 2021 5 3) = .str "Monday" := by decide
example :
    feature_engineering ⟨["gender"], [[.str "Female"], [.str "X"]]⟩ =
      some ⟨["gender", "gender_label"],
        [[.str "Female", .str "male"], [.str "X", .str "x"]]⟩ := by decide


/- ### Rule-level helper lemmas -/

theorem usageRule_spec (q : ℚ) :
    (q ≤ 299/100 → usageRule q = "casual") ∧
    (299/100 < q → q ≤ 5 → usageRule q = "regular") ∧
    (5 < q → usageRule q = "heavy") := by
  refine ⟨fun h => ?_, fun h1 h2 => ?_, fun h => ?_⟩
  · rw [usageRule, labelOf, if_pos h]
  · rw [usageRule, labelOf, if_neg (by linarith), if_pos h2]
  · rw [usageRule, labelOf, if_neg (by linarith), if_neg (by linarith)]

theorem ageRule_spec (q : ℚ) :
    (0 < q → q ≤ 24 → ageRule q = Cell.str "<25") ∧
    (24 < q → q ≤ 34 → ageRule q = Cell.str "25-34") ∧
    (34 < q → q ≤ 44 → ageRule q = Cell.str "35-44") ∧
    (44 < q → q ≤ 54 → ageRule q = Cell.str "45-54") ∧
    (54 < q → q ≤ 120 → ageRule q = Cell.str "55+") ∧
    (q ≤ 0 → ageRule q = Cell.na) ∧ (120 < q → ageRule q = Cell.na) := by
  refine ⟨fun h1 h2 => ?_, fun h1 h2 => ?_, fun h1 h2 => ?_, fun h1 h2 => ?_,
    fun h1 h2 => ?_, fun h => ?_, fun h => ?_⟩
  · rw [ageRule, if_pos ⟨h1, h2⟩]
  · rw [ageRule, if_neg (by rintro ⟨_, hx⟩; linarith), if_pos ⟨by linarith, h2⟩]
  · rw [ageRule, if_neg (by rintro ⟨_, hx⟩; linarith),
      if_neg (by rintro ⟨_, hx⟩; linarith), if_pos ⟨by linarith, h2⟩]
  · rw [ageRule, if_neg (by rintro ⟨_, hx⟩; linarith),
      if_neg (by rintro ⟨_, hx⟩; linarith), if_neg (by rintro ⟨_, hx⟩; linarith),
      if_pos ⟨by linarith, h2⟩]
  · rw [ageRule, if_neg (by rintro ⟨_, hx⟩; linarith),
      if_neg (by rintro ⟨_, hx⟩; linarith), if_neg (by rintro ⟨_, hx⟩; linarith),
      if_neg (by rintro ⟨_, hx⟩; linarith), if_pos ⟨by linarith, h2⟩]
  · rw [ageRule, if_neg (by rintro ⟨hx, _⟩; linarith),
      if_neg (by rintro ⟨hx, _⟩; linarith), if_neg (by rintro ⟨hx, _⟩; linarith),
      if_neg (by rintro ⟨hx, _⟩; linarith), if_neg (by rintro ⟨hx, _⟩; linarith)]
  · rw [ageRule, if_neg (by rintro ⟨_, hx⟩; linarith),
      if_neg (by rintro ⟨_, hx⟩; linarith), if_neg (by rintro ⟨_, hx⟩; linarith),
      if_neg (by rintro ⟨_, hx⟩; linarith), if_neg (by rintro ⟨_, hx⟩; linarith)]

/- ### Claims -/

/-- C1 counterexample: the claim says the input "Female" maps to
"female", but lower-cased "female" contains the letter "m", so the code
maps it to "male". -/
theorem c1_counterexample :
    (feature_engineering ⟨["gender"], [[Cell.str "Female"]]⟩).map
      (fun u => u.getCol? "gender_label") = some (some [Cell.str "male"]) ∧
    Cell.str "male" ≠ Cell.str "female" := by
  constructor
  · decide
  · decide

/-- C1 (amended): for every table with an all-string gender column on
which feature_engineering succeeds, gender_label is the lower-cased
gender value mapped to "male" if it contains "m", else "female" if it
contains "f", else the lower-cased value itself.  In particular "Male",
"M", "m" map to "male"; "f" maps to "female"; "Female" also maps to
"male" (its lower-casing contains "m"); and the unrecognized "X" passes
through lower-cased, as "x". -/
theorem c1_amended {t t' : Table} (hwf : t.Wf)
    (h : feature_engineering t = some t') {cs : List Cell}
    (hc : t.getCol? "gender" = some cs) :
    t'.getCol? "gender_label" = some (cs.map fun c => match c with
      | Cell.str s => Cell.str (genderLabel s)
      | _ => Cell.na) ∧
    (∀ s, genderLabel s =
      (if strHasChar (lowerStr s) 'm' then "male"
       else if strHasChar (lowerStr s) 'f' then "female" else lowerStr s)) ∧
    genderLabel "Male" = "male" ∧ genderLabel "M" = "male" ∧
    genderLabel "m" = "male" ∧ genderLabel "Female" = "male" ∧
    genderLabel "f" = "female" ∧ genderLabel "X" = "x" :=
  ⟨(fe_gender_label hwf h hc).2, fun _ => rfl, by decide, by decide, by decide,
    by decide, by decide, by decide⟩

/-- C1 witness: c1_amended applied to a one-row table with gender
"Male". -/
theorem c1_witness :
    (feature_engineering ⟨["gender"], [[Cell.str "Male"]]⟩).map
      (fun u => u.getCol? "gender_label") = some (some [Cell.str "male"]) := by
  have hfe : feature_engineering ⟨["gender"], [[Cell.str "Male"]]⟩ =
      some ⟨["gender", "gender_label"], [[Cell.str "Male", Cell.str "male"]]⟩ := by decide
  have hc1 : (⟨["gender"], [[Cell.str "Male"]]⟩ : Table).getCol? "gender" =
      some [Cell.str "Male"] := by decide
  have h := (c1_amended (t := ⟨["gender"], [[Cell.str "Male"]]⟩) (by decide) hfe hc1).1
  rw [hfe]
  simpa using h

/-- C2 counterexample: the claim says age 0 maps to the label "<25", but
the bins of pd.cut are left-open with bottom edge 0, so age 0 gets a
missing label. -/
theorem c2_counterexample :
    (feature_engineering ⟨["age"], [[Cell.num 0]]⟩).map
      (fun u => u.getCol? "age_bucket") = some (some [Cell.na]) ∧
    Cell.na ≠ Cell.str "<25" := by
  constructor
  · decide
  · decide

/-- C2 (amended): age_bucket is assigned by fixed-threshold bins at 24,
34, 44, 54 with labels "<25", "25-34", "35-44", "45-54", "55+", and ages
24, 25 and 120 land exactly as claimed; but the bins are left-open with
edges 0 and 120, so age 0 (like any age outside (0, 120]) gets a missing
value, not "<25". -/
theorem c2_amended {t t' : Table} (hwf : t.Wf)
    (h : feature_engineering t = some t') {cs : List Cell}
    (hc : t.getCol? "age" = some cs) :
    (∃ nums, toNums? cs = some nums ∧
      t'.getCol? "age_bucket" = some (nums.map fun o =>
        match o with
        | none => Cell.na
        | some q => ageRule q)) ∧
    (∀ q : ℚ, (0 < q → q ≤ 24 → ageRule q = Cell.str "<25") ∧
      (24 < q → q ≤ 34 → ageRule q = Cell.str "25-34") ∧
      (34 < q → q ≤ 44 → ageRule q = Cell.str "35-44") ∧
      (44 < q → q ≤ 54 → ageRule q = Cell.str "45-54") ∧
      (54 < q → q ≤ 120 → ageRule q = Cell.str "55+") ∧
      (q ≤ 0 → ageRule q = Cell.na) ∧ (120 < q → ageRule q = Cell.na)) ∧
    ageRule 24 = Cell.str "<25" ∧ ageRule 25 = Cell.str "25-34" ∧
    ageRule 120 = Cell.str "55+" ∧ ageRule 0 = Cell.na :=
  ⟨fe_age_bucket hwf h hc, ageRule_spec, by decide, by decide, by decide, by decide⟩

/-- C2 witness: c2_amended applied to a one-row table with age 30. -/
theorem c2_witness :
    (feature_engineering ⟨["age"], [[Cell.num 30]]⟩).map
      (fun u => u.getCol? "age_bucket") = some (some [Cell.str "25-34"]) := by
  have hfe : feature_engineering ⟨["age"], [[Cell.num 30]]⟩ =
      some ⟨["age", "age_bucket"], [[Cell.num 30, Cell.str "25-34"]]⟩ := by decide
  have hc2 : (⟨["age"], [[Cell.num 30]]⟩ : Table).getCol? "age" =
      some [Cell.num 30] := by decide
  obtain ⟨nums, hn, hv⟩ :=
    (c2_amended (t := ⟨["age"], [[Cell.num 30]]⟩) (by decide) hfe hc2).1
  rw [hfe]
  have hnums : nums = [some 30] := by
    rw [show toNums? [Cell.num 30] = some [some (30 : ℚ)] from by decide] at hn
    exact (Option.some.inj hn).symm
  subst hnums
  simpa using hv

/-- C6: usage_category is assigned by the fixed thresholds of
pd.cut with bins [-inf, 2.99, 5.0, inf]: "casual" for usage ≤ 2.99,
"regular" for 2.99 < usage ≤ 5.0, "heavy" for usage > 5.0; the
boundary values 2.99, 3.0, 5.0, 5.01 land exactly as claimed. -/
theorem c6_usage_category {t t' : Table} (hwf : t.Wf)
    (h : feature_engineering t = some t') {cs : List Cell}
    (hc : t.getCol? "usage" = some cs) :
    (∃ nums, toNums? cs = some nums ∧
      t'.getCol? "usage_category" = some (nums.map fun o =>
        match o with
        | none => Cell.na
        | some q => Cell.str (usageRule q))) ∧
    (∀ q : ℚ, (q ≤ 299/100 → usageRule q = "casual") ∧
      (299/100 < q → q ≤ 5 → usageRule q = "regular") ∧
      (5 < q → usageRule q = "heavy")) ∧
    usageRule (299/100) = "casual" ∧ usageRule 3 = "regular" ∧
    usageRule 5 = "regular" ∧ usageRule (501/100) = "heavy" :=
  ⟨fe_usage_category hwf h hc, usageRule_spec, by decide, by decide, by decide,
    by decide⟩

/-- C6 witness: c6_usage_category applied to a one-row table with
usage 3. -/
theorem c6_witness :
    (feature_engineering ⟨["usage"], [[Cell.num 3]]⟩).map
      (fun u => u.getCol? "usage_category") = some (some [Cell.str "regular"]) := by
  have hfe : feature_engineering ⟨["usage"], [[Cell.num 3]]⟩ =
      some ⟨["usage", "usage_category"], [[Cell.num 3, Cell.str "regular"]]⟩ := by decide
  have hc6 : (⟨["usage"], [[Cell.num 3]]⟩ : Table).getCol? "usage" =
      some [Cell.num 3] := by decide
  obtain ⟨nums, hn, hv⟩ := (c6_usage_category (t := ⟨["usage"], [[Cell.num 3]]⟩)
    (by decide) hfe hc6).1
  rw [hfe]
  have hnums : nums = [some 3] := by
    rw [show toNums? [Cell.num 3] = some [some (3 : ℚ)] from by decide] at hn
    exact (Option.some.inj hn).symm
  subst hnums
  simpa using hv

/-- C7: miles_category is derived by a three-way quantile split when
miles has at least 3 distinct values, by a three-bin equal-width split
otherwise; if either split raises, every row gets the literal string
"unknown", and the failure is never surfaced to the caller (the step is
total and feature_engineering still writes the column). -/
theorem c7_miles_category {t t' : Table} (hwf : t.Wf)
    (h : feature_engineering t = some t') {cs : List Cell}
    (hc : t.getCol? "miles" = some cs) :
    t'.getCol? "miles_category" = some (milesCategoryCol cs) ∧
    (∀ ds nums, toNums? ds = some nums →
      (3 ≤ nuniqueNums nums → ∀ ls, qcut3 "low" "medium" "high" nums = some ls →
        milesCategoryCol ds = ls) ∧
      (3 ≤ nuniqueNums nums → qcut3 "low" "medium" "high" nums = none →
        milesCategoryCol ds = List.replicate ds.length (Cell.str "unknown")) ∧
      (nuniqueNums nums < 3 → ∀ ls, cut3 "low" "medium" "high" nums = some ls →
        milesCategoryCol ds = ls) ∧
      (nuniqueNums nums < 3 → cut3 "low" "medium" "high" nums = none →
        milesCategoryCol ds = List.replicate ds.length (Cell.str "unknown"))) ∧
    (∀ ds, toNums? ds = none →
      milesCategoryCol ds = List.replicate ds.length (Cell.str "unknown")) := by
  refine ⟨fe_miles_category hwf h hc, ?_, ?_⟩
  · intro ds nums hn
    refine ⟨fun h3 ls hq => ?_, fun h3 hq => ?_, fun h3 ls hq => ?_, fun h3 hq => ?_⟩
    · rw [milesCategoryCol, hn]
      dsimp only
      rw [if_pos h3, hq]
    · rw [milesCategoryCol, hn]
      dsimp only
      rw [if_pos h3, hq]
    · rw [milesCategoryCol, hn]
      dsimp only
      rw [if_neg (by omega), hq]
    · rw [milesCategoryCol, hn]
      dsimp only
      rw [if_neg (by omega), hq]
  · intro ds hd
    rw [milesCategoryCol, hd]

/-- C7 witness: c7_miles_category applied to a three-row table with
miles 1, 2, 3 (quantile split applies and labels the three rows). -/
theorem c7_witness :
    (feature_engineering ⟨["miles"], [[Cell.num 1], [Cell.num 2], [Cell.num 3]]⟩).map
      (fun u => u.getCol? "miles_category") =
      some (some [Cell.str "low", Cell.str "medium", Cell.str "high"]) := by
  have hfe : feature_engineering ⟨["miles"], [[Cell.num 1], [Cell.num 2], [Cell.num 3]]⟩ =
      some ⟨["miles", "miles_category"],
        [[Cell.num 1, Cell.str "low"], [Cell.num 2, Cell.str "medium"],
         [Cell.num 3, Cell.str "high"]]⟩ := by decide
  have hc7 : (⟨["miles"], [[Cell.num 1], [Cell.num 2], [Cell.num 3]]⟩ : Table).getCol?
      "miles" = some ([[Cell.num 1], [Cell.num 2], [Cell.num 3]].map
        (fun r => cellAt r 0)) := by decide
  have h := (c7_miles_category
    (t := ⟨["miles"], [[Cell.num 1], [Cell.num 2], [Cell.num 3]]⟩) (by decide) hfe
    hc7).1
  rw [hfe]
  rw [show milesCategoryCol ([[Cell.num 1], [Cell.num 2], [Cell.num 3]].map
    (fun r => cellAt r 0)) = [Cell.str "low", Cell.str "medium", Cell.str "high"]
    from by decide] at h
  simpa using h

/-- C8 counterexample: the Cleaner trims strings after dropping
duplicates, so trimming can create new duplicate rows; a second run then
drops them, changing the row count. -/
theorem c8_counterexample :
    (basic_clean ⟨["a"], [[Cell.str " x"], [Cell.str "x"]]⟩).nrows = 2 ∧
    (basic_clean (basic_clean ⟨["a"], [[Cell.str " x"], [Cell.str "x"]]⟩)).nrows = 1 ∧
    (1 : ℕ) ≠ 2 := by
  refine ⟨by decide, by decide, by decide⟩

/-- C8 (amended): a second Cleaner run can still drop rows (trimming
runs after deduplication and can create new exact duplicates), but from
then on the Cleaner is stable: running it three times yields the same
row count as running it twice. -/
theorem c8_amended (t : Table) :
    (basic_clean (basic_clean (basic_clean t))).nrows =
      (basic_clean (basic_clean t)).nrows :=
  basic_clean_stable_nrows t

/-- C9: impute_and_cast is idempotent on well-formed tables: after one
application every present candidate column is numeric with no missing
values, and every present categorical column is already a trimmed
string, so a second application changes nothing. -/
theorem c9_impute_idempotent {t : Table} (hwf : t.Wf) :
    impute_and_cast (impute_and_cast t) = impute_and_cast t :=
  impute_and_cast_idem hwf

/-- C9 witness: c9_impute_idempotent applied to a table with a missing
income and an untrimmed product label. -/
theorem c9_witness :
    (⟨["income", "product"],
      [[Cell.na, Cell.str " KP281 "], [Cell.num 40000, Cell.str "KP481"]]⟩ : Table).Wf ∧
    impute_and_cast (impute_and_cast ⟨["income", "product"],
      [[Cell.na, Cell.str " KP281 "], [Cell.num 40000, Cell.str "KP481"]]⟩) =
      impute_and_cast ⟨["income", "product"],
        [[Cell.na, Cell.str " KP281 "], [Cell.num 40000, Cell.str "KP481"]]⟩ :=
  ⟨by decide, c9_impute_idempotent (by decide)⟩

/-- C5: after the Imputer, every candidate column present in the table
holds the median-imputed numeric coercion of its original cells: no
value is left missing, parseable entries keep their value, missing or
unparseable entries are filled with the median of the non-missing
values computed before filling (0 when every value was missing), and
candidate names absent from the table stay absent. -/
theorem c5_impute_contract {t : Table} (hwf : t.Wf) {n : String}
    (hn : n ∈ numericCandidates) :
    (∀ cs, t.getCol? n = some cs →
      (impute_and_cast t).getCol? n = some (imputeNums cs) ∧
      (∀ c ∈ imputeNums cs, ∃ q : ℚ, c = Cell.num q) ∧
      (∀ i, i < cs.length → ∀ q, toNumericCell (cs.getD i Cell.na) = some q →
        (imputeNums cs).getD i Cell.na = Cell.num q) ∧
      (∀ i, i < cs.length → toNumericCell (cs.getD i Cell.na) = none →
        (imputeNums cs).getD i Cell.na = Cell.num (fillValue cs)) ∧
      fillValue cs = (if (cs.filterMap toNumericCell).isEmpty then 0
        else median (cs.filterMap toNumericCell))) ∧
    (t.getCol? n = none → (impute_and_cast t).getCol? n = none) := by
  constructor
  · intro cs hc
    refine ⟨?_, imputeNums_all_num cs, fun i hi q hq => imputeNums_getD_some hi hq,
      fun i hi hq => imputeNums_getD_none hi hq, fillValue_def cs⟩
    rw [getCol?_impute_and_cast_candidate hwf hn, hc]
    rfl
  · intro hc
    rw [getCol?_impute_and_cast_candidate hwf hn, hc]
    rfl

/-- C5 witness: c5_impute_contract applied to an income column with one
missing value; the median of 10 and 20 fills it. -/
theorem c5_witness :
    (impute_and_cast ⟨["income"], [[Cell.num 10], [Cell.na], [Cell.num 20]]⟩).getCol?
      "income" = some (imputeNums [Cell.num 10, Cell.na, Cell.num 20]) ∧
    imputeNums [Cell.num 10, Cell.na, Cell.num 20] =
      [Cell.num 10, Cell.num 15, Cell.num 20] := by
  refine ⟨((c5_impute_contract (t := ⟨["income"], [[Cell.num 10], [Cell.na],
    [Cell.num 20]]⟩) (by decide) (by decide)).1 [Cell.num 10, Cell.na, Cell.num 20]
    (by decide)).1, by decide⟩

/-- C4 counterexample: a pipeline input with age 0 produces a Processed
Table whose age_bucket column is present but contains a missing value,
outside the closed label set. -/
theorem c4_counterexample :
    (process_model ⟨["age"], [[Cell.num 0], [Cell.num 30]]⟩).map
      (fun u => u.getCol? "age_bucket") = some (some [Cell.na, Cell.str "25-34"]) ∧
    Cell.na ∉ [Cell.str "<25", Cell.str "25-34", Cell.str "35-44",
      Cell.str "45-54", Cell.str "55+"] := by
  constructor
  · decide
  · decide

/-- C4 (amended): in every Processed Table of a well-formed input, each
derived categorical column whose source column survives the Cleaner
takes its values from the fixed closed label set of that column, except
that age_bucket is missing for ages outside (0, 120], income_bucket is
missing where a zero income was treated as missing by the quantile
split, and miles_category may carry the fallback label "unknown";
usage_category and miles_category are never missing. -/
theorem c4_amended {t t' : Table} (hwf : t.Wf) (h : process_model t = some t') :
    ("usage" ∈ (basic_clean t).header →
      ∃ cs, t'.getCol? "usage_category" = some cs ∧
        ∀ x ∈ cs, x = Cell.str "casual" ∨ x = Cell.str "regular" ∨
          x = Cell.str "heavy") ∧
    ("miles" ∈ (basic_clean t).header →
      ∃ cs, t'.getCol? "miles_category" = some cs ∧
        ∀ x ∈ cs, x = Cell.str "low" ∨ x = Cell.str "medium" ∨
          x = Cell.str "high" ∨ x = Cell.str "unknown") ∧
    ("age" ∈ (basic_clean t).header →
      ∃ cs, t'.getCol? "age_bucket" = some cs ∧
        ∀ x ∈ cs, x = Cell.na ∨ x = Cell.str "<25" ∨ x = Cell.str "25-34" ∨
          x = Cell.str "35-44" ∨ x = Cell.str "45-54" ∨ x = Cell.str "55+") ∧
    ("income" ∈ (basic_clean t).header →
      ∃ cs, t'.getCol? "income_bucket" = some cs ∧
        ∀ x ∈ cs, x = Cell.na ∨ x = Cell.str "low" ∨ x = Cell.str "medium" ∨
          x = Cell.str "high") := by
  rw [process_model] at h
  have hwfu : (impute_and_cast (basic_clean t)).Wf :=
    impute_and_cast_wf (basic_clean_wf hwf)
  refine ⟨fun hmem => ?_, fun hmem => ?_, fun hmem => ?_, fun hmem => ?_⟩
  · obtain ⟨cs0, hc0⟩ := Option.isSome_iff_exists.mp
      (Table.getCol?_isSome_iff.mpr hmem)
    have hu : (impute_and_cast (basic_clean t)).getCol? "usage" =
        some (imputeNums cs0) := by
      rw [getCol?_impute_and_cast_candidate (basic_clean_wf hwf) (by decide), hc0]
      rfl
    obtain ⟨nums, hn, hv⟩ := fe_usage_category hwfu h hu
    obtain ⟨hn2, hall⟩ := toNums?_all_num (imputeNums_all_num cs0)
    rw [hn2] at hn
    cases hn
    refine ⟨_, hv, ?_⟩
    intro x hx
    obtain ⟨o, ho, rfl⟩ := List.mem_map.mp hx
    cases o with
    | none => cases hall none ho
    | some q => simpa using usageRule_mem q
  · obtain ⟨cs0, hc0⟩ := Option.isSome_iff_exists.mp
      (Table.getCol?_isSome_iff.mpr hmem)
    have hu : (impute_and_cast (basic_clean t)).getCol? "miles" =
        some (imputeNums cs0) := by
      rw [getCol?_impute_and_cast_candidate (basic_clean_wf hwf) (by decide), hc0]
      rfl
    have hv := fe_miles_category hwfu h hu
    exact ⟨_, hv, milesCategoryCol_mem (imputeNums_all_num cs0)⟩
  · obtain ⟨cs0, hc0⟩ := Option.isSome_iff_exists.mp
      (Table.getCol?_isSome_iff.mpr hmem)
    have hu : (impute_and_cast (basic_clean t)).getCol? "age" =
        some (imputeNums cs0) := by
      rw [getCol?_impute_and_cast_candidate (basic_clean_wf hwf) (by decide), hc0]
      rfl
    obtain ⟨nums, hn, hv⟩ := fe_age_bucket hwfu h hu
    refine ⟨_, hv, ?_⟩
    intro x hx
    obtain ⟨o, ho, rfl⟩ := List.mem_map.mp hx
    cases o with
    | none => simp
    | some q => simpa using ageRule_mem q
  · obtain ⟨cs0, hc0⟩ := Option.isSome_iff_exists.mp
      (Table.getCol?_isSome_iff.mpr hmem)
    have hu : (impute_and_cast (basic_clean t)).getCol? "income" =
        some (imputeNums cs0) := by
      rw [getCol?_impute_and_cast_candidate (basic_clean_wf hwf) (by decide), hc0]
      rfl
    obtain ⟨nums, hn, hrest⟩ := fe_income_bucket hwfu h hu
    rcases hrest with ⟨labels, hq, hv⟩ | ⟨hq, hv⟩
    · refine ⟨labels, hv, ?_⟩
      intro x hx
      rcases qcut3_mem hq x hx with e | e | e | e <;> simp [e]
    · refine ⟨_, hv, ?_⟩
      intro x hx
      obtain ⟨o, ho, rfl⟩ := List.mem_map.mp hx
      cases o with
      | none => simp
      | some q =>
          rcases strLabelCell_mem 40000 70000 "low" "medium" "high" q with e | e | e <;>
            simp [e]

/-- C4 witness: c4_amended applied to a two-row usage table. -/
theorem c4_witness :
    (process_model ⟨["usage"], [[Cell.num 2], [Cell.num 6]]⟩).map
      (fun u => u.getCol? "usage_category") =
      some (some [Cell.str "casual", Cell.str "heavy"]) ∧
    (∀ x ∈ [Cell.str "casual", Cell.str "heavy"],
      x = Cell.str "casual" ∨ x = Cell.str "regular" ∨ x = Cell.str "heavy") := by
  have hpm : process_model ⟨["usage"], [[Cell.num 2], [Cell.num 6]]⟩ =
      some ⟨["usage", "usage_category"],
        [[Cell.num 2, Cell.str "casual"], [Cell.num 6, Cell.str "heavy"]]⟩ := by decide
  obtain ⟨cs, hcs, hmem⟩ := (c4_amended (t := ⟨["usage"], [[Cell.num 2], [Cell.num 6]]⟩)
    (by decide) hpm).1 (by decide)
  rw [hpm]
  have : cs = [Cell.str "casual", Cell.str "heavy"] := by
    rw [show (⟨["usage", "usage_category"],
      [[Cell.num 2, Cell.str "casual"], [Cell.num 6, Cell.str "heavy"]]⟩ : Table).getCol?
        "usage_category" = some [Cell.str "casual", Cell.str "heavy"] from by decide] at hcs
    exact (Option.some.inj hcs).symm
  subst this
  exact ⟨by simpa using hcs, hmem⟩

/-- C10 counterexample: a pre-existing (non date-like) column named
product_label is overwritten by the Feature Deriver, so pre-existing
columns other than the first date-like one are not all left unchanged. -/
theorem c10_counterexample :
    (feature_engineering ⟨["product", "product_label"],
      [[Cell.str "a", Cell.str "KEEP"]]⟩).map
      (fun u => u.getCol? "product_label") = some (some [Cell.str "A"]) ∧
    (⟨["product", "product_label"], [[Cell.str "a", Cell.str "KEEP"]]⟩ : Table).getCol?
      "product_label" = some [Cell.str "KEEP"] ∧
    isDatetimeName "product_label" = false ∧
    some [Cell.str "A"] ≠ some [Cell.str "KEEP"] := by
  refine ⟨by decide, by decide, by decide, by decide⟩

/-- C10 (amended): when no pre-existing column bears one of the derived
output names, the Feature Deriver leaves every pre-existing column
unchanged except the first column whose name contains "date", "time" or
"datetime" (in column order), which is overwritten in place with its
values parsed as timestamps (unparseable values becoming missing); the
derivations otherwise only append new columns. -/
theorem c10_amended {t t' : Table} (hwf : t.Wf)
    (h : feature_engineering t = some t')
    (hclash : ∀ x ∈ derivedNames, x ∉ t.header) :
    (∀ n ∈ t.header,
      (∀ dtc, t.header.find? isDatetimeName = some dtc → n ≠ dtc) →
      t'.getCol? n = t.getCol? n) ∧
    (∀ dtc cs, t.header.find? isDatetimeName = some dtc →
      t.getCol? dtc = some cs →
      t'.getCol? dtc = some (cs.map parseCellDatetime)) ∧
    (∃ L, t'.header = t.header ++ L) := by
  obtain ⟨t1, t2, t3, t5, t6, h1, h2, h3, h5, h6, h9⟩ := feature_engineering_bind h
  have e17 := steps1to7_evolves hwf h1 h2 h3 h5 h6
  have hsub7 : ∀ x ∈ outs7, x ∈ derivedNames := by decide
  have hndt7 : ∀ x ∈ outs7, isDatetimeName x = false := by decide
  have hfind := find?_datetime_of_evolves e17
  have hmm : ∀ n, n ∈ t.header → ∀ m, m ∈ derivedNames → n ≠ m :=
    fun n hn m hm e => hclash m hm (e ▸ hn)
  cases hf : t.header.find? isDatetimeName with
  | none =>
      have e8 := datetimeStep_evolves_none e17.wf (by rw [hfind, hf]) ["date"]
      have e9 := countStep_evolves e8.wf h9
      refine ⟨?_, ?_, ?_⟩
      · intro n hn _
        have f17 := e17.frame (n := n)
          (fun hx => hmm n hn n (hsub7 n hx) rfl)
        have f8 := e8.frame (n := n)
          (by simpa using hmm n hn "date" (by decide))
        have f9 := e9.frame (n := n)
          (by simpa using hmm n hn "count" (by decide))
        rw [f9, f8, f17]
      · intro dtc cs hfind2 _
        cases hfind2
      · obtain ⟨L1, hL1, _⟩ := e17.2.2.1
        obtain ⟨L2, hL2, _⟩ := e8.2.2.1
        obtain ⟨L3, hL3, _⟩ := e9.2.2.1
        exact ⟨L1 ++ (L2 ++ L3), by rw [hL3, hL2, hL1]; simp [List.append_assoc]⟩
  | some dtc0 =>
      have hf7 : (educationStep t6).header.find? isDatetimeName = some dtc0 := by
        rw [hfind, hf]
      have hdtcname : isDatetimeName dtc0 = true := List.find?_some hf
      have hdtcmem : dtc0 ∈ t.header := List.mem_of_find?_eq_some hf
      have e8 := datetimeStep_evolves e17.wf hf7
      have e9 := countStep_evolves e8.wf h9
      refine ⟨?_, ?_, ?_⟩
      · intro n hn hne
        have f17 := e17.frame (n := n)
          (fun hx => hmm n hn n (hsub7 n hx) rfl)
        have f8 := e8.frame (n := n) (by
          simp only [List.mem_cons, List.mem_singleton, not_or]
          refine ⟨hne dtc0 rfl, hmm n hn "date" (by decide),
            hmm n hn "hour" (by decide), by simpa using hmm n hn "day_of_week" (by decide)⟩)
        have f9 := e9.frame (n := n)
          (by simpa using hmm n hn "count" (by decide))
        rw [f9, f8, f17]
      · intro dtc cs hfind2 hc
        have he : dtc = dtc0 := (Option.some.inj hfind2).symm
        subst he
        have f17 : (educationStep t6).getCol? dtc = some cs := by
          rw [e17.frame (n := dtc) (fun hx => by
            rw [hndt7 dtc hx] at hdtcname
            cases hdtcname), hc]
        have hval := datetimeStep_dtc_value e17.wf hf7 f17
          (hmm dtc hdtcmem "date" (by decide))
          (hmm dtc hdtcmem "hour" (by decide))
          (hmm dtc hdtcmem "day_of_week" (by decide))
        have f9 := e9.frame (n := dtc)
          (by simpa using hmm dtc hdtcmem "count" (by decide))
        rw [f9, hval]
      · obtain ⟨L1, hL1, _⟩ := e17.2.2.1
        obtain ⟨L2, hL2, _⟩ := e8.2.2.1
        obtain ⟨L3, hL3, _⟩ := e9.2.2.1
        exact ⟨L1 ++ (L2 ++ L3), by rw [hL3, hL2, hL1]; simp [List.append_assoc]⟩

/-- C10 witness: c10_amended applied to a table with a date-like column
and an age column; age is untouched and signup_date is parsed in place. -/
theorem c10_witness :
    (feature_engineering ⟨["signup_date", "age"],
      [[Cell.str "2021-05-03", Cell.num 30]]⟩).map
      (fun u => (u.getCol? "age", u.getCol? "signup_date")) =
      some (some [Cell.num 30], some [Cell.dt 2021 5 3]) := by
  have hfe : (feature_engineering ⟨["signup_date", "age"],
      [[Cell.str "2021-05-03", Cell.num 30]]⟩).isSome = true := by decide
  obtain ⟨T, hT⟩ := Option.isSome_iff_exists.mp hfe
  have hparts := c10_amended (t := ⟨["signup_date", "age"],
    [[Cell.str "2021-05-03", Cell.num 30]]⟩) (by decide) hT (by decide)
  have hfd : (⟨["signup_date", "age"],
      [[Cell.str "2021-05-03", Cell.num 30]]⟩ : Table).header.find? isDatetimeName =
      some "signup_date" := by decide
  have g1 := hparts.1 "age" (by decide) (fun dtc hd => by
    rw [hfd] at hd
    cases hd
    decide)
  have g2 := hparts.2.1 "signup_date" [Cell.str "2021-05-03"] hfd (by decide)
  rw [hT]
  simp only [Option.map_some']
  rw [g1, g2]
  decide

set_option maxRecDepth 100000 in
set_option maxHeartbeats 4000000 in
/-- Stage 1 of the §8 scenario: the Cleaner on the 180-row input. -/
theorem scenario_stage1 : basic_clean scenarioInput = scenarioT1 := by decide

set_option maxRecDepth 100000 in
set_option maxHeartbeats 4000000 in
/-- Stage 2 of the §8 scenario: the Imputer/Caster on the cleaned table. -/
theorem scenario_stage2 : impute_and_cast scenarioT1 = scenarioT2 := by decide

set_option maxRecDepth 100000 in
set_option maxHeartbeats 8000000 in
/-- Stage 3 of the §8 scenario: the Feature Deriver on the imputed table. -/
theorem scenario_stage3 : feature_engineering scenarioT2 = some scenarioT3 := by decide

set_option maxRecDepth 100000 in
set_option maxHeartbeats 4000000 in
/-- Stage 4 of the §8 scenario: the processed table has 179 rows, the six
derived columns are fully populated, and the chart renderer saves exactly
these seven files. -/
theorem scenario_stage4 :
    scenarioT3.nrows = 179 ∧
    (["product_label", "gender_label", "income_bucket", "miles_category",
      "usage_category", "age_bucket"].all (colPopulated scenarioT3)) = true ∧
    generate_all scenarioT3 =
      ["product_distribution.png", "income_by_product_boxplot.png",
       "miles_vs_usage.png", "usage_histogram.png", "product_gender_bar.png",
       "usage_by_product_boxplot.png", "correlation_heatmap.png"] := by
  refine ⟨by decide, by decide, by decide⟩

/-- The full pipeline on the §8 scenario input, assembled from the stages. -/
theorem scenario_process : process_model scenarioInput = some scenarioT3 := by
  show feature_engineering (impute_and_cast (basic_clean scenarioInput)) =
    some scenarioT3
  rw [scenario_stage1, scenario_stage2, scenario_stage3]

/-- Shared end-to-end evaluation of the §8 scenario: the 180-row input
processes to a 179-row table with the six derived columns fully
populated, and the chart renderer saves exactly these seven files. -/
theorem scenario_eval :
    (process_model scenarioInput).map (fun t =>
      (t.nrows,
       ["product_label", "gender_label", "income_bucket", "miles_category",
        "usage_category", "age_bucket"].all (colPopulated t),
       generate_all t)) =
      some (179, true,
        ["product_distribution.png", "income_by_product_boxplot.png",
         "miles_vs_usage.png", "usage_histogram.png", "product_gender_bar.png",
         "usage_by_product_boxplot.png", "correlation_heatmap.png"]) := by
  rw [scenario_process, Option.map_some']
  rw [scenario_stage4.1, scenario_stage4.2.1, scenario_stage4.2.2]

set_option maxRecDepth 100000 in
/-- C3 counterexample: on the §8 scenario input the chart renderer saves
7 image files, not 6 — only one of the eight charts (the education
stacked bar) requires education_label, so only one is skipped. -/
theorem c3_counterexample :
    (process_model scenarioInput).map (fun t => (generate_all t).length) = some 7 ∧
    scenarioInput.nrows = 180 ∧ (7 : ℕ) ≠ 6 := by
  obtain ⟨T, hT, hval⟩ := Option.map_eq_some'.mp scenario_eval
  simp only [Prod.mk.injEq] at hval
  refine ⟨?_, by decide, by decide⟩
  rw [hT, Option.map_some', hval.2.2]
  rfl

set_option maxRecDepth 100000 in
/-- C3 (amended): the 180-row scenario input with one exact duplicate
row yields a 179-row processed table whose six derived columns are all
fully populated, and the chart renderer run on it saves exactly 7 of
the 8 possible image files — all but the education stacked bar, the
only chart requiring education_label. -/
theorem c3_amended :
    scenarioInput.nrows = 180 ∧
    (process_model scenarioInput).map (fun t =>
      (t.nrows,
       ["product_label", "gender_label", "income_bucket", "miles_category",
        "usage_category", "age_bucket"].all (colPopulated t),
       generate_all t)) =
      some (179, true,
        ["product_distribution.png", "income_by_product_boxplot.png",
         "miles_vs_usage.png", "usage_histogram.png", "product_gender_bar.png",
         "usage_by_product_boxplot.png", "correlation_heatmap.png"]) :=
  ⟨by decide, scenario_eval⟩

end Aerofit
